import Mathlib

/-!
# Weather-Webapp: a shallow embedding of `src/script.js`

The JavaScript of the weather dashboard is embedded as Lean functions, and with
it the geocoding adapter of the simpler variant, `geocodeCity` of `src/main.js`.

* API bodies are JSON values (`JsVal`), so that every shape `res.json()` can
  deliver is an input of the model: missing fields, `null`, wrong types.
* Numbers are the exact rational value of the finite double (`NaN` and the
  infinities do not occur in JSON text of ordinary size and are not values of
  `JsVal.num`; where an operation produces `NaN` it is `none`).
* Strings are sequences of characters; a character stands for one UTF-16 code
  unit (strings of the Basic Multilingual Plane), and `toLowerCase` folds the
  ASCII letters and leaves every other character as it is.  (The only ASCII
  letters JavaScript produces from other characters are `k`, from the Kelvin
  sign, and an `i` followed by a combining dot, from the dotted capital I;
  neither can take part in a match of a keyword this program searches for.)
  Where the program cuts and measures a text (`substring` and `length` on a
  news description) the UTF-16 code units are counted as they are: two for a
  character outside the Basic Multilingual Plane.
* A thrown exception is the `error` side of `Except JsError`.
* Host built-ins whose output is locale or float-formatting dependent
  (`Number::toString`, `toFixed`, `Date.parse`, `toLocale…String`) are the
  fields of a `Platform` record: every theorem holds for every platform.
* The DOM is the record `App`: the `innerHTML` of each element the script
  writes, `none` when the element is not in the document.  Markup produced
  from a template literal is kept as a record of the interpolated strings.
* `await` is sequential composition; `Promise.all` rejects when one of its
  members rejects.  Timers (`setTimeout`) are not part of the model.
-/

namespace Weather

/-! ## JavaScript values -/

/-- Exceptions that reach the `catch` of the orchestrator. -/
inductive JsError where
  /-- A `TypeError`: property read on `null`/`undefined`, call of a non-function. -/
  | typeError
  /-- The rejection of `res.json()` on a body that is not JSON. -/
  | syntaxError
  /-- The rejection of `fetch` itself (network failure). -/
  | networkError
  /-- The `Error` thrown for a response whose `ok` flag is false. -/
  | apiError (service : String) (status : Nat)
  /-- An `Error` thrown with a fixed message: `throw new Error(message)`. -/
  | error (message : String)
  deriving DecidableEq, Repr

/-- JSON values, with `undefined` for absent properties. -/
inductive JsVal where
  | undefined
  | null
  | bool (b : Bool)
  | num (q : ℚ)
  | str (s : String)
  | arr (items : List JsVal)
  | obj (fields : List (String × JsVal))

/-- Host built-ins that the program calls and that are not modelled bit by bit. -/
structure Platform where
  /-- The built-in `Number::toString`. -/
  numberToString : ℚ → String
  /-- The built-in `StringToNumber`; `none` is `NaN`. -/
  stringToNumber : String → Option ℚ
  /-- The call `x.toFixed(1)` on a finite number. -/
  toFixed1 : ℚ → String
  /-- The built-in `Date.parse`, in milliseconds; `none` is an invalid date. -/
  parseDate : String → Option Int
  /-- The call `d.toLocaleTimeString("en-IN", hour and minute)` on a date with the given time value. -/
  toLocaleTimeString : Option Int → String
  /-- The call `d.toLocaleDateString("en-IN")` on a date with the given time value. -/
  toLocaleDateString : Option Int → String

/-- One reading of the clock: `Date.now()` in milliseconds and `new Date().getHours()`. -/
structure Clock where
  now : Int
  hours : Nat

namespace JsVal

/-- The test `v == null` (true for `null` and `undefined`). -/
def isNullish : JsVal → Bool
  | .undefined => true
  | .null => true
  | _ => false

/-- The conversion `ToBoolean`. -/
def truthy : JsVal → Bool
  | .undefined => false
  | .null => false
  | .bool b => b
  | .num q => decide (q ≠ 0)
  | .str s => decide (s ≠ "")
  | .arr _ => true
  | .obj _ => true

/-- The value of `v.key` for a `v` that is not `null`/`undefined`: own fields of
an object, `length` of arrays and strings, `undefined` otherwise (none of the
other names this program reads is inherited by a JSON value). -/
def prop (v : JsVal) (key : String) : JsVal :=
  match v with
  | .obj fields => (fields.lookup key).getD .undefined
  | .arr items => if key = "length" then .num items.length else .undefined
  | .str s => if key = "length" then .num s.length else .undefined
  | _ => .undefined

/-- Property read `v.key`: a `TypeError` on `null` and `undefined`. -/
def get (v : JsVal) (key : String) : Except JsError JsVal :=
  if v.isNullish then .error .typeError else .ok (v.prop key)

/-- The value of `v[0]` for a `v` that is not `null`/`undefined`. -/
def first (v : JsVal) : JsVal :=
  match v with
  | .arr items => items.headD .undefined
  | .str s => match s.toList with
    | [] => .undefined
    | c :: _ => .str (String.singleton c)
  | .obj fields => (fields.lookup "0").getD .undefined
  | _ => .undefined

/-- Indexing `v[0]`: a `TypeError` on `null` and `undefined`. -/
def get0 (v : JsVal) : Except JsError JsVal :=
  if v.isNullish then .error .typeError else .ok v.first

/-- Strict equality `v === "lit"` with a string literal. -/
def isStr (v : JsVal) (lit : String) : Bool :=
  match v with
  | .str s => decide (s = lit)
  | _ => false

/-- Strict equality `v === k` with a number literal. -/
def isNum (v : JsVal) (k : ℚ) : Bool :=
  match v with
  | .num q => decide (q = k)
  | _ => false

/-- The operator `a || b` on values. -/
def orElse (a b : JsVal) : JsVal := if a.truthy then a else b

mutual
/-- The conversion `ToString` (template literals, property keys).  An object
with an own `toString` field has no callable conversion left: `TypeError`. -/
def toStr (P : Platform) : JsVal → Except JsError String
  | .undefined => .ok "undefined"
  | .null => .ok "null"
  | .bool b => .ok (if b then "true" else "false")
  | .num q => .ok (P.numberToString q)
  | .str s => .ok s
  | .arr items => joinItems P items
  | .obj fields =>
    if (fields.lookup "toString").isSome then .error .typeError else .ok "[object Object]"
/-- The method `Array.prototype.join(",")`, through which arrays convert to strings. -/
def joinItems (P : Platform) : List JsVal → Except JsError String
  | [] => .ok ""
  | .undefined :: rest =>
    match rest with
    | [] => .ok ""
    | _ :: _ => (joinItems P rest).map (fun r => "," ++ r)
  | .null :: rest =>
    match rest with
    | [] => .ok ""
    | _ :: _ => (joinItems P rest).map (fun r => "," ++ r)
  | x :: rest =>
    match toStr P x with
    | .error e => .error e
    | .ok a =>
      match rest with
      | [] => .ok a
      | _ :: _ => (joinItems P rest).map (fun r => a ++ "," ++ r)
end

/-- The conversion `ToNumber`; `none` is `NaN`. -/
def toNumber (P : Platform) (v : JsVal) : Except JsError (Option ℚ) :=
  match v with
  | .undefined => .ok none
  | .null => .ok (some 0)
  | .bool b => .ok (some (if b then 1 else 0))
  | .num q => .ok (some q)
  | .str s => .ok (P.stringToNumber s)
  | other => (toStr P other).map P.stringToNumber

/-- The comparison `v > k` with a number literal. -/
def gtNum (P : Platform) (v : JsVal) (k : ℚ) : Except JsError Bool :=
  (toNumber P v).map fun n =>
    match n with
    | some q => decide (q > k)
    | none => false

/-- The comparison `v >= k` with a number literal. -/
def geNum (P : Platform) (v : JsVal) (k : ℚ) : Except JsError Bool :=
  (toNumber P v).map fun n =>
    match n with
    | some q => decide (q ≥ k)
    | none => false

/-- The comparison `v <= k` with a number literal. -/
def leNum (P : Platform) (v : JsVal) (k : ℚ) : Except JsError Bool :=
  (toNumber P v).map fun n =>
    match n with
    | some q => decide (q ≤ k)
    | none => false

/-- The call `v.toFixed(1)`: defined on numbers only. -/
def toFixed1 (P : Platform) (v : JsVal) : Except JsError String :=
  match v with
  | .num q => .ok (P.toFixed1 q)
  | _ => .error .typeError

end JsVal

/-- The method `String.prototype.toLowerCase` (ASCII letters). -/
def toLowerCase (s : String) : String := String.mk (s.toList.map Char.toLower)

/-- The call `v.toLowerCase()` on a JSON value: defined on strings only. -/
def JsVal.toLowerCase (v : JsVal) : Except JsError String :=
  match v with
  | .str s => .ok (Weather.toLowerCase s)
  | _ => .error .typeError

/-- Whether `pat` is a prefix of `text`. -/
def startsWithChars : List Char → List Char → Bool
  | _, [] => true
  | [], _ :: _ => false
  | c :: cs, p :: ps => c == p && startsWithChars cs ps

/-- Whether `pat` occurs in `text`. -/
def includesChars : List Char → List Char → Bool
  | [], pat => startsWithChars [] pat
  | c :: cs, pat => startsWithChars (c :: cs) pat || includesChars cs pat

/-- The method `String.prototype.includes`. -/
def includes (text pat : String) : Bool := includesChars text.toList pat.toList

/-- The characters `String.prototype.trim` removes: `WhiteSpace` and `LineTerminator`. -/
def isJsWhiteSpace (c : Char) : Bool :=
  c.val = 0x09 || c.val = 0x0A || c.val = 0x0B || c.val = 0x0C || c.val = 0x0D ||
  c.val = 0x20 || c.val = 0xA0 || c.val = 0x1680 ||
  (0x2000 ≤ c.val && c.val ≤ 0x200A) ||
  c.val = 0x2028 || c.val = 0x2029 || c.val = 0x202F || c.val = 0x205F ||
  c.val = 0x3000 || c.val = 0xFEFF

/-- The characters of `s.trim()`. -/
def trimChars (cs : List Char) : List Char :=
  ((cs.dropWhile isJsWhiteSpace).reverse.dropWhile isJsWhiteSpace).reverse

/-- The method `String.prototype.trim`. -/
def trim (s : String) : String := String.mk (trimChars s.toList)

/-- The UTF-16 code units of a character: itself inside the Basic Multilingual
Plane, a pair of surrogates outside it. -/
def utf16Units (c : Char) : List Nat :=
  if c.toNat < 0x10000 then [c.toNat]
  else [0xD800 + (c.toNat - 0x10000) / 0x400, 0xDC00 + (c.toNat - 0x10000) % 0x400]

/-- The UTF-16 code units of a sequence of characters. -/
def utf16Of : List Char → List Nat
  | [] => []
  | c :: cs => utf16Units c ++ utf16Of cs

/-- The UTF-16 code units of a string: the elements that `length` counts and
`substring` selects. -/
def utf16 (s : String) : List Nat := utf16Of s.toList

/-- The time value of `new Date(x)` for a number `x`: `TimeClip`. -/
def timeClip (x : Option ℚ) : Option Int :=
  match x with
  | none => none
  | some q => if |q| > 8640000000000000 then none else some (q.num.tdiv q.den)

/-- The time value of `new Date(v)`; `none` is an invalid date. -/
def newDate (P : Platform) (v : JsVal) : Except JsError (Option Int) :=
  match v with
  | .undefined => .ok none
  | .null => .ok (some 0)
  | .bool b => .ok (some (if b then 1 else 0))
  | .num q => .ok (timeClip (some q))
  | .str s => .ok (P.parseDate s)
  | other => (JsVal.toStr P other).map P.parseDate

/-! ## Configuration (`script.js` lines 7-30) -/

/-- The table `AQI_LEVELS`, as a JSON object. -/
def AQI_LEVELS : List (String × JsVal) :=
  [ ("1", .obj [("text", .str "Good"), ("color", .str "#00e400")]),
    ("2", .obj [("text", .str "Fair"), ("color", .str "#ffff00")]),
    ("3", .obj [("text", .str "Moderate"), ("color", .str "#ff7e00")]),
    ("4", .obj [("text", .str "Poor"), ("color", .str "#ff0000")]),
    ("5", .obj [("text", .str "Very Poor"), ("color", .str "#7e0023")]) ]

/-- Names every object literal inherits from `Object.prototype`. -/
def objectPrototypeMembers : List String :=
  ["constructor", "hasOwnProperty", "isPrototypeOf", "propertyIsEnumerable",
   "toLocaleString", "toString", "valueOf", "__proto__", "__defineGetter__",
   "__defineSetter__", "__lookupGetter__", "__lookupSetter__"]

/-- The read `AQI_LEVELS[name]` for a property name: an own entry, an inherited
member (an object without `text` and `color`), or `undefined`. -/
def aqiLevelsByName (name : String) : JsVal :=
  match AQI_LEVELS.lookup name with
  | some entry => entry
  | none => if name ∈ objectPrototypeMembers then .obj [] else .undefined

/-- The read `AQI_LEVELS[aqi]`.  A number spells one of the keys `"1"` … `"5"`
exactly when it is that integer, and never the name of an inherited member. -/
def aqiLevelsAt (P : Platform) (aqi : JsVal) : Except JsError JsVal :=
  match aqi with
  | .num q =>
    .ok (if q = 1 then aqiLevelsByName "1" else if q = 2 then aqiLevelsByName "2"
      else if q = 3 then aqiLevelsByName "3" else if q = 4 then aqiLevelsByName "4"
      else if q = 5 then aqiLevelsByName "5" else .undefined)
  | other => (JsVal.toStr P other).map aqiLevelsByName

/-- The constant `DEFAULT_CITY`. -/
def DEFAULT_CITY : String := "Delhi"

/-- The constant `FORECAST_HOURS`. -/
def FORECAST_HOURS : Nat := 6

/-! ## Utility functions (`script.js` lines 47-89) -/

/-- The function `getTimeBasedGreeting`, on the local hour. -/
def getTimeBasedGreeting (clock : Clock) : String :=
  let hour := clock.hours
  if hour ≥ 5 ∧ hour < 12 then "Good Morning ☀️"
  else if hour ≥ 12 ∧ hour < 17 then "Good Afternoon 🌞"
  else if hour ≥ 17 ∧ hour < 20 then "Good Evening 🌇"
  else "Good Night 🌙"

/-- The function `getWeatherAdvice` on a string. -/
def getWeatherAdvice (weatherMain : String) : String :=
  let weather := toLowerCase weatherMain
  if includes weather "rain" then "Rainy – Carry an umbrella!"
  else if includes weather "cloud" then "Cloudy – May stay dry"
  else if includes weather "clear" then "Sunny day – No rain expected"
  else "Mild weather – Enjoy your day!"

/-- The call `getWeatherAdvice(v)` on a JSON value: `v.toLowerCase()` throws
unless `v` is a string. -/
def getWeatherAdviceOf (v : JsVal) : Except JsError String :=
  match v with
  | .str s => .ok (getWeatherAdvice s)
  | _ => .error .typeError

/-- The function `isNightTime`. -/
def isNightTime (P : Platform) (clock : Clock) (weatherData : JsVal) : Except JsError Bool :=
  if !weatherData.truthy || !(weatherData.prop "sys").truthy then
    let hour := clock.hours
    .ok (decide (hour < 6) || decide (hour > 18))
  else
    let now : ℚ := (clock.now : ℚ) / 1000
    let sunrise := (weatherData.prop "sys").prop "sunrise"
    let sunset := (weatherData.prop "sys").prop "sunset"
    match JsVal.toNumber P sunrise with
    | .error e => .error e
    | .ok r =>
      if (match r with | some q => decide (now < q) | none => false) then .ok true
      else (JsVal.toNumber P sunset).map fun t =>
        match t with
        | some q => decide (now > q)
        | none => false

/-! ## Data processing (`script.js` lines 257-413) -/

/-- The object `processAirQualityData` returns; an absent property is `undefined`. -/
structure AqiInfo where
  aqi : JsVal
  aqiText : JsVal
  aqiColor : JsVal
  pm25 : JsVal
  pm10 : JsVal

/-- The function `processAirQualityData`.  The guard is `!airData?.list?.[0]`;
past it every read is unguarded. -/
def processAirQualityData (P : Platform) (airData : JsVal) : Except JsError AqiInfo :=
  if !((airData.prop "list").first).truthy then
    .ok { aqi := .num 0, aqiText := .str "Unknown", aqiColor := .undefined,
          pm25 := .num 0, pm10 := .num 0 }
  else do
    let entry := (airData.prop "list").first
    let aqi ← (← entry.get "main").get "aqi"
    let pm25 := (← (← entry.get "components").get "pm2_5").orElse (.num 0)
    let pm10 := (← (← entry.get "components").get "pm10").orElse (.num 0)
    let aqiInfo := (← aqiLevelsAt P aqi).orElse
      (.obj [("text", .str "Unknown"), ("color", .str "#666")])
    let pm25Text ← pm25.toFixed1 P
    let pm10Text ← pm10.toFixed1 P
    return { aqi := aqi, aqiText := aqiInfo.prop "text", aqiColor := aqiInfo.prop "color",
             pm25 := .str pm25Text, pm10 := .str pm10Text }

/-- An entry of the favourites list (`favoriteCities`). -/
structure Favorite where
  name : String
  temp : JsVal
  condition : JsVal
  icon : JsVal
  lastUpdated : String

/-- The holes of the template of `generateEnhancedWeatherHTML`. -/
structure EnhancedWeatherView where
  greeting : String
  name : String
  country : String
  isFavorite : Bool
  icon : String
  description : String
  temp : String
  feelsLike : String
  condition : String
  advice : String
  humidity : String
  windSpeed : String
  cloudiness : String
  pressure : String
  aqiColor : String
  aqi : String
  aqiText : String
  pm25 : String
  pm10 : String

/-- The holes of one forecast card. -/
structure ForecastCard where
  time : String
  icon : String
  description : String
  temp : String
  condition : String

/-- The holes of one news card; `description` holds the UTF-16 code units of
`description.substring(0, 150)` (the cut can fall inside a surrogate pair);
`url` is the "Read more" link, present when `url !== "#"`. -/
structure NewsCard where
  title : String
  description : List Nat
  ellipsis : Bool
  publishedAt : String
  url : Option String

/-- An entry of the alert list of `updateWeatherAlerts`. -/
structure Alert where
  type : String
  message : String
  deriving DecidableEq

/-- The holes of one item of the favourites panel. -/
structure FavoriteItem where
  name : String
  icon : String
  condition : String
  temp : String

/-- What an element's `innerHTML` holds. -/
inductive Html where
  /-- Markup without holes. -/
  | literal (markup : String)
  | enhancedWeather (view : EnhancedWeatherView)
  /-- The heading "Next 6 Hours" and the cards. -/
  | forecast (cards : List ForecastCard)
  /-- The heading and the weather tips shown for an empty article list. -/
  | newsFallback
  /-- The heading and the scroll area with the cards. -/
  | news (cards : List NewsCard)
  | sunMoon (sunrise sunset : String)
  | uvIndex (uvIndex : Nat) (uvLevel uvColor : String)
  | visibility (km status : String)
  | noAlerts
  | alerts (items : List Alert)
  /-- The placeholder of the favourites panel, shown for an empty list. -/
  | favoritesPlaceholder
  | favorites (items : List FavoriteItem)

/-- A notification on screen: message and type. -/
structure Notification where
  message : String
  type : String

/-- The state the script reads and writes: the elements it looks up (`none`
when `getElement` finds nothing), the inline `display` of the animation layers,
the weather classes of `body`, the two globals, and the stored favourites. -/
structure App where
  /-- The element `cityInput` and its `value`. -/
  cityInput : Option (Option String)
  weatherResult : Option Html
  forecastResult : Option Html
  newsResult : Option Html
  sunMoonData : Option Html
  uvIndexData : Option Html
  visibilityData : Option Html
  weatherAlerts : Option Html
  rain : Option String
  wind : Option String
  sunshine : Option String
  cloudy : Option String
  snow : Option String
  thunderstorm : Option String
  /-- The classes of `body` that match `weather-\w+(-\w+)?`: all the script adds. -/
  weatherClasses : List String
  bodyTransition : Option String
  notification : Option Notification
  currentWeatherData : JsVal
  favoriteCities : List Favorite
  /-- The element `favoriteCities`, the panel `displayFavoriteCities` fills. -/
  favoritesContainer : Option Html := none
  /-- The item `weatherApp_favorites` of `localStorage`: the list whose JSON text
  it holds, `none` while the item is not set. -/
  storedFavorites : Option (List Favorite) := none

/-- A statement that may throw: its completion and the state it leaves. -/
abbrev Step := App → Except JsError Unit × App

/-- Sequencing of statements: the second runs when the first completes normally. -/
def Step.andThen (a b : Step) : Step := fun s =>
  match a s with
  | (.ok _, s1) => b s1
  | (.error e, s1) => (.error e, s1)

/-- The selection of `generateForecastHTML`: whether `new Date(item.dt_txt) > now`. -/
def isFutureEntry (P : Platform) (now : Int) (item : JsVal) : Except JsError Bool := do
  let date ← newDate P (← item.get "dt_txt")
  return match date with
    | some t => decide (t > now)
    | none => false

/-- The call `list.filter(item => new Date(item.dt_txt) > now)`. -/
def filterFuture (P : Platform) (now : Int) : List JsVal → Except JsError (List JsVal)
  | [] => .ok []
  | item :: rest => do
    let keep ← isFutureEntry P now item
    let tail ← filterFuture P now rest
    return if keep then item :: tail else tail

/-- The constant `nextHours` of `generateForecastHTML`: the filter, then `slice(0, FORECAST_HOURS)`. -/
def nextHours (P : Platform) (clock : Clock) (forecastData : JsVal) :
    Except JsError (List JsVal) := do
  match ← forecastData.get "list" with
  | .arr items => return (← filterFuture P clock.now items).take FORECAST_HOURS
  | _ => throw .typeError

/-- One card of `generateForecastHTML`. -/
def forecastCard (P : Platform) (item : JsVal) : Except JsError ForecastCard := do
  let time := P.toLocaleTimeString (← newDate P (← item.get "dt_txt"))
  let w0 ← (← item.get "weather").get0
  let icon ← (← w0.get "icon").toStr P
  let description ← (← w0.get "description").toStr P
  let temp ← (← (← item.get "main").get "temp").toFixed1 P
  let condition ← (← w0.get "main").toStr P
  return { time := time, icon := icon, description := description, temp := temp,
           condition := condition }

/-- The call `nextHours.map(item => ...)`. -/
def forecastCards (P : Platform) : List JsVal → Except JsError (List ForecastCard)
  | [] => .ok []
  | item :: rest => do
    let card ← forecastCard P item
    let tail ← forecastCards P rest
    return card :: tail

/-- The function `generateForecastHTML`. -/
def generateForecastHTML (P : Platform) (clock : Clock) (forecastData : JsVal) :
    Except JsError Html := do
  let items ← nextHours P clock forecastData
  let cards ← forecastCards P items
  return .forecast cards

/-- One card of `generateNewsHTML`. -/
def newsCard (P : Platform) (clock : Clock) (article : JsVal) : Except JsError NewsCard := do
  let title := (← article.get "title").orElse (.str "Weather Update")
  let description := ((← article.get "description").orElse (← article.get "content")).orElse
    (.str "Latest weather information available.")
  let url := ((← article.get "url").orElse (← article.get "link")).orElse (.str "#")
  let publishedAt := P.toLocaleDateString (← newDate P
    (((← article.get "publishedAt").orElse (← article.get "pubDate")).orElse (.num clock.now)))
  let titleText ← title.toStr P
  match description with
  | .str d =>
    let urlText ← url.toStr P
    return { title := titleText, description := (utf16 d).take 150,
             ellipsis := decide ((utf16 d).length > 150), publishedAt := publishedAt,
             url := if url.isStr "#" then none else some urlText }
  | _ => throw .typeError

/-- The loop `articles.slice(0, 8).forEach(article => ...)`. -/
def newsCards (P : Platform) (clock : Clock) : List JsVal → Except JsError (List NewsCard)
  | [] => .ok []
  | article :: rest => do
    let card ← newsCard P clock article
    let tail ← newsCards P clock rest
    return card :: tail

/-- The function `generateNewsHTML`. -/
def generateNewsHTML (P : Platform) (clock : Clock) (newsData : JsVal) : Except JsError Html := do
  let articles := ((← newsData.get "articles").orElse (← newsData.get "results")).orElse (.arr [])
  if !articles.truthy || (articles.prop "length").isNum 0 then
    return .newsFallback
  else
    match articles with
    | .arr items => return .news (← newsCards P clock (items.take 8))
    | _ => throw .typeError

/-! ## Enhanced display (`script.js` lines 1185-1286) -/

/-- The test `favoriteCities.some(city => city.name.toLowerCase() === weatherData.name.toLowerCase())`:
the callback runs once per entry until it answers true. -/
def isFavoriteCity (name : JsVal) : List Favorite → Except JsError Bool
  | [] => .ok false
  | city :: rest => do
    let wanted ← name.toLowerCase
    if toLowerCase city.name = wanted then return true else isFavoriteCity name rest

/-- The template of `generateEnhancedWeatherHTML`, after `currentWeatherData` is stored. -/
def enhancedWeatherMarkup (P : Platform) (clock : Clock) (favoriteCities : List Favorite)
    (weatherData : JsVal) (aqiInfo : AqiInfo) : Except JsError Html := do
  let greeting := getTimeBasedGreeting clock
  let w0 ← (← weatherData.get "weather").get0
  let advice ← getWeatherAdviceOf (← w0.get "main")
  let isFavorite ← isFavoriteCity (← weatherData.get "name") favoriteCities
  let name ← (← weatherData.get "name").toStr P
  let country ← (← (← weatherData.get "sys").get "country").toStr P
  let icon ← (← w0.get "icon").toStr P
  let description ← (← w0.get "description").toStr P
  let temp ← (← (← weatherData.get "main").get "temp").toFixed1 P
  let feelsLike ← (← (← weatherData.get "main").get "feels_like").toFixed1 P
  let condition ← (← w0.get "main").toStr P
  let humidity ← (← (← weatherData.get "main").get "humidity").toStr P
  let windSpeed ← (← (← weatherData.get "wind").get "speed").toStr P
  let cloudiness ← (← (← weatherData.get "clouds").get "all").toStr P
  let pressure ← (← (← weatherData.get "main").get "pressure").toStr P
  let aqiColor ← aqiInfo.aqiColor.toStr P
  let aqi ← aqiInfo.aqi.toStr P
  let aqiText ← aqiInfo.aqiText.toStr P
  let pm25 ← aqiInfo.pm25.toStr P
  let pm10 ← aqiInfo.pm10.toStr P
  return .enhancedWeather
    { greeting := greeting, name := name, country := country, isFavorite := isFavorite,
      icon := icon, description := description, temp := temp, feelsLike := feelsLike,
      condition := condition, advice := advice, humidity := humidity, windSpeed := windSpeed,
      cloudiness := cloudiness, pressure := pressure, aqiColor := aqiColor, aqi := aqi,
      aqiText := aqiText, pm25 := pm25, pm10 := pm10 }

/-- The function `generateEnhancedWeatherHTML`: it stores `currentWeatherData`
first and then builds the markup. -/
def generateEnhancedWeatherHTML (P : Platform) (clock : Clock) (weatherData : JsVal)
    (aqiInfo : AqiInfo) (s : App) : Except JsError Html × App :=
  let s1 := { s with currentWeatherData := weatherData }
  (enhancedWeatherMarkup P clock s1.favoriteCities weatherData aqiInfo, s1)

/-- The function `showNotification`. -/
def showNotification (message type : String) (s : App) : App :=
  { s with notification := some { message := message, type := type } }

/-! ## Advanced details (`script.js` lines 1362-1531) -/

/-- The function `updateAdvancedWeatherPlaceholders`. -/
def updateAdvancedWeatherPlaceholders (s : App) : App :=
  { s with
    sunMoonData := s.sunMoonData.map fun _ =>
      .literal "<div class=\"loading-small\">🔄 Loading sun data...</div>"
    uvIndexData := s.uvIndexData.map fun _ =>
      .literal "<div class=\"loading-small\">🔄 Loading UV data...</div>"
    visibilityData := s.visibilityData.map fun _ =>
      .literal "<div class=\"loading-small\">🔄 Loading visibility...</div>"
    weatherAlerts := s.weatherAlerts.map fun _ =>
      .literal "<div class=\"loading-small\">🔄 Checking alerts...</div>" }

/-- The time shown for `new Date(x * 1000).toLocaleTimeString(...)`. -/
def epochTimeText (P : Platform) (x : JsVal) : Except JsError String := do
  let seconds ← x.toNumber P
  return P.toLocaleTimeString (timeClip (seconds.map (· * 1000)))

/-- The markup of `updateSunMoonData`. -/
def sunMoonMarkup (P : Platform) (weatherData : JsVal) : Except JsError Html := do
  let sunrise ← epochTimeText P (← (← weatherData.get "sys").get "sunrise")
  let sunset ← epochTimeText P (← (← weatherData.get "sys").get "sunset")
  return .sunMoon sunrise sunset

/-- The function `updateSunMoonData`. -/
def updateSunMoonData (P : Platform) (weatherData : JsVal) : Step := fun s =>
  match s.sunMoonData with
  | none => (.ok (), s)
  | some _ =>
    match sunMoonMarkup P weatherData with
    | .error e => (.error e, s)
    | .ok html => (.ok (), { s with sunMoonData := some html })

/-- The simulated UV index of `updateUVIndexData`. -/
def uvIndexOf (clock : Clock) (weatherData : JsVal) : Except JsError Nat := do
  let hour := clock.hours
  if hour ≥ 10 ∧ hour ≤ 16 then
    let main ← (← (← weatherData.get "weather").get0).get "main"
    if main.isStr "Clear" then return 8
    else if main.isStr "Clouds" then return 5
    else return 3
  else if hour ≥ 8 ∧ hour ≤ 18 then return 4
  else return 0

/-- The label `uvLevel` of `updateUVIndexData`. -/
def uvLevelOf (uvIndex : Nat) : String :=
  if uvIndex ≤ 2 then "Low" else if uvIndex ≤ 5 then "Moderate"
  else if uvIndex ≤ 7 then "High" else "Very High"

/-- The colour `uvColor` of `updateUVIndexData`. -/
def uvColorOf (uvIndex : Nat) : String :=
  if uvIndex ≤ 2 then "#10b981" else if uvIndex ≤ 5 then "#f59e0b"
  else if uvIndex ≤ 7 then "#ef4444" else "#7c2d12"

/-- The function `updateUVIndexData`. -/
def updateUVIndexData (clock : Clock) (weatherData : JsVal) : Step := fun s =>
  match s.uvIndexData with
  | none => (.ok (), s)
  | some _ =>
    match uvIndexOf clock weatherData with
    | .error e => (.error e, s)
    | .ok uvIndex =>
      (.ok (), { s with uvIndexData := some (.uvIndex uvIndex (uvLevelOf uvIndex) (uvColorOf uvIndex)) })

/-- The constant `visibility` of `updateVisibilityData`: kilometres, or `N/A`. -/
def visibilityText (P : Platform) (weatherData : JsVal) : Except JsError String := do
  let visibility ← weatherData.get "visibility"
  if visibility.truthy then
    match ← visibility.toNumber P with
    | some metres => return P.toFixed1 (metres / 1000)
    | none => return "NaN"
  else return "N/A"

/-- The constant `visibilityStatus` of `updateVisibilityData`. -/
def visibilityStatus (P : Platform) (weatherData : JsVal) : Except JsError String := do
  let visibility ← weatherData.get "visibility"
  if ← visibility.geNum P 10000 then return "Excellent"
  else if ← visibility.geNum P 5000 then return "Good"
  else if ← visibility.geNum P 2000 then return "Moderate"
  else return "Poor"

/-- The function `updateVisibilityData`. -/
def updateVisibilityData (P : Platform) (weatherData : JsVal) : Step := fun s =>
  match s.visibilityData with
  | none => (.ok (), s)
  | some _ =>
    match visibilityText P weatherData with
    | .error e => (.error e, s)
    | .ok km =>
      match visibilityStatus P weatherData with
      | .error e => (.error e, s)
      | .ok status => (.ok (), { s with visibilityData := some (.visibility km status) })

/-- The array `alerts` of `updateWeatherAlerts`. -/
def weatherAlertList (P : Platform) (weatherData : JsVal) : Except JsError (List Alert) := do
  let heat ← (← (← weatherData.get "main").get "temp").gtNum P 40
  let humidity ← (← (← weatherData.get "main").get "humidity").gtNum P 85
  let wind ← (← (← weatherData.get "wind").get "speed").gtNum P 10
  let rain := (← (← (← weatherData.get "weather").get0).get "main").isStr "Rain"
  return (if heat then [{ type := "heat", message := "Extreme heat warning - Stay hydrated!" }] else [])
    ++ (if humidity then [{ type := "humidity", message := "High humidity - Thunderstorms possible" }] else [])
    ++ (if wind then [{ type := "wind", message := "Strong winds - Be cautious outdoors" }] else [])
    ++ (if rain then [{ type := "rain", message := "Rain expected - Carry umbrella" }] else [])

/-- The function `updateWeatherAlerts`. -/
def updateWeatherAlerts (P : Platform) (weatherData : JsVal) : Step := fun s =>
  match s.weatherAlerts with
  | none => (.ok (), s)
  | some _ =>
    match weatherAlertList P weatherData with
    | .error e => (.error e, s)
    | .ok alerts =>
      (.ok (), { s with weatherAlerts := some (if alerts.length = 0 then .noAlerts else .alerts alerts) })

/-- The function `updateAdvancedWeatherDetails`. -/
def updateAdvancedWeatherDetails (P : Platform) (clock : Clock) (weatherData : JsVal) : Step :=
  (updateSunMoonData P weatherData).andThen <|
  (updateUVIndexData clock weatherData).andThen <|
  (updateVisibilityData P weatherData).andThen <|
  updateWeatherAlerts P weatherData

/-! ## Animations (`script.js` lines 178-255) -/

/-- The statement `if (el) el.style.display = value`. -/
def setDisplay (el : Option String) (value : String) : Option String :=
  el.map fun _ => value

/-- The loop that hides every animation layer. -/
def hideAnimations (s : App) : App :=
  { s with
    rain := setDisplay s.rain "none", wind := setDisplay s.wind "none",
    sunshine := setDisplay s.sunshine "none", cloudy := setDisplay s.cloudy "none",
    snow := setDisplay s.snow "none", thunderstorm := setDisplay s.thunderstorm "none" }

/-- The branch of `controlWeatherAnimations` that picks the background class and
the layers to show, for the lower-cased condition and the night flag. -/
def applyWeatherCategory (weather : String) (isNight : Bool) (s : App) : App :=
  if includes weather "thunderstorm" || includes weather "storm" then
    { s with weatherClasses := s.weatherClasses ++ ["weather-thunderstorm"],
             thunderstorm := setDisplay s.thunderstorm "block",
             rain := setDisplay s.rain "block" }
  else if includes weather "rain" || includes weather "drizzle" then
    { s with weatherClasses := s.weatherClasses ++ ["weather-rain"],
             rain := setDisplay s.rain "block" }
  else if includes weather "snow" then
    { s with weatherClasses := s.weatherClasses ++ ["weather-snow"],
             snow := setDisplay s.snow "block" }
  else if includes weather "mist" || includes weather "fog" || includes weather "haze" then
    { s with weatherClasses := s.weatherClasses ++ ["weather-mist"],
             cloudy := setDisplay s.cloudy "block" }
  else if includes weather "clear" then
    if isNight then
      { s with weatherClasses := s.weatherClasses ++ ["weather-clear-night"] }
    else
      { s with weatherClasses := s.weatherClasses ++ ["weather-clear-day"],
               sunshine := setDisplay s.sunshine "block" }
  else if includes weather "cloud" then
    if isNight then
      { s with weatherClasses := s.weatherClasses ++ ["weather-clouds-night"],
               cloudy := setDisplay s.cloudy "block" }
    else
      { s with weatherClasses := s.weatherClasses ++ ["weather-clouds-day"],
               cloudy := setDisplay s.cloudy "block" }
  else
    if isNight then
      { s with weatherClasses := s.weatherClasses ++ ["weather-clear-night"] }
    else
      { s with weatherClasses := s.weatherClasses ++ ["weather-clear-day"] }

/-- The function `controlWeatherAnimations`. -/
def controlWeatherAnimations (P : Platform) (clock : Clock) (weatherMain windSpeed : JsVal)
    (weatherData : JsVal) : Step := fun s =>
  let s1 := hideAnimations s
  match isNightTime P clock weatherData with
  | .error e => (.error e, s1)
  | .ok isNight =>
    match weatherMain.toLowerCase with
    | .error e => (.error e, s1)
    | .ok weather =>
      let s2 := applyWeatherCategory weather isNight { s1 with weatherClasses := [] }
      match windSpeed.gtNum P 4.5 with
      | .error e => (.error e, s2)
      | .ok strong =>
        let s3 :=
          if strong && s2.wind.isSome then
            { s2 with wind := setDisplay s2.wind "block",
                      weatherClasses := s2.weatherClasses ++ ["weather-windy"] }
          else s2
        (.ok (), { s3 with bodyTransition := some "background 1.5s ease-in-out, color 0.5s ease-in-out" })

/-! ## The orchestrator (`script.js` lines 1288-1360 and 1533-1559) -/

/-- A settled `Response`: its status and what `res.json()` resolves to (`none`
when the body is not JSON and `res.json()` rejects). -/
structure Response where
  status : Nat
  body : Option JsVal

/-- The flag `res.ok`: a status in the range 200-299. -/
def Response.ok (r : Response) : Bool := decide (200 ≤ r.status) && decide (r.status ≤ 299)

/-- The call `await res.json()`. -/
def Response.json (r : Response) : Except JsError JsVal :=
  match r.body with
  | some v => .ok v
  | none => .error .syntaxError

/-- What `fetch` answers for each endpoint of `API_ENDPOINTS`; `none` when the
promise rejects.  The arguments are the strings interpolated into the URL. -/
structure Network where
  weather : String → Option Response
  forecast : String → Option Response
  airPollution : String → String → Option Response
  news : Option Response

/-- The city of `getWeather`: `cityInput?.value?.trim() || DEFAULT_CITY`. -/
def queriedCity (cityInput : Option (Option String)) : String :=
  match cityInput with
  | some (some value) => if trim value ≠ "" then trim value else DEFAULT_CITY
  | _ => DEFAULT_CITY

/-- The fetches and parses of `getWeather` (lines 1318-1335): the three
concurrent requests, the status checks, the bodies, and the air-quality request. -/
def fetchWeatherData (P : Platform) (net : Network) (city : String) :
    Except JsError (JsVal × JsVal × JsVal × JsVal) := do
  let (weatherRes, forecastRes, newsRes) ←
    match net.weather city, net.forecast city, net.news with
    | some w, some f, some n => pure (w, f, n)
    | _, _, _ => throw JsError.networkError
  if !weatherRes.ok then throw (.apiError "Weather" weatherRes.status)
  if !forecastRes.ok then throw (.apiError "Forecast" forecastRes.status)
  let weatherData ← weatherRes.json
  let forecastData ← forecastRes.json
  let newsData ← if newsRes.ok then newsRes.json else pure (.obj [("articles", .arr [])])
  let coord ← weatherData.get "coord"
  let lat ← coord.get "lat"
  let lon ← coord.get "lon"
  let airRes ←
    match net.airPollution (← lat.toStr P) (← lon.toStr P) with
    | some r => pure r
    | none => throw JsError.networkError
  let airData ← if airRes.ok then airRes.json else pure .null
  return (weatherData, forecastData, newsData, airData)

/-- The markup `errorMessage` of `handleWeatherError` (line breaks and
indentation of the template are dropped). -/
def errorMessageEnhanced : Html :=
  .literal ("<div class=\"error-message-enhanced\">"
    ++ "<div class=\"error-icon\">❌</div>"
    ++ "<h3>Unable to fetch weather data</h3>"
    ++ "<p>Please check your internet connection and try again.</p>"
    ++ "<p>Make sure you entered a valid Indian city name.</p>"
    ++ "<div class=\"error-actions\">"
    ++ "<button onclick=\"getWeather()\" class=\"retry-btn-enhanced\">Try Again</button>"
    ++ "<button onclick=\"showMainPage()\" class=\"back-btn-enhanced\">Go Back</button>"
    ++ "</div></div>")

/-- The function `handleWeatherError`: the error state of a search. -/
def handleWeatherError (s : App) : App :=
  showNotification "Failed to load weather data. Please try again." "error"
    { s with
      weatherResult := s.weatherResult.map fun _ => errorMessageEnhanced
      forecastResult := s.forecastResult.map fun _ => .literal ""
      newsResult := s.newsResult.map fun _ => .literal "" }

/-- The loading states `getWeather` shows before it fetches (lines 1310-1316). -/
def showLoadingStates (s : App) : App :=
  updateAdvancedWeatherPlaceholders
    { s with
      weatherResult := some (.literal "<div class=\"loading\">🔄 Loading weather data...</div>")
      forecastResult := some (.literal "<div class=\"loading\">🔄 Loading forecast...</div>")
      newsResult := some (.literal "<div class=\"loading\">🔄 Loading news...</div>") }

/-- The rendering part of the `try` block of `getWeather` (lines 1337-1354). -/
def renderWeather (P : Platform) (clock : Clock)
    (weatherData forecastData newsData airData : JsVal) : Step := fun s =>
  match processAirQualityData P airData with
  | .error e => (.error e, s)
  | .ok aqiInfo =>
  match generateEnhancedWeatherHTML P clock weatherData aqiInfo s with
  | (.error e, s1) => (.error e, s1)
  | (.ok weatherHTML, s1) =>
  let s2 := { s1 with weatherResult := some weatherHTML }
  match generateForecastHTML P clock forecastData with
  | .error e => (.error e, s2)
  | .ok forecastHTML =>
  let s3 := { s2 with forecastResult := some forecastHTML }
  match generateNewsHTML P clock newsData with
  | .error e => (.error e, s3)
  | .ok newsHTML =>
  let s4 := { s3 with newsResult := some newsHTML }
  match updateAdvancedWeatherDetails P clock weatherData s4 with
  | (.error e, s5) => (.error e, s5)
  | (.ok _, s5) =>
  match (do
      let main ← (← (← weatherData.get "weather").get0).get "main"
      let speed ← (← weatherData.get "wind").get "speed"
      pure (main, speed) : Except JsError (JsVal × JsVal)) with
  | .error e => (.error e, s5)
  | .ok (weatherMain, windSpeed) =>
  match controlWeatherAnimations P clock weatherMain windSpeed weatherData s5 with
  | (.error e, s6) => (.error e, s6)
  | (.ok _, s6) =>
  let s7 := { s6 with cityInput := s6.cityInput.map fun _ => some "" }
  match (do
      let name ← (← weatherData.get "name").toStr P
      pure ("Weather data loaded for " ++ name ++ "!") : Except JsError String) with
  | .error e => (.error e, s7)
  | .ok message => (.ok (), showNotification message "success" s7)

/-- The `try` block of `getWeather` after the loading states are shown. -/
def getWeatherTry (P : Platform) (net : Network) (clock : Clock) (city : String) : Step :=
  fun s =>
  match fetchWeatherData P net city with
  | .error e => (.error e, s)
  | .ok (weatherData, forecastData, newsData, airData) =>
    renderWeather P clock weatherData forecastData newsData airData s

/-- One run of the enhanced `getWeather` (the function bound to the name after
load): the exception its `catch` block received, if any, and the state the run
leaves. -/
def getWeatherRun (P : Platform) (net : Network) (clock : Clock) (s : App) :
    Option JsError × App :=
  let city := queriedCity s.cityInput
  if s.weatherResult.isNone || s.forecastResult.isNone || s.newsResult.isNone then (none, s)
  else
    match getWeatherTry P net clock city (showLoadingStates s) with
    | (.ok _, s1) => (none, s1)
    | (.error e, s1) => (some e, handleWeatherError s1)

/-- The enhanced `getWeather`, as a function on states. -/
def getWeather (P : Platform) (net : Network) (clock : Clock) (s : App) : App :=
  (getWeatherRun P net clock s).2

/-! ## Temperature colour and favourites (`script.js` lines 953-1094) -/

/-- The function `getTemperatureColor`. -/
def getTemperatureColor (P : Platform) (temp : JsVal) : Except JsError String := do
  if ← temp.leNum P 10 then return "#3b82f6"
  else if ← temp.leNum P 20 then return "#10b981"
  else if ← temp.leNum P 30 then return "#f59e0b"
  else return "#ef4444"

/-- The function `saveFavoriteCities`. -/
def saveFavoriteCities (s : App) : App :=
  { s with storedFavorites := some s.favoriteCities }

/-- The text of `Math.round(v)` in a template: the nearest integer, halves upwards. -/
def roundText (P : Platform) (v : JsVal) : Except JsError String := do
  match ← v.toNumber P with
  | some q => return P.numberToString (Rat.floor (q + 1 / 2))
  | none => return "NaN"

/-- One item of the template of `displayFavoriteCities`. -/
def favoriteItem (P : Platform) (city : Favorite) : Except JsError FavoriteItem := do
  let icon ← city.icon.toStr P
  let condition ← city.condition.toStr P
  let temp ← roundText P city.temp
  return { name := city.name, icon := icon, condition := condition, temp := temp }

/-- The call `favoriteCities.map(city => ...)` of `displayFavoriteCities`. -/
def favoriteItems (P : Platform) : List Favorite → Except JsError (List FavoriteItem)
  | [] => .ok []
  | city :: rest => do
    let item ← favoriteItem P city
    let tail ← favoriteItems P rest
    return item :: tail

/-- The function `displayFavoriteCities`. -/
def displayFavoriteCities (P : Platform) : Step := fun s =>
  match s.favoritesContainer with
  | none => (.ok (), s)
  | some _ =>
    if s.favoriteCities.length = 0 then
      (.ok (), { s with favoritesContainer := some .favoritesPlaceholder })
    else
      match favoriteItems P s.favoriteCities with
      | .error e => (.error e, s)
      | .ok items => (.ok (), { s with favoritesContainer := some (.favorites items) })

/-- The callback `city => city.name.toLowerCase() === cityName.toLowerCase()`. -/
def sameCity (cityName : String) (city : Favorite) : Bool :=
  decide (toLowerCase city.name = toLowerCase cityName)

/-- The assignments of the `existing` branch of `addToFavorites`, in order:
`lastUpdated`, `temp`, `condition`.  A read of `weatherData` that throws leaves
the assignments made before it. -/
def refreshFavorite (timestamp : String) (weatherData : JsVal) (existing : Favorite) :
    Except JsError Unit × Favorite :=
  let e1 := { existing with lastUpdated := timestamp }
  match (do (← weatherData.get "main").get "temp" : Except JsError JsVal) with
  | .error e => (.error e, e1)
  | .ok temp =>
    let e2 := { e1 with temp := temp }
    match (do (← (← weatherData.get "weather").get0).get "main" : Except JsError JsVal) with
    | .error e => (.error e, e2)
    | .ok condition => (.ok (), { e2 with condition := condition })

/-- The object literal `addToFavorites` pushes for a new city, field by field. -/
def newFavorite (timestamp cityName : String) (weatherData : JsVal) :
    Except JsError Favorite := do
  let temp ← (← weatherData.get "main").get "temp"
  let condition ← (← (← weatherData.get "weather").get0).get "main"
  let icon ← (← (← weatherData.get "weather").get0).get "icon"
  return { name := cityName, temp := temp, condition := condition, icon := icon,
           lastUpdated := timestamp }

/-- The list after the object returned by `favoriteCities.find(p)`, its first
entry that satisfies `p`, is mutated in place by `f`. -/
def modifyFirst (p : Favorite → Bool) (f : Favorite → Favorite) :
    List Favorite → List Favorite
  | [] => []
  | city :: rest => if p city then f city :: rest else city :: modifyFirst p f rest

/-- The function `addToFavorites`; `timestamp` is `new Date().toISOString()` at
the call. -/
def addToFavorites (P : Platform) (timestamp cityName : String) (weatherData : JsVal) :
    Step := fun s =>
  let updated : Except JsError Unit × List Favorite :=
    match s.favoriteCities.find? (sameCity cityName) with
    | some existing =>
      ((refreshFavorite timestamp weatherData existing).1,
       modifyFirst (sameCity cityName)
         (fun city => (refreshFavorite timestamp weatherData city).2) s.favoriteCities)
    | none =>
      match newFavorite timestamp cityName weatherData with
      | .error e => (.error e, s.favoriteCities)
      | .ok city => (.ok (), s.favoriteCities ++ [city])
  let s1 := { s with favoriteCities := updated.2 }
  match updated.1 with
  | .error e => (.error e, s1)
  | .ok _ =>
    match displayFavoriteCities P (saveFavoriteCities s1) with
    | (.error e, s2) => (.error e, s2)
    | (.ok _, s2) =>
      (.ok (), showNotification ("❤️ " ++ cityName ++ " added to favorites!") "success" s2)

/-- The function `removeFromFavorites`. -/
def removeFromFavorites (P : Platform) (cityName : String) : Step := fun s =>
  let s1 := { s with favoriteCities := s.favoriteCities.filter fun city => !sameCity cityName city }
  match displayFavoriteCities P (saveFavoriteCities s1) with
  | (.error e, s2) => (.error e, s2)
  | (.ok _, s2) =>
    (.ok (), showNotification ("Removed " ++ cityName ++ " from favorites") "success" s2)

/-- A call of the favourites system, as the buttons of the page make it. -/
inductive FavoritesCall where
  | add (timestamp cityName : String) (weatherData : JsVal)
  | remove (cityName : String)

/-- The state one call leaves, whether or not it throws. -/
def FavoritesCall.run (P : Platform) (call : FavoritesCall) (s : App) : App :=
  match call with
  | .add timestamp cityName weatherData => (addToFavorites P timestamp cityName weatherData s).2
  | .remove cityName => (removeFromFavorites P cityName s).2

/-- The state a sequence of calls leaves, first call first. -/
def runCalls (P : Platform) (calls : List FavoritesCall) (s : App) : App :=
  calls.foldl (fun state call => call.run P state) s

/-! ## The geocoding adapter (`main.js` lines 10-18) -/

/-- The object `geocodeCity` returns. -/
structure GeoLocation where
  lat : JsVal
  lon : JsVal
  display : String

/-- The function `geocodeCity`.  `fetch` answers for the name interpolated into
the URL (`encodeURIComponent` is one-to-one, and total on strings without lone
surrogates), `none` when the promise rejects. -/
def geocodeCity (P : Platform) (fetch : String → Option Response) (name : String) :
    Except JsError GeoLocation := do
  let res ←
    match fetch name with
    | some r => pure r
    | none => throw JsError.networkError
  if !res.ok then throw (.error "Geocoding request failed")
  let data ← res.json
  let results ← data.get "results"
  if !results.truthy || (results.prop "length").isNum 0 then
    throw (.error "Location not found")
  let r := results.first
  let lat ← r.get "latitude"
  let lon ← r.get "longitude"
  let place ← (← r.get "name").toStr P
  let country ← r.get "country"
  let suffix ← if country.truthy then (country.toStr P).map (", " ++ ·) else pure ""
  return { lat := lat, lon := lon, display := place ++ suffix }

/-! ## Well-formed API bodies

The shapes the OpenWeatherMap endpoints document, as typed records with the
JSON they stand for.  They are the "well-formed bodies" of the statements
below; the code itself only ever sees the JSON. -/

/-- A body of the current-weather endpoint. -/
structure WeatherBody where
  lat : ℚ
  lon : ℚ
  main : String
  description : String
  icon : String
  temp : ℚ
  feelsLike : ℚ
  humidity : ℚ
  pressure : ℚ
  windSpeed : ℚ
  cloudiness : ℚ
  visibility : Option ℚ
  country : String
  sunrise : ℚ
  sunset : ℚ
  name : String

/-- The JSON of a current-weather body. -/
def WeatherBody.toJson (w : WeatherBody) : JsVal :=
  .obj ([ ("coord", .obj [("lon", .num w.lon), ("lat", .num w.lat)]),
          ("weather", .arr [.obj [("main", .str w.main), ("description", .str w.description),
                                  ("icon", .str w.icon)]]),
          ("main", .obj [("temp", .num w.temp), ("feels_like", .num w.feelsLike),
                         ("pressure", .num w.pressure), ("humidity", .num w.humidity)]) ]
        ++ (match w.visibility with
            | some v => [("visibility", .num v)]
            | none => [])
        ++ [ ("wind", .obj [("speed", .num w.windSpeed)]),
             ("clouds", .obj [("all", .num w.cloudiness)]),
             ("sys", .obj [("country", .str w.country), ("sunrise", .num w.sunrise),
                           ("sunset", .num w.sunset)]),
             ("name", .str w.name) ])

/-- An entry of the forecast endpoint. -/
structure ForecastEntry where
  dtTxt : String
  temp : ℚ
  main : String
  description : String
  icon : String

/-- The JSON of a forecast entry. -/
def ForecastEntry.toJson (e : ForecastEntry) : JsVal :=
  .obj [ ("main", .obj [("temp", .num e.temp)]),
         ("weather", .arr [.obj [("main", .str e.main), ("description", .str e.description),
                                 ("icon", .str e.icon)]]),
         ("dt_txt", .str e.dtTxt) ]

/-- The JSON of a forecast body with the given entries. -/
def forecastJson (entries : List ForecastEntry) : JsVal :=
  .obj [("cod", .str "200"), ("list", .arr (entries.map ForecastEntry.toJson))]

/-- A body of the air-pollution endpoint with one list entry. -/
structure AirBody where
  aqi : ℤ
  pm25 : ℚ
  pm10 : ℚ

/-- The JSON of an air-pollution body. -/
def AirBody.toJson (a : AirBody) : JsVal :=
  .obj [("list", .arr [.obj [("main", .obj [("aqi", .num a.aqi)]),
                             ("components", .obj [("pm2_5", .num a.pm25), ("pm10", .num a.pm10)])]])]

/-- The card `generateForecastHTML` draws for a well-formed entry. -/
def ForecastEntry.card (P : Platform) (e : ForecastEntry) : ForecastCard :=
  { time := P.toLocaleTimeString (P.parseDate e.dtTxt), icon := e.icon,
    description := e.description, temp := P.toFixed1 e.temp, condition := e.main }

/-- Whether a well-formed entry lies after `now`. -/
def ForecastEntry.isFuture (P : Platform) (now : Int) (e : ForecastEntry) : Bool :=
  match P.parseDate e.dtTxt with
  | some t => decide (t > now)
  | none => false

/-- The keyword `kw` occurs in `s` when letter case is ignored: some stretch of
`s` lower-cases to `kw`. -/
def containsIgnoringCase (s kw : String) : Prop :=
  ∃ pre mid post, s.toList = pre ++ mid ++ post ∧ mid.map Char.toLower = kw.toList

/-- The weather box `generateEnhancedWeatherHTML` draws for a well-formed body,
given the five strings of the AQI section. -/
def WeatherBody.view (P : Platform) (clock : Clock) (favoriteCities : List Favorite)
    (w : WeatherBody) (color level text pm25 pm10 : String) : EnhancedWeatherView :=
  { greeting := getTimeBasedGreeting clock, name := w.name, country := w.country,
    isFavorite := favoriteCities.any fun city =>
      decide (toLowerCase city.name = toLowerCase w.name),
    icon := w.icon, description := w.description, temp := P.toFixed1 w.temp,
    feelsLike := P.toFixed1 w.feelsLike, condition := w.main,
    advice := getWeatherAdvice w.main, humidity := P.numberToString w.humidity,
    windSpeed := P.numberToString w.windSpeed,
    cloudiness := P.numberToString w.cloudiness,
    pressure := P.numberToString w.pressure, aqiColor := color, aqi := level,
    aqiText := text, pm25 := pm25, pm10 := pm10 }

/-- The forecast box `generateForecastHTML` draws for well-formed entries: the
cards of the first `FORECAST_HOURS` entries after `now`. -/
def forecastView (P : Platform) (clock : Clock) (entries : List ForecastEntry) : Html :=
  .forecast (((entries.filter (ForecastEntry.isFuture P clock.now)).take FORECAST_HOURS).map
    (ForecastEntry.card P))

/-- The three result boxes and the cached weather of a state. -/
def App.rendered (s : App) : Option Html × Option Html × Option Html × JsVal :=
  (s.weatherResult, s.forecastResult, s.newsResult, s.currentWeatherData)

/-- A statement leaves the result boxes and the cached weather as they are. -/
def Step.KeepsRendered (f : Step) : Prop := ∀ s, (f s).2.rendered = s.rendered

/-- A statement completes normally from every state. -/
def Step.Completes (f : Step) : Prop := ∀ s, (f s).1 = .ok ()

/-- Whether a forecast entry is selected by the filter of `generateForecastHTML`:
its `dt_txt` is a date strictly after `now`. -/
def entryIsAfter (P : Platform) (now : Int) (item : JsVal) : Bool :=
  match newDate P (item.prop "dt_txt") with
  | .ok (some t) => decide (t > now)
  | _ => false

/-- The timestamp of a forecast entry: the time value of `new Date(item.dt_txt)`,
`none` when the date is invalid. -/
def entryTime (P : Platform) (item : JsVal) : Option Int :=
  match newDate P (item.prop "dt_txt") with
  | .ok t => t
  | .error _ => none

/-- The entry `a` is not later than the entry `b` (entries without a valid date
are not compared). -/
def notLaterThan (P : Platform) (a b : JsVal) : Prop :=
  ∀ ta tb, entryTime P a = some ta → entryTime P b = some tb → ta ≤ tb

/-- The alert pushed for `temp > 40`. -/
def heatAlert : Alert := { type := "heat", message := "Extreme heat warning - Stay hydrated!" }

/-- The alert pushed for `humidity > 85`. -/
def humidityAlert : Alert :=
  { type := "humidity", message := "High humidity - Thunderstorms possible" }

/-- The alert pushed for `wind.speed > 10`. -/
def windAlert : Alert := { type := "wind", message := "Strong winds - Be cautious outdoors" }

/-- The alert pushed for a main condition `Rain`. -/
def rainAlert : Alert := { type := "rain", message := "Rain expected - Carry umbrella" }

/-- The background class the branch of `controlWeatherAnimations` adds, for the
lower-cased condition and the night flag (the `classList.add` of each branch). -/
def weatherCategoryClass (weather : String) (isNight : Bool) : String :=
  if includes weather "thunderstorm" || includes weather "storm" then "weather-thunderstorm"
  else if includes weather "rain" || includes weather "drizzle" then "weather-rain"
  else if includes weather "snow" then "weather-snow"
  else if includes weather "mist" || includes weather "fog" || includes weather "haze" then
    "weather-mist"
  else if includes weather "clear" then
    if isNight then "weather-clear-night" else "weather-clear-day"
  else if includes weather "cloud" then
    if isNight then "weather-clouds-night" else "weather-clouds-day"
  else
    if isNight then "weather-clear-night" else "weather-clear-day"

/-- The condition mentions a storm: it contains "thunderstorm" or "storm", in any case. -/
def mentionsStorm (w : String) : Prop :=
  containsIgnoringCase w "thunderstorm" ∨ containsIgnoringCase w "storm"

/-- The condition mentions rain: it contains "rain" or "drizzle", in any case. -/
def mentionsRain (w : String) : Prop :=
  containsIgnoringCase w "rain" ∨ containsIgnoringCase w "drizzle"

/-- The condition mentions mist: it contains "mist", "fog" or "haze", in any case. -/
def mentionsMist (w : String) : Prop :=
  containsIgnoringCase w "mist" ∨ containsIgnoringCase w "fog" ∨ containsIgnoringCase w "haze"

/-- A news article, shape-neutral: the values of its title, description, content,
link and date (`undefined` for a field the article does not have). -/
structure Article where
  title : JsVal
  description : JsVal
  content : JsVal
  link : JsVal
  date : JsVal

/-- The article in the shape with `url` and `publishedAt` (listed under `articles`). -/
def Article.toArticlesShape (a : Article) : JsVal :=
  .obj [("title", a.title), ("description", a.description), ("content", a.content),
        ("url", a.link), ("publishedAt", a.date)]

/-- The article in the shape with `link` and `pubDate` (listed under `results`). -/
def Article.toResultsShape (a : Article) : JsVal :=
  .obj [("title", a.title), ("description", a.description), ("content", a.content),
        ("link", a.link), ("pubDate", a.date)]

/-- A news response that lists the articles under `articles`. -/
def articlesResponse (articles : List Article) : JsVal :=
  .obj [("status", .str "ok"), ("articles", .arr (articles.map Article.toArticlesShape))]

/-- A news response that lists the articles under `results`. -/
def resultsResponse (articles : List Article) : JsVal :=
  .obj [("status", .str "success"), ("results", .arr (articles.map Article.toResultsShape))]

/-- The rank of the four colours of `getTemperatureColor` from cold to hot, as
its comments name them: blue (cold), green (cool), orange (warm), red (hot). -/
def colourWarmth (colour : String) : Nat :=
  if colour = "#3b82f6" then 0 else if colour = "#10b981" then 1
  else if colour = "#f59e0b" then 2 else 3

/-- The names of the list are pairwise distinct when letter case is ignored. -/
def DistinctNames (cities : List Favorite) : Prop :=
  cities.Pairwise fun a b => toLowerCase a.name ≠ toLowerCase b.name

instance (cities : List Favorite) : Decidable (DistinctNames cities) := by
  unfold DistinctNames
  infer_instance

/-- A JSON scalar or an absent value: not an array and not an object. -/
def JsVal.isPrimitive : JsVal → Bool
  | .arr _ => false
  | .obj _ => false
  | _ => true

/-- Every character of the string lies in the Basic Multilingual Plane, so that
its characters are its UTF-16 code units. -/
def InBmp (s : String) : Prop := ∀ c ∈ s.toList, c.toNat < 0x10000

/-! ## Sample data

A concrete platform, clock and bodies on which the statements below are
evaluated. -/

/-- A platform with simple formatting: integers print in decimal, other numbers
as a fraction, `toFixed(1)` as a count of tenths; dates are known for four
timestamps of one afternoon. -/
def samplePlatform : Platform where
  numberToString q := if q.den = 1 then toString q.num else toString q.num ++ "/" ++ toString q.den
  stringToNumber _ := none
  toFixed1 q := toString (q.num * 10 / q.den) ++ "e-1"
  parseDate s :=
    [ ("2024-05-01 09:00:00", (1714554000000 : Int)), ("2024-05-01 12:00:00", 1714564800000),
      ("2024-05-01 15:00:00", 1714575600000), ("2024-05-01 18:00:00", 1714586400000) ].lookup s
  toLocaleTimeString t :=
    match t with
    | some ms => toString (ms / 60000)
    | none => "Invalid Date"
  toLocaleDateString t :=
    match t with
    | some ms => toString (ms / 86400000)
    | none => "Invalid Date"

/-- Noon of the sample afternoon. -/
def sampleClock : Clock := { now := 1714564800000, hours := 12 }

/-- An air-pollution body whose first entry has no `main` block. -/
def airWithoutMain : JsVal :=
  .obj [("list", .arr [.obj [("components", .obj [("pm2_5", .num 12), ("pm10", .num 30)])]])]

/-- An air-pollution body with level 7, outside the table. -/
def airLevelSeven : JsVal := AirBody.toJson { aqi := 7, pm25 := 12, pm10 := 30 }

/-- A forecast body: one entry before noon, one at noon, two after. -/
def sampleForecast : JsVal :=
  forecastJson
    [ { dtTxt := "2024-05-01 09:00:00", temp := 30, main := "Clear", description := "clear sky", icon := "01d" },
      { dtTxt := "2024-05-01 12:00:00", temp := 32, main := "Clear", description := "clear sky", icon := "01d" },
      { dtTxt := "2024-05-01 15:00:00", temp := 33, main := "Clouds", description := "few clouds", icon := "02d" },
      { dtTxt := "2024-05-01 18:00:00", temp := 29, main := "Rain", description := "light rain", icon := "10d" } ]

/-- The entries of the sample forecast that lie after noon. -/
def sampleForecastSelected : List JsVal :=
  [ ForecastEntry.toJson
      { dtTxt := "2024-05-01 15:00:00", temp := 33, main := "Clouds", description := "few clouds", icon := "02d" },
    ForecastEntry.toJson
      { dtTxt := "2024-05-01 18:00:00", temp := 29, main := "Rain", description := "light rain", icon := "10d" } ]

/-- A page with every element present, before the first search. -/
def sampleApp : App where
  cityInput := some (some " Delhi ")
  weatherResult := some (.literal "welcome")
  forecastResult := some (.literal "forecast placeholder")
  newsResult := some .newsFallback
  sunMoonData := some (.literal "sun placeholder")
  uvIndexData := some (.literal "uv placeholder")
  visibilityData := some (.literal "visibility placeholder")
  weatherAlerts := some (.literal "alerts placeholder")
  rain := some "none"
  wind := some "none"
  sunshine := some "none"
  cloudy := some "none"
  snow := some "none"
  thunderstorm := some "none"
  weatherClasses := []
  bodyTransition := none
  notification := none
  currentWeatherData := .null
  favoriteCities := []

/-- The weather body of the end-to-end scenario of the specification (Delhi, clear sky). -/
def sampleWeather : WeatherBody where
  lat := 286 / 10
  lon := 772 / 10
  main := "Clear"
  description := "clear sky"
  icon := "01d"
  temp := 321 / 10
  feelsLike := 33
  humidity := 40
  pressure := 1008
  windSpeed := 3
  cloudiness := 0
  visibility := some 10000
  country := "IN"
  sunrise := 1700000000
  sunset := 1700030000
  name := "Delhi"

/-- The entries of the sample forecast, as typed records. -/
def sampleForecastEntries : List ForecastEntry :=
  [ { dtTxt := "2024-05-01 09:00:00", temp := 30, main := "Clear", description := "clear sky", icon := "01d" },
    { dtTxt := "2024-05-01 12:00:00", temp := 32, main := "Clear", description := "clear sky", icon := "01d" },
    { dtTxt := "2024-05-01 15:00:00", temp := 33, main := "Clouds", description := "few clouds", icon := "02d" },
    { dtTxt := "2024-05-01 18:00:00", temp := 29, main := "Rain", description := "light rain", icon := "10d" } ]

/-- A network on which every source answers 200 with a well-formed body. -/
def sampleNetwork : Network where
  weather _ := some { status := 200, body := some sampleWeather.toJson }
  forecast _ := some { status := 200, body := some (forecastJson sampleForecastEntries) }
  airPollution _ _ := some { status := 200, body := some (AirBody.toJson { aqi := 2, pm25 := 12, pm10 := 30 }) }
  news := some { status := 200, body := some (.obj [("results", .arr [])]) }

/-- The sample network with the weather source answering 404. -/
def networkWeather404 : Network :=
  { sampleNetwork with weather := fun _ => some { status := 404, body := some (.obj [("cod", .str "404")]) } }

/-- The sample network with the news source answering 500 and the air-quality source 401. -/
def networkOptionalDown : Network :=
  { sampleNetwork with
    news := some { status := 500, body := none }
    airPollution := fun _ _ => some { status := 401, body := none } }

/-- The sample network with the news request itself rejecting. -/
def networkNewsRejects : Network :=
  { sampleNetwork with news := none }

/-- A forecast body whose two entries, both after noon, come latest first. -/
def descendingForecast : JsVal :=
  forecastJson
    [ { dtTxt := "2024-05-01 18:00:00", temp := 29, main := "Rain", description := "light rain", icon := "10d" },
      { dtTxt := "2024-05-01 15:00:00", temp := 33, main := "Clouds", description := "few clouds", icon := "02d" } ]

/-- The sample page without the `.wind` animation layer. -/
def pageWithoutWindLayer : App := { sampleApp with wind := none }

/-- The sample weather body without a `visibility` field. -/
def weatherWithoutVisibility : WeatherBody := { sampleWeather with visibility := none }

/-- The sample weather body exactly at the alert thresholds: 40 °C, 85 %, 10 m/s. -/
def weatherAtThresholds : WeatherBody :=
  { sampleWeather with temp := 40, humidity := 85, windSpeed := 10 }

/-- A weather record whose `sys` block has neither `sunrise` nor `sunset`. -/
def weatherWithoutSunTimes : JsVal := .obj [("sys", .obj [("country", .str "IN")])]

/-- A reading of the clock at 23 h local time. -/
def lateEvening : Clock := { now := 1714604400000, hours := 23 }

/-- A weather record whose sunrise epoch is later than its sunset epoch. -/
def weatherSunriseAfterSunset : JsVal :=
  .obj [("sys", .obj [("sunrise", .num 1700030000), ("sunset", .num 1700000000)])]

/-- A reading of the clock at the sunrise epoch of `weatherSunriseAfterSunset`. -/
def clockAtLateSunrise : Clock := { now := 1700030000000, hours := 12 }

/-- Two articles: one with every field, one with only a title. -/
def sampleArticles : List Article :=
  [ { title := .str "Monsoon arrives", description := .str "Rain over Kerala",
      content := .undefined, link := .str "https://example.org/a",
      date := .str "2024-05-01 09:00:00" },
    { title := .str "Heat wave", description := .undefined, content := .undefined,
      link := .undefined, date := .undefined } ]

/-- A geocoding body with two results. -/
def sampleGeocoding : JsVal :=
  .obj [("results", .arr
    [ .obj [("name", .str "Delhi"), ("latitude", .num (2865 / 100)),
            ("longitude", .num (7723 / 100)), ("country", .str "India")],
      .obj [("name", .str "Delhi"), ("latitude", .num (4228 / 100)),
            ("longitude", .num (-7492 / 100)), ("country", .str "United States")] ])]

/-- The sample page with the favourites panel and two favourites. -/
def pageWithFavorites : App :=
  { sampleApp with
    favoritesContainer := some .favoritesPlaceholder
    favoriteCities :=
      [ { name := "Delhi", temp := .num 30, condition := .str "Clear", icon := .str "01d",
          lastUpdated := "2024-05-01T06:30:00.000Z" },
        { name := "Mumbai", temp := .num 29, condition := .str "Rain", icon := .str "10d",
          lastUpdated := "2024-05-01T06:31:00.000Z" } ] }

/-- The sample network with a forecast body that lacks its `list`. -/
def networkForecastWithoutList : Network :=
  { sampleNetwork with forecast := fun _ => some { status := 200, body := some (.obj [("cod", .str "200")]) } }

/-- Two articles with a description: one of 16 characters, one of 200. -/
def describedArticles : List Article :=
  [ { title := .str "Monsoon arrives", description := .str "Rain over Kerala",
      content := .undefined, link := .str "https://example.org/a",
      date := .str "2024-05-01 09:00:00" },
    { title := .str "Heat wave", description := .str (String.mk (List.replicate 200 'x')),
      content := .undefined, link := .undefined, date := .undefined } ]

/-- A description of 150 characters, the last one outside the Basic Multilingual
Plane (U+1F600, a smiley): 151 UTF-16 code units. -/
def astralDescription : String :=
  String.mk (List.replicate 149 'x' ++ [Char.ofNat 0x1F600])

/-- An article with the description of 150 characters that ends in a smiley. -/
def astralArticle : Article :=
  { title := .str "Sunny spell", description := .str astralDescription,
    content := .undefined, link := .undefined, date := .undefined }

/-- Ten articles: the two described ones four times over, then two whose fields
are not texts. -/
def tenArticles : List Article :=
  describedArticles ++ describedArticles ++ describedArticles ++ describedArticles ++
    List.replicate 2
      { title := .obj [], description := .num 7, content := .null, link := .arr [], date := .obj [] }

/-! # Properties -/

/-! ## Strings -/

theorem startsWithChars_iff (text pat : List Char) :
    startsWithChars text pat = true ↔ pat <+: text := by
  induction pat generalizing text with
  | nil => simp [startsWithChars]
  | cons p ps ih =>
    cases text with
    | nil => simp [startsWithChars]
    | cons c cs =>
      simp only [startsWithChars, Bool.and_eq_true, beq_iff_eq, ih]
      constructor
      · rintro ⟨rfl, h⟩
        exact (List.prefix_cons_inj c).2 h
      · intro h
        obtain ⟨t, ht⟩ := h
        simp only [List.cons_append, List.cons.injEq] at ht
        exact ⟨ht.1.symm, ⟨t, ht.2⟩⟩

theorem includesChars_iff (text pat : List Char) :
    includesChars text pat = true ↔ pat <:+: text := by
  induction text with
  | nil =>
    simp only [includesChars, startsWithChars_iff, List.prefix_nil, List.infix_nil]
  | cons c cs ih =>
    simp only [includesChars, Bool.or_eq_true, startsWithChars_iff, ih, List.infix_cons_iff]

theorem includes_toLowerCase_iff (s kw : String) :
    includes (toLowerCase s) kw = true ↔ containsIgnoringCase s kw := by
  unfold includes toLowerCase containsIgnoringCase
  rw [includesChars_iff]
  show kw.toList <:+: s.toList.map Char.toLower ↔ _
  constructor
  · rintro ⟨a, b, h⟩
    obtain ⟨l₁, post, h1, h2, -⟩ := List.map_eq_append_iff.1 h.symm
    obtain ⟨pre, mid, h3, -, h5⟩ := List.map_eq_append_iff.1 h2
    exact ⟨pre, mid, post, by rw [h1, h3], h5⟩
  · rintro ⟨pre, mid, post, h, hm⟩
    exact ⟨pre.map Char.toLower, post.map Char.toLower, by rw [h, ← hm]; simp⟩

theorem trimChars_eq_nil {cs : List Char} (h : ∀ c ∈ cs, isJsWhiteSpace c = true) :
    trimChars cs = [] := by
  have : cs.dropWhile isJsWhiteSpace = [] := List.dropWhile_eq_nil_iff.2 h
  simp [trimChars, this]

theorem trimChars_spec {cs : List Char} (h : ∃ c ∈ cs, isJsWhiteSpace c = false) :
    trimChars cs ≠ [] ∧
    ∃ pre post, cs = pre ++ trimChars cs ++ post ∧
      (∀ c ∈ pre, isJsWhiteSpace c = true) ∧ (∀ c ∈ post, isJsWhiteSpace c = true) ∧
      (∀ c, (trimChars cs).head? = some c → isJsWhiteSpace c = false) ∧
      (∀ c, (trimChars cs).getLast? = some c → isJsWhiteSpace c = false) := by
  obtain ⟨c0, hc0, hws0⟩ := h
  set d := cs.dropWhile isJsWhiteSpace with hd
  have hd_ne : d ≠ [] := by
    intro hnil
    have := List.dropWhile_eq_nil_iff.1 hnil c0 hc0
    simp [hws0] at this
  have hsplit : cs = cs.takeWhile isJsWhiteSpace ++ d :=
    (List.takeWhile_append_dropWhile isJsWhiteSpace cs).symm
  set r := d.reverse.dropWhile isJsWhiteSpace with hr
  have hhead_d : isJsWhiteSpace (d.head hd_ne) = false := List.head_dropWhile_not _ _ hd_ne
  have hr_ne : r ≠ [] := by
    intro hnil
    have hall := List.dropWhile_eq_nil_iff.1 hnil (d.head hd_ne)
      (List.mem_reverse.2 (List.head_mem hd_ne))
    simp [hhead_d] at hall
  have hrsplit : d.reverse = d.reverse.takeWhile isJsWhiteSpace ++ r :=
    (List.takeWhile_append_dropWhile isJsWhiteSpace d.reverse).symm
  have hdsplit : d = r.reverse ++ (d.reverse.takeWhile isJsWhiteSpace).reverse := by
    have := congrArg List.reverse hrsplit
    simpa using this
  have htrim : trimChars cs = r.reverse := rfl
  have hrr_ne : r.reverse ≠ [] := by simpa using hr_ne
  refine ⟨by rw [htrim]; exact hrr_ne, cs.takeWhile isJsWhiteSpace,
    (d.reverse.takeWhile isJsWhiteSpace).reverse, ?_, ?_, ?_, ?_, ?_⟩
  · rw [htrim, List.append_assoc, ← hdsplit]
    exact hsplit
  · intro c hc
    exact (List.mem_takeWhile_imp hc)
  · intro c hc
    exact (List.mem_takeWhile_imp (List.mem_reverse.1 hc))
  · intro c hc
    rw [htrim] at hc
    have h1 : d.head? = some c := by
      rw [hdsplit, List.head?_append_of_ne_nil _ hrr_ne]
      exact hc
    have h2 : d.head hd_ne = c := by
      have := List.head?_eq_head hd_ne
      rw [this] at h1
      exact Option.some.inj h1
    rw [← h2]
    exact hhead_d
  · intro c hc
    rw [htrim, List.getLast?_reverse] at hc
    have h2 : r.head hr_ne = c := by
      have := List.head?_eq_head hr_ne
      rw [this] at hc
      exact Option.some.inj hc
    rw [← h2]
    exact List.head_dropWhile_not _ _ hr_ne

theorem string_mk_ne_empty {cs : List Char} (h : cs ≠ []) : String.mk cs ≠ "" := by
  intro hs
  exact h (congrArg String.data hs)

theorem fetchWeatherData_congr (P : Platform) (net net2 : Network) (city : String)
    (hw : net.weather city = net2.weather city) (hf : net.forecast city = net2.forecast city)
    (hn : net.news = net2.news) (ha : net.airPollution = net2.airPollution) :
    fetchWeatherData P net city = fetchWeatherData P net2 city := by
  unfold fetchWeatherData
  rw [hw, hf, hn, ha]

/-! ## The queried city -/

/-- C4: the city `getWeather` queries is the input text with leading and
trailing whitespace removed, and the default city "Delhi" when the input
element or its value is unavailable or the text is empty or all whitespace;
a search reads the weather and forecast endpoints at that city only. -/
theorem queriedCity_trimmed_or_default :
    queriedCity none = "Delhi" ∧ queriedCity (some none) = "Delhi" ∧
    (∀ value : String, (∀ c ∈ value.toList, isJsWhiteSpace c = true) →
      queriedCity (some (some value)) = "Delhi") ∧
    (∀ value : String, (∃ c ∈ value.toList, isJsWhiteSpace c = false) →
      queriedCity (some (some value)) = trim value ∧
      ∃ pre post, value.toList = pre ++ (queriedCity (some (some value))).toList ++ post ∧
        (∀ c ∈ pre, isJsWhiteSpace c = true) ∧ (∀ c ∈ post, isJsWhiteSpace c = true) ∧
        (∀ c, (queriedCity (some (some value))).toList.head? = some c →
          isJsWhiteSpace c = false) ∧
        (∀ c, (queriedCity (some (some value))).toList.getLast? = some c →
          isJsWhiteSpace c = false)) ∧
    (∀ (P : Platform) (net net2 : Network) (clock : Clock) (s : App),
      net.weather (queriedCity s.cityInput) = net2.weather (queriedCity s.cityInput) →
      net.forecast (queriedCity s.cityInput) = net2.forecast (queriedCity s.cityInput) →
      net.news = net2.news → net.airPollution = net2.airPollution →
      getWeatherRun P net clock s = getWeatherRun P net2 clock s) := by
  refine ⟨rfl, rfl, ?_, ?_, ?_⟩
  · intro value h
    have : trim value = "" := by
      unfold trim
      rw [trimChars_eq_nil h]
    simp [queriedCity, this, DEFAULT_CITY]
  · intro value h
    obtain ⟨hne, pre, post, hsplit, hpre, hpost, hhead, hlast⟩ := trimChars_spec h
    have hq : queriedCity (some (some value)) = trim value := by
      have : trim value ≠ "" := string_mk_ne_empty hne
      simp [queriedCity, this]
    rw [hq]
    exact ⟨rfl, pre, post, hsplit, hpre, hpost, hhead, hlast⟩
  · intro P net net2 clock s hw hf hn ha
    unfold getWeatherRun getWeatherTry
    simp only [fetchWeatherData_congr P net net2 _ hw hf hn ha]

/-- The statement of C4 at the input "  Mumbai ": the queried city is the trimmed text. -/
theorem queriedCity_trimmed_or_default_witness :
    queriedCity (some (some "  Mumbai ")) = trim "  Mumbai " :=
  (queriedCity_trimmed_or_default.2.2.2.1 "  Mumbai " ⟨'M', by decide, by decide⟩).1

/-! ## Weather advice -/

/-- C5: `getWeatherAdvice` answers by the first keyword found, ignoring letter
case, in the order rain, cloud, clear, and with the mild-weather advice when
none occurs. -/
theorem getWeatherAdvice_priority (w : String) :
    (containsIgnoringCase w "rain" → getWeatherAdvice w = "Rainy – Carry an umbrella!") ∧
    (¬ containsIgnoringCase w "rain" → containsIgnoringCase w "cloud" →
      getWeatherAdvice w = "Cloudy – May stay dry") ∧
    (¬ containsIgnoringCase w "rain" → ¬ containsIgnoringCase w "cloud" →
      containsIgnoringCase w "clear" → getWeatherAdvice w = "Sunny day – No rain expected") ∧
    (¬ containsIgnoringCase w "rain" → ¬ containsIgnoringCase w "cloud" →
      ¬ containsIgnoringCase w "clear" → getWeatherAdvice w = "Mild weather – Enjoy your day!") := by
  simp only [← includes_toLowerCase_iff]
  unfold getWeatherAdvice
  refine ⟨?_, ?_, ?_, ?_⟩
  · intro h
    simp [h]
  · intro h1 h2
    simp [h1, h2]
  · intro h1 h2 h3
    simp [h1, h2, h3]
  · intro h1 h2 h3
    simp [h1, h2, h3]

/-- The statement of C5 at "Light RAIN, then Clear Clouds": rain wins over cloud and clear. -/
theorem getWeatherAdvice_priority_witness :
    getWeatherAdvice "Light RAIN, then Clear Clouds" = "Rainy – Carry an umbrella!" :=
  (getWeatherAdvice_priority "Light RAIN, then Clear Clouds").1
    ⟨"Light ".toList, "RAIN".toList, ", then Clear Clouds".toList, by decide, by decide⟩

/-! ## Air quality -/

theorem prop_ne_undefined_isObj {v : JsVal} (key : String) (hkey : key ≠ "length")
    (h : v.prop key ≠ .undefined) : ∃ fields, v = .obj fields := by
  cases v <;> simp_all [JsVal.prop]

theorem JsVal.get_of_not_nullish {v : JsVal} (key : String) (h : v.isNullish = false) :
    v.get key = .ok (v.prop key) := by
  simp [JsVal.get, h]

theorem JsVal.get_of_nullish {v : JsVal} (key : String) (h : v.isNullish = true) :
    v.get key = .error .typeError := by
  simp [JsVal.get, h]

theorem processAirQualityData_missing (P : Platform) (airData : JsVal)
    (h : ((airData.prop "list").first).truthy = false) :
    processAirQualityData P airData =
      .ok { aqi := .num 0, aqiText := .str "Unknown", aqiColor := .undefined,
            pm25 := .num 0, pm10 := .num 0 } := by
  simp [processAirQualityData, h]

theorem toFixed1_orElse_zero (P : Platform) (v : JsVal)
    (h : v.truthy = false ∨ ∃ q, v = .num q) :
    ∃ text, (v.orElse (.num 0)).toFixed1 P = .ok text := by
  rcases h with h | ⟨q, rfl⟩
  · exact ⟨P.toFixed1 0, by simp [JsVal.orElse, h, JsVal.toFixed1]⟩
  · by_cases hq : q = 0
    · exact ⟨P.toFixed1 0, by simp [JsVal.orElse, JsVal.truthy, hq, JsVal.toFixed1]⟩
    · exact ⟨P.toFixed1 q, by simp [JsVal.orElse, JsVal.truthy, hq, JsVal.toFixed1]⟩

theorem processAirQualityData_level (P : Platform) (airData : JsVal) (n : ℤ)
    (haqi : (((airData.prop "list").first).prop "main").prop "aqi" = .num n)
    (hcomp : (((airData.prop "list").first).prop "components").isNullish = false)
    (hpm25 : ((((airData.prop "list").first).prop "components").prop "pm2_5").truthy = false ∨
      ∃ q, (((airData.prop "list").first).prop "components").prop "pm2_5" = .num q)
    (hpm10 : ((((airData.prop "list").first).prop "components").prop "pm10").truthy = false ∨
      ∃ q, (((airData.prop "list").first).prop "components").prop "pm10" = .num q) :
    ∃ pm25 pm10, processAirQualityData P airData = .ok
      { aqi := .num n
        aqiText := .str (if n = 1 then "Good" else if n = 2 then "Fair"
          else if n = 3 then "Moderate" else if n = 4 then "Poor"
          else if n = 5 then "Very Poor" else "Unknown")
        aqiColor := .str (if n = 1 then "#00e400" else if n = 2 then "#ffff00"
          else if n = 3 then "#ff7e00" else if n = 4 then "#ff0000"
          else if n = 5 then "#7e0023" else "#666")
        pm25 := .str pm25, pm10 := .str pm10 } := by
  unfold processAirQualityData
  generalize (airData.prop "list").first = e at *
  have hmain_nn : (e.prop "main").isNullish = false := by
    cases hm : e.prop "main" <;> simp_all [JsVal.prop, JsVal.isNullish]
  obtain ⟨fields, rfl⟩ : ∃ fields, e = .obj fields := by
    apply prop_ne_undefined_isObj "main" (by decide)
    intro h
    rw [h] at hmain_nn
    simp [JsVal.isNullish] at hmain_nn
  obtain ⟨t25, h25⟩ := toFixed1_orElse_zero P _ hpm25
  obtain ⟨t10, h10⟩ := toFixed1_orElse_zero P _ hpm10
  refine ⟨t25, t10, ?_⟩
  have e1 : aqiLevelsByName "1" = .obj [("text", .str "Good"), ("color", .str "#00e400")] := rfl
  have e2 : aqiLevelsByName "2" = .obj [("text", .str "Fair"), ("color", .str "#ffff00")] := rfl
  have e3 : aqiLevelsByName "3" = .obj [("text", .str "Moderate"), ("color", .str "#ff7e00")] := rfl
  have e4 : aqiLevelsByName "4" = .obj [("text", .str "Poor"), ("color", .str "#ff0000")] := rfl
  have e5 : aqiLevelsByName "5" = .obj [("text", .str "Very Poor"), ("color", .str "#7e0023")] := rfl
  have hlevel : aqiLevelsAt P (.num n) = .ok
      (if n = 1 then aqiLevelsByName "1" else if n = 2 then aqiLevelsByName "2"
        else if n = 3 then aqiLevelsByName "3" else if n = 4 then aqiLevelsByName "4"
        else if n = 5 then aqiLevelsByName "5" else .undefined) := by
    simp only [aqiLevelsAt]
    norm_cast
  have g1 : (JsVal.obj fields).get "main" = .ok ((JsVal.obj fields).prop "main") := rfl
  have g2 : ((JsVal.obj fields).prop "main").get "aqi" = .ok (.num n) := by
    rw [JsVal.get_of_not_nullish "aqi" hmain_nn, haqi]
  have g3 : (JsVal.obj fields).get "components" = .ok ((JsVal.obj fields).prop "components") :=
    rfl
  have g4 := JsVal.get_of_not_nullish "pm2_5" hcomp
  have g5 := JsVal.get_of_not_nullish "pm10" hcomp
  simp only [JsVal.truthy, g1, g2, g3, g4, g5, hlevel, Bool.not_true, Bool.false_eq_true,
    if_false, bind, Except.bind, pure, Except.pure, h25, h10]
  by_cases h1 : n = 1
  · subst h1; rfl
  by_cases h2 : n = 2
  · subst h2; rfl
  by_cases h3 : n = 3
  · subst h3; rfl
  by_cases h4 : n = 4
  · subst h4; rfl
  by_cases h5 : n = 5
  · subst h5; rfl
  simp only [h1, h2, h3, h4, h5, if_false]
  rfl

/-- C6: for a response whose first list entry carries an integer AQI level and
pollutant components (each concentration a number, or absent or otherwise falsy),
`processAirQualityData` returns without error, and the label is "Good" for 1,
"Fair" for 2, "Moderate" for 3, "Poor" for 4, "Very Poor" for 5 and "Unknown"
for every other integer. -/
theorem processAirQualityData_label (P : Platform) (airData : JsVal) (n : ℤ)
    (haqi : (((airData.prop "list").first).prop "main").prop "aqi" = .num n)
    (hcomp : (((airData.prop "list").first).prop "components").isNullish = false)
    (hpm25 : ((((airData.prop "list").first).prop "components").prop "pm2_5").truthy = false ∨
      ∃ q, (((airData.prop "list").first).prop "components").prop "pm2_5" = .num q)
    (hpm10 : ((((airData.prop "list").first).prop "components").prop "pm10").truthy = false ∨
      ∃ q, (((airData.prop "list").first).prop "components").prop "pm10" = .num q) :
    ∃ info, processAirQualityData P airData = .ok info ∧ info.aqi = .num n ∧
      (n = 1 → info.aqiText = .str "Good") ∧ (n = 2 → info.aqiText = .str "Fair") ∧
      (n = 3 → info.aqiText = .str "Moderate") ∧ (n = 4 → info.aqiText = .str "Poor") ∧
      (n = 5 → info.aqiText = .str "Very Poor") ∧
      (n < 1 ∨ 5 < n → info.aqiText = .str "Unknown") := by
  obtain ⟨pm25, pm10, h⟩ := processAirQualityData_level P airData n haqi hcomp hpm25 hpm10
  refine ⟨_, h, rfl, ?_, ?_, ?_, ?_, ?_, ?_⟩
  · rintro rfl; rfl
  · rintro rfl; rfl
  · rintro rfl; rfl
  · rintro rfl; rfl
  · rintro rfl; rfl
  · intro hn
    have h1 : n ≠ 1 := by omega
    have h2 : n ≠ 2 := by omega
    have h3 : n ≠ 3 := by omega
    have h4 : n ≠ 4 := by omega
    have h5 : n ≠ 5 := by omega
    simp [h1, h2, h3, h4, h5]

/-- The statement of C6 at a body with level 7: the label is "Unknown". -/
theorem processAirQualityData_label_witness :
    ∃ info, processAirQualityData samplePlatform airLevelSeven = .ok info ∧
      info.aqiText = .str "Unknown" := by
  obtain ⟨info, h, -, -, -, -, -, -, hu⟩ :=
    processAirQualityData_label samplePlatform airLevelSeven 7 rfl rfl
      (Or.inr ⟨12, rfl⟩) (Or.inr ⟨30, rfl⟩)
  exact ⟨info, h, hu (Or.inr (by decide))⟩

/-- C7, as stated, fails: on a list whose first entry has no `main` block
`processAirQualityData` raises a `TypeError` instead of answering "Unknown". -/
theorem processAirQualityData_malformed_counterexample :
    processAirQualityData samplePlatform airWithoutMain = .error .typeError ∧
    ¬ ∃ info, processAirQualityData samplePlatform airWithoutMain = .ok info ∧
      info.aqiText = .str "Unknown" := by
  have h : processAirQualityData samplePlatform airWithoutMain = .error .typeError := rfl
  refine ⟨h, ?_⟩
  rintro ⟨info, hinfo, -⟩
  rw [h] at hinfo
  cases hinfo

/-- C7, amended: `processAirQualityData` answers "Unknown" without an error for
a null response, a response with no list, an empty list and a list whose first
entry is null; a first entry that is present but lacks the `main` block or the
`components` block is not guarded and raises a `TypeError`. -/
theorem processAirQualityData_guard (P : Platform) (airData : JsVal) :
    ((airData = .null ∨ airData.prop "list" = .undefined ∨ airData.prop "list" = .arr [] ∨
        (airData.prop "list").first = .null) →
      ∃ info, processAirQualityData P airData = .ok info ∧ info.aqiText = .str "Unknown") ∧
    (((airData.prop "list").first).truthy = true →
      ((((airData.prop "list").first).prop "main").isNullish = true ∨
        (((airData.prop "list").first).prop "components").isNullish = true) →
      processAirQualityData P airData = .error .typeError) := by
  constructor
  · intro h
    have hguard : ((airData.prop "list").first).truthy = false := by
      rcases h with rfl | h | h | h
      · rfl
      · rw [h]; rfl
      · rw [h]; rfl
      · rw [h]; rfl
    exact ⟨_, processAirQualityData_missing P airData hguard, rfl⟩
  · intro ht hmissing
    unfold processAirQualityData
    generalize (airData.prop "list").first = e at *
    have he : e.isNullish = false := by
      cases e <;> simp_all [JsVal.truthy, JsVal.isNullish]
    have g1 := JsVal.get_of_not_nullish "main" he
    have g3 := JsVal.get_of_not_nullish "components" he
    by_cases hm : (e.prop "main").isNullish = true
    · have g2 := JsVal.get_of_nullish "aqi" hm
      simp only [ht, g1, g2, Bool.not_true, Bool.false_eq_true, if_false, bind, Except.bind]
    · have hm2 : (e.prop "main").isNullish = false := by simpa using hm
      have hc : (e.prop "components").isNullish = true := by
        rcases hmissing with h | h
        · exact absurd h hm
        · exact h
      have g2 := JsVal.get_of_not_nullish "aqi" hm2
      have g4 := JsVal.get_of_nullish "pm2_5" hc
      simp only [ht, g1, g2, g3, g4, Bool.not_true, Bool.false_eq_true, if_false, bind,
        Except.bind]

/-- The statement of C7 (amended) at a response without a list and at the body
whose first entry lacks `main`. -/
theorem processAirQualityData_guard_witness :
    (∃ info, processAirQualityData samplePlatform (.obj [("cod", .num 200)]) = .ok info ∧
      info.aqiText = .str "Unknown") ∧
    processAirQualityData samplePlatform airWithoutMain = .error .typeError :=
  ⟨(processAirQualityData_guard samplePlatform (.obj [("cod", .num 200)])).1 (Or.inr (Or.inl rfl)),
   (processAirQualityData_guard samplePlatform airWithoutMain).2 rfl (Or.inl rfl)⟩

/-- C8: for a null response, a response without a list and an empty list,
`processAirQualityData` returns, without an error, exactly the sentinel: level
0, label "Unknown", PM2.5 0 and PM10 0 (and no colour). -/
theorem processAirQualityData_sentinel (P : Platform) (airData : JsVal)
    (h : airData = .null ∨ airData.prop "list" = .undefined ∨ airData.prop "list" = .null ∨
      airData.prop "list" = .arr []) :
    processAirQualityData P airData =
      .ok { aqi := .num 0, aqiText := .str "Unknown", aqiColor := .undefined,
            pm25 := .num 0, pm10 := .num 0 } := by
  apply processAirQualityData_missing
  rcases h with rfl | h | h | h
  · rfl
  · rw [h]; rfl
  · rw [h]; rfl
  · rw [h]; rfl

/-- The statement of C8 at a body with an empty list. -/
theorem processAirQualityData_sentinel_witness :
    processAirQualityData samplePlatform (.obj [("list", .arr [])]) =
      .ok { aqi := .num 0, aqiText := .str "Unknown", aqiColor := .undefined,
            pm25 := .num 0, pm10 := .num 0 } :=
  processAirQualityData_sentinel samplePlatform (.obj [("list", .arr [])])
    (Or.inr (Or.inr (Or.inr rfl)))

/-- C9 at its failing input: for missing data (a null response) the label is
"Unknown" but the result carries no colour, so the display interpolates
`undefined`; the other path to "Unknown" (level 7) carries "#666". -/
theorem processAirQualityData_unknown_colour :
    (∃ info, processAirQualityData samplePlatform .null = .ok info ∧
      info.aqiText = .str "Unknown" ∧ info.aqiColor = .undefined ∧
      info.aqiColor.toStr samplePlatform = .ok "undefined") ∧
    (∃ info, processAirQualityData samplePlatform airLevelSeven = .ok info ∧
      info.aqiText = .str "Unknown" ∧ info.aqiColor = .str "#666") :=
  ⟨⟨_, rfl, rfl, rfl, rfl⟩, ⟨_, rfl, rfl, rfl⟩⟩

/-! ## Forecast selection -/

theorem JsVal.get_eq_ok {v r : JsVal} {key : String} (h : v.get key = .ok r) :
    r = v.prop key := by
  unfold JsVal.get at h
  split at h
  · cases h
  · cases h; rfl

theorem isFutureEntry_true {P : Platform} {now : Int} {item : JsVal}
    (h : isFutureEntry P now item = .ok true) :
    ∃ t, newDate P (item.prop "dt_txt") = .ok (some t) ∧ now < t := by
  unfold isFutureEntry at h
  cases hg : item.get "dt_txt" with
  | error e => simp [hg, bind, Except.bind] at h
  | ok v =>
    have hv := JsVal.get_eq_ok hg
    subst hv
    cases hd : newDate P (item.prop "dt_txt") with
    | error e => simp [hg, hd, bind, Except.bind] at h
    | ok d =>
      cases d with
      | none => simp [hg, hd, bind, Except.bind, pure, Except.pure] at h
      | some t =>
        simp [hg, hd, bind, Except.bind, pure, Except.pure] at h
        exact ⟨t, rfl, h⟩

theorem filterFuture_sound (P : Platform) (now : Int) :
    ∀ (items sel : List JsVal), filterFuture P now items = .ok sel →
      ∀ e ∈ sel, e ∈ items ∧ isFutureEntry P now e = .ok true := by
  intro items
  induction items with
  | nil =>
    intro sel h e he
    simp [filterFuture] at h
    subst h
    cases he
  | cons item rest ih =>
    intro sel h e he
    unfold filterFuture at h
    cases hk : isFutureEntry P now item with
    | error err => simp [hk, bind, Except.bind] at h
    | ok keep =>
      cases hr : filterFuture P now rest with
      | error err => simp [hk, hr, bind, Except.bind] at h
      | ok tail =>
        simp only [hk, hr, bind, Except.bind, pure, Except.pure, Except.ok.injEq] at h
        subst h
        cases keep with
        | false =>
          simp only [Bool.false_eq_true, if_false] at he
          obtain ⟨h1, h2⟩ := ih tail hr e he
          exact ⟨List.mem_cons_of_mem _ h1, h2⟩
        | true =>
          simp only [if_true, List.mem_cons] at he
          rcases he with rfl | he
          · exact ⟨List.mem_cons_self _ _, hk⟩
          · obtain ⟨h1, h2⟩ := ih tail hr e he
            exact ⟨List.mem_cons_of_mem _ h1, h2⟩

theorem isFutureEntry_of_string {P : Platform} {now : Int} {item : JsVal} {s : String}
    (h : item.prop "dt_txt" = .str s) :
    isFutureEntry P now item = .ok (entryIsAfter P now item) := by
  have hn : item.isNullish = false := by
    cases item <;> simp_all [JsVal.prop, JsVal.isNullish]
  unfold isFutureEntry entryIsAfter
  rw [JsVal.get_of_not_nullish "dt_txt" hn, h]
  simp only [newDate, bind, Except.bind, pure, Except.pure]
  cases P.parseDate s <;> rfl

theorem filterFuture_eq_filter (P : Platform) (now : Int) :
    ∀ items : List JsVal, (∀ item ∈ items, ∃ s, item.prop "dt_txt" = .str s) →
      filterFuture P now items = .ok (items.filter (entryIsAfter P now)) := by
  intro items
  induction items with
  | nil => intro _; rfl
  | cons item rest ih =>
    intro h
    obtain ⟨s, hs⟩ := h item (List.mem_cons_self _ _)
    have hrest := ih (fun i hi => h i (List.mem_cons_of_mem _ hi))
    unfold filterFuture
    rw [isFutureEntry_of_string hs, hrest]
    simp only [bind, Except.bind, pure, Except.pure, List.filter_cons]

theorem forecastCards_length (P : Platform) :
    ∀ (items : List JsVal) (cards : List ForecastCard),
      forecastCards P items = .ok cards → cards.length = items.length := by
  intro items
  induction items with
  | nil =>
    intro cards h
    simp [forecastCards] at h
    subst h
    rfl
  | cons item rest ih =>
    intro cards h
    unfold forecastCards at h
    cases hc : forecastCard P item with
    | error err => simp [hc, bind, Except.bind] at h
    | ok card =>
      cases hr : forecastCards P rest with
      | error err => simp [hc, hr, bind, Except.bind] at h
      | ok tail =>
        simp only [hc, hr, bind, Except.bind, pure, Except.pure, Except.ok.injEq] at h
        subst h
        simp [ih tail hr]

theorem nextHours_sound {P : Platform} {clock : Clock} {forecastData : JsVal}
    {sel : List JsVal} (h : nextHours P clock forecastData = .ok sel) :
    sel.length ≤ 6 ∧
    ∀ e ∈ sel, ∃ t, newDate P (e.prop "dt_txt") = .ok (some t) ∧ clock.now < t := by
  unfold nextHours at h
  cases hg : forecastData.get "list" with
  | error err => simp [hg, bind, Except.bind] at h
  | ok list =>
    cases list with
    | arr items =>
      cases hf : filterFuture P clock.now items with
      | error err => simp [hg, hf, bind, Except.bind] at h
      | ok kept =>
        simp only [hg, hf, bind, Except.bind, pure, Except.pure, Except.ok.injEq] at h
        subst h
        refine ⟨List.length_take_le _ _, ?_⟩
        intro e he
        exact isFutureEntry_true (filterFuture_sound P clock.now items kept hf e
          (List.mem_of_mem_take he)).2
    | _ => simp [hg, bind, Except.bind, throw, throwThe, MonadExceptOf.throw] at h

/-- C10: every entry `generateForecastHTML` selects has a timestamp strictly
later than the current time, and at most 6 entries are selected (so at most 6
cards are drawn); on a list whose entries carry a `dt_txt` string the
selection succeeds and is the first 6 entries that lie after the current time. -/
theorem nextHours_strictly_future_at_most_six (P : Platform) (clock : Clock)
    (forecastData : JsVal) :
    (∀ sel, nextHours P clock forecastData = .ok sel →
      sel.length ≤ 6 ∧
      ∀ e ∈ sel, ∃ t, newDate P (e.prop "dt_txt") = .ok (some t) ∧ clock.now < t) ∧
    (∀ cards, generateForecastHTML P clock forecastData = .ok (.forecast cards) →
      cards.length ≤ 6) ∧
    (∀ items, forecastData.prop "list" = .arr items →
      (∀ item ∈ items, ∃ s, item.prop "dt_txt" = .str s) →
      nextHours P clock forecastData =
        .ok ((items.filter (entryIsAfter P clock.now)).take 6)) := by
  refine ⟨fun sel h => nextHours_sound h, ?_, ?_⟩
  · intro cards h
    unfold generateForecastHTML at h
    cases hn : nextHours P clock forecastData with
    | error err => simp [hn, bind, Except.bind] at h
    | ok sel =>
      cases hc : forecastCards P sel with
      | error err => simp [hn, hc, bind, Except.bind] at h
      | ok cs =>
        simp only [hn, hc, bind, Except.bind, pure, Except.pure, Except.ok.injEq,
          Html.forecast.injEq] at h
        subst h
        rw [forecastCards_length P sel cs hc]
        exact (nextHours_sound hn).1
  · intro items hlist hitems
    have hn : forecastData.isNullish = false := by
      cases forecastData <;> simp_all [JsVal.prop, JsVal.isNullish]
    unfold nextHours
    rw [JsVal.get_of_not_nullish "list" hn, hlist]
    simp only [bind, Except.bind, pure, Except.pure, filterFuture_eq_filter P clock.now items hitems]
    rfl

/-- The statement of C10 on the sample forecast at noon: the entry at noon is
not selected, the two later entries are. -/
theorem nextHours_strictly_future_at_most_six_witness :
    nextHours samplePlatform sampleClock sampleForecast = .ok sampleForecastSelected ∧
    ∀ e ∈ sampleForecastSelected,
      ∃ t, newDate samplePlatform (e.prop "dt_txt") = .ok (some t) ∧ sampleClock.now < t :=
  ⟨rfl, ((nextHours_strictly_future_at_most_six samplePlatform sampleClock sampleForecast).1 _
    rfl).2⟩

/-! ## The orchestrator: mandatory sources -/

theorem fetchWeatherData_mandatory_failure (P : Platform) (net : Network) (city : String)
    (h : (∃ r, net.weather city = some r ∧ r.ok = false) ∨
      (∃ r, net.forecast city = some r ∧ r.ok = false)) :
    ∃ e, fetchWeatherData P net city = .error e := by
  unfold fetchWeatherData
  cases hw : net.weather city with
  | none => exact ⟨_, rfl⟩
  | some w =>
    cases hf : net.forecast city with
    | none => exact ⟨_, rfl⟩
    | some f =>
      cases hn : net.news with
      | none => exact ⟨_, rfl⟩
      | some n =>
        cases hwo : w.ok with
        | false => exact ⟨.apiError "Weather" w.status, by simp [hwo, bind, Except.bind, throw, throwThe, MonadExceptOf.throw, pure, Except.pure]⟩
        | true =>
          cases hfo : f.ok with
          | false => exact ⟨.apiError "Forecast" f.status, by simp [hwo, hfo, bind, Except.bind, throw, throwThe, MonadExceptOf.throw, pure, Except.pure]⟩
          | true =>
            exfalso
            rcases h with ⟨r, hr, hro⟩ | ⟨r, hr, hro⟩
            · rw [hw] at hr
              cases hr
              rw [hwo] at hro
              cases hro
            · rw [hf] at hr
              cases hr
              rw [hfo] at hro
              cases hro

theorem getWeatherRun_of_fetch_error (P : Platform) (net : Network) (clock : Clock) (s : App)
    (hw : s.weatherResult.isSome = true) (hf : s.forecastResult.isSome = true)
    (hn : s.newsResult.isSome = true) {e : JsError}
    (he : fetchWeatherData P net (queriedCity s.cityInput) = .error e) :
    getWeatherRun P net clock s = (some e, handleWeatherError (showLoadingStates s)) := by
  have h1 : s.weatherResult.isNone = false := by cases h : s.weatherResult <;> simp_all
  have h2 : s.forecastResult.isNone = false := by cases h : s.forecastResult <;> simp_all
  have h3 : s.newsResult.isNone = false := by cases h : s.newsResult <;> simp_all
  simp [getWeatherRun, getWeatherTry, h1, h2, h3, he]

/-- C1: when the weather response or the forecast response has a non-success
status, whatever the other responses are, the search ends in the error state:
the weather box holds the error panel, the forecast and news boxes are empty,
the detail panels keep their loading placeholders and the cached weather is
untouched; the final state is the same for all response bodies. -/
theorem getWeather_mandatory_failure (P : Platform) (net : Network) (clock : Clock) (s : App)
    (hw : s.weatherResult.isSome = true) (hf : s.forecastResult.isSome = true)
    (hn : s.newsResult.isSome = true)
    (hfail : (∃ r, net.weather (queriedCity s.cityInput) = some r ∧ r.ok = false) ∨
      (∃ r, net.forecast (queriedCity s.cityInput) = some r ∧ r.ok = false)) :
    (∃ e, (getWeatherRun P net clock s).1 = some e) ∧
    getWeather P net clock s = handleWeatherError (showLoadingStates s) ∧
    (getWeather P net clock s).weatherResult = some errorMessageEnhanced ∧
    (getWeather P net clock s).forecastResult = some (.literal "") ∧
    (getWeather P net clock s).newsResult = some (.literal "") ∧
    (getWeather P net clock s).currentWeatherData = s.currentWeatherData ∧
    (getWeather P net clock s).weatherClasses = s.weatherClasses := by
  obtain ⟨e, he⟩ := fetchWeatherData_mandatory_failure P net _ hfail
  have hrun := getWeatherRun_of_fetch_error P net clock s hw hf hn he
  have hstate : getWeather P net clock s = handleWeatherError (showLoadingStates s) := by
    simp [getWeather, hrun]
  refine ⟨⟨e, by rw [hrun]⟩, hstate, ?_, ?_, ?_, ?_, ?_⟩ <;> rw [hstate] <;> rfl

/-- The statement of C1 on the sample page when the weather source answers 404. -/
theorem getWeather_mandatory_failure_witness :
    (getWeather samplePlatform networkWeather404 sampleClock sampleApp).weatherResult =
      some errorMessageEnhanced ∧
    (getWeather samplePlatform networkWeather404 sampleClock sampleApp).forecastResult =
      some (.literal "") ∧
    (getWeather samplePlatform networkWeather404 sampleClock sampleApp).newsResult =
      some (.literal "") :=
  have h := getWeather_mandatory_failure samplePlatform networkWeather404 sampleClock sampleApp
    rfl rfl rfl (Or.inl ⟨_, rfl, rfl⟩)
  ⟨h.2.2.1, h.2.2.2.1, h.2.2.2.2.1⟩

/-! ## The orchestrator: frame and success of the rendering steps -/

theorem Step.andThen_keepsRendered {a b : Step} (ha : a.KeepsRendered) (hb : b.KeepsRendered) :
    (a.andThen b).KeepsRendered := by
  intro s
  unfold Step.andThen
  have h1 := ha s
  cases h : a s with
  | mk r s1 =>
    rw [h] at h1
    cases r with
    | error e => exact h1
    | ok u => exact (hb s1).trans h1

theorem Step.andThen_completes {a b : Step} (ha : a.Completes) (hb : b.Completes) :
    (a.andThen b).Completes := by
  intro s
  unfold Step.andThen
  have h1 := ha s
  cases h : a s with
  | mk r s1 =>
    rw [h] at h1
    simp only at h1
    subst h1
    exact hb s1

theorem updateSunMoonData_keepsRendered (P : Platform) (wd : JsVal) :
    (updateSunMoonData P wd).KeepsRendered := by
  intro s
  unfold updateSunMoonData
  repeat' split
  all_goals rfl

theorem updateUVIndexData_keepsRendered (clock : Clock) (wd : JsVal) :
    (updateUVIndexData clock wd).KeepsRendered := by
  intro s
  unfold updateUVIndexData
  repeat' split
  all_goals rfl

theorem updateVisibilityData_keepsRendered (P : Platform) (wd : JsVal) :
    (updateVisibilityData P wd).KeepsRendered := by
  intro s
  unfold updateVisibilityData
  repeat' split
  all_goals rfl

theorem updateWeatherAlerts_keepsRendered (P : Platform) (wd : JsVal) :
    (updateWeatherAlerts P wd).KeepsRendered := by
  intro s
  unfold updateWeatherAlerts
  repeat' split
  all_goals rfl

theorem updateAdvancedWeatherDetails_keepsRendered (P : Platform) (clock : Clock) (wd : JsVal) :
    (updateAdvancedWeatherDetails P clock wd).KeepsRendered :=
  Step.andThen_keepsRendered (updateSunMoonData_keepsRendered P wd)
    (Step.andThen_keepsRendered (updateUVIndexData_keepsRendered clock wd)
      (Step.andThen_keepsRendered (updateVisibilityData_keepsRendered P wd)
        (updateWeatherAlerts_keepsRendered P wd)))

theorem applyWeatherCategory_rendered (weather : String) (isNight : Bool) (s : App) :
    (applyWeatherCategory weather isNight s).rendered = s.rendered := by
  unfold applyWeatherCategory
  split_ifs <;> rfl

theorem controlWeatherAnimations_keepsRendered (P : Platform) (clock : Clock)
    (weatherMain windSpeed wd : JsVal) :
    (controlWeatherAnimations P clock weatherMain windSpeed wd).KeepsRendered := by
  intro s
  unfold controlWeatherAnimations
  simp only
  split
  · rfl
  · split
    · rfl
    · split
      · exact applyWeatherCategory_rendered _ _ _
      · split
        · exact applyWeatherCategory_rendered _ _ _
        · exact applyWeatherCategory_rendered _ _ _

theorem sunMoonMarkup_wellFormed (P : Platform) (w : WeatherBody) :
    ∃ html, sunMoonMarkup P w.toJson = .ok html := by
  rcases w with ⟨lat, lon, main, description, icon, temp, feelsLike, humidity, pressure,
    windSpeed, cloudiness, _ | visibility, country, sunrise, sunset, name⟩ <;>
  exact ⟨_, rfl⟩

theorem uvIndexOf_wellFormed (clock : Clock) (w : WeatherBody) :
    ∃ uv, uvIndexOf clock w.toJson = .ok uv := by
  rcases w with ⟨lat, lon, main, description, icon, temp, feelsLike, humidity, pressure,
    windSpeed, cloudiness, _ | visibility, country, sunrise, sunset, name⟩ <;>
  · simp [uvIndexOf, WeatherBody.toJson, JsVal.get, JsVal.get0, JsVal.isNullish,
      JsVal.prop, JsVal.first, List.lookup, bind, Except.bind, pure, Except.pure]
    split_ifs <;> simp

theorem visibilityText_wellFormed (P : Platform) (w : WeatherBody) :
    ∃ km, visibilityText P w.toJson = .ok km := by
  rcases w with ⟨lat, lon, main, description, icon, temp, feelsLike, humidity, pressure,
    windSpeed, cloudiness, _ | visibility, country, sunrise, sunset, name⟩
  · exact ⟨_, rfl⟩
  · by_cases hv : visibility = 0
    · exact ⟨"N/A", by simp [visibilityText, WeatherBody.toJson, JsVal.get, JsVal.isNullish,
        JsVal.prop, List.lookup, JsVal.truthy, hv, bind, Except.bind, pure, Except.pure]⟩
    · exact ⟨P.toFixed1 (visibility / 1000), by
        simp [visibilityText, WeatherBody.toJson, JsVal.get, JsVal.isNullish,
          JsVal.prop, List.lookup, JsVal.truthy, hv, bind, Except.bind, pure, Except.pure,
          JsVal.toNumber]⟩

theorem visibilityStatus_wellFormed (P : Platform) (w : WeatherBody) :
    ∃ status, visibilityStatus P w.toJson = .ok status := by
  rcases w with ⟨lat, lon, main, description, icon, temp, feelsLike, humidity, pressure,
    windSpeed, cloudiness, _ | visibility, country, sunrise, sunset, name⟩
  · exact ⟨_, rfl⟩
  · simp [visibilityStatus, WeatherBody.toJson, JsVal.get, JsVal.isNullish,
      JsVal.prop, List.lookup, JsVal.geNum, JsVal.toNumber, Except.map, bind, Except.bind,
      pure, Except.pure]
    split_ifs <;> simp

theorem weatherAlertList_wellFormed (P : Platform) (w : WeatherBody) :
    ∃ alerts, weatherAlertList P w.toJson = .ok alerts := by
  rcases w with ⟨lat, lon, main, description, icon, temp, feelsLike, humidity, pressure,
    windSpeed, cloudiness, _ | visibility, country, sunrise, sunset, name⟩ <;>
  exact ⟨_, rfl⟩

theorem isNightTime_wellFormed (P : Platform) (clock : Clock) (w : WeatherBody) :
    isNightTime P clock w.toJson =
      .ok (decide ((clock.now : ℚ) / 1000 < w.sunrise) ||
        decide ((clock.now : ℚ) / 1000 > w.sunset)) := by
  rcases w with ⟨lat, lon, main, description, icon, temp, feelsLike, humidity, pressure,
    windSpeed, cloudiness, _ | visibility, country, sunrise, sunset, name⟩ <;>
  · by_cases h : (clock.now : ℚ) / 1000 < sunrise <;>
    simp [isNightTime, WeatherBody.toJson, JsVal.isNullish, JsVal.truthy,
      JsVal.prop, List.lookup, JsVal.toNumber, Except.map, bind, Except.bind,
      pure, Except.pure, h]

theorem updateSunMoonData_completes (P : Platform) (w : WeatherBody) :
    (updateSunMoonData P w.toJson).Completes := by
  intro s
  obtain ⟨html, h⟩ := sunMoonMarkup_wellFormed P w
  simp only [updateSunMoonData, h]
  cases s.sunMoonData <;> rfl

theorem updateUVIndexData_completes (clock : Clock) (w : WeatherBody) :
    (updateUVIndexData clock w.toJson).Completes := by
  intro s
  obtain ⟨uv, h⟩ := uvIndexOf_wellFormed clock w
  simp only [updateUVIndexData, h]
  cases s.uvIndexData <;> rfl

theorem updateVisibilityData_completes (P : Platform) (w : WeatherBody) :
    (updateVisibilityData P w.toJson).Completes := by
  intro s
  obtain ⟨km, h1⟩ := visibilityText_wellFormed P w
  obtain ⟨status, h2⟩ := visibilityStatus_wellFormed P w
  simp only [updateVisibilityData, h1, h2]
  cases s.visibilityData <;> rfl

theorem updateWeatherAlerts_completes (P : Platform) (w : WeatherBody) :
    (updateWeatherAlerts P w.toJson).Completes := by
  intro s
  obtain ⟨alerts, h⟩ := weatherAlertList_wellFormed P w
  simp only [updateWeatherAlerts, h]
  cases s.weatherAlerts <;> rfl

theorem updateAdvancedWeatherDetails_completes (P : Platform) (clock : Clock) (w : WeatherBody) :
    (updateAdvancedWeatherDetails P clock w.toJson).Completes :=
  Step.andThen_completes (updateSunMoonData_completes P w)
    (Step.andThen_completes (updateUVIndexData_completes clock w)
      (Step.andThen_completes (updateVisibilityData_completes P w)
        (updateWeatherAlerts_completes P w)))

theorem controlWeatherAnimations_completes (P : Platform) (clock : Clock) (w : WeatherBody) :
    (controlWeatherAnimations P clock (.str w.main) (.num w.windSpeed) w.toJson).Completes := by
  intro s
  simp [controlWeatherAnimations, isNightTime_wellFormed, JsVal.toLowerCase, JsVal.gtNum,
    JsVal.toNumber, Except.map]

theorem isFavoriteCity_string (name : String) (favs : List Favorite) :
    isFavoriteCity (.str name) favs =
      .ok (favs.any fun city => decide (toLowerCase city.name = toLowerCase name)) := by
  induction favs with
  | nil => rfl
  | cons city rest ih =>
    unfold isFavoriteCity
    by_cases h : toLowerCase city.name = toLowerCase name <;>
    simp [JsVal.toLowerCase, bind, Except.bind, pure, Except.pure, h, ih]

theorem enhancedWeatherMarkup_wellFormed (P : Platform) (clock : Clock) (favs : List Favorite)
    (w : WeatherBody) (aqiInfo : AqiInfo) {color level text pm25 pm10 : String}
    (hcolor : aqiInfo.aqiColor.toStr P = .ok color) (hlevel : aqiInfo.aqi.toStr P = .ok level)
    (htext : aqiInfo.aqiText.toStr P = .ok text) (hpm25 : aqiInfo.pm25.toStr P = .ok pm25)
    (hpm10 : aqiInfo.pm10.toStr P = .ok pm10) :
    enhancedWeatherMarkup P clock favs w.toJson aqiInfo = .ok (.enhancedWeather
      (w.view P clock favs color level text pm25 pm10)) := by
  rcases w with ⟨lat, lon, main, description, icon, temp, feelsLike, humidity, pressure,
    windSpeed, cloudiness, _ | visibility, country, sunrise, sunset, name⟩ <;>
  simp [enhancedWeatherMarkup, WeatherBody.toJson, JsVal.get, JsVal.get0, JsVal.isNullish,
      JsVal.prop, JsVal.first, List.lookup, bind, Except.bind, pure, Except.pure,
      getWeatherAdviceOf, isFavoriteCity_string, JsVal.toStr, JsVal.toFixed1,
      hcolor, hlevel, htext, hpm25, hpm10, WeatherBody.view]

theorem forecastCards_wellFormed (P : Platform) (entries : List ForecastEntry) :
    forecastCards P (entries.map ForecastEntry.toJson) = .ok (entries.map (ForecastEntry.card P)) := by
  induction entries with
  | nil => rfl
  | cons e rest ih =>
    have h : forecastCard P e.toJson = .ok (e.card P) := rfl
    simp only [List.map_cons, forecastCards, h, ih, bind, Except.bind, pure, Except.pure]

theorem entryIsAfter_toJson (P : Platform) (now : Int) :
    entryIsAfter P now ∘ ForecastEntry.toJson = ForecastEntry.isFuture P now := by
  funext e
  show entryIsAfter P now e.toJson = e.isFuture P now
  have h : e.toJson.prop "dt_txt" = .str e.dtTxt := rfl
  unfold entryIsAfter ForecastEntry.isFuture
  rw [h]
  simp only [newDate]
  cases P.parseDate e.dtTxt <;> rfl

theorem nextHours_eq_filter_take (P : Platform) (clock : Clock) (forecastData : JsVal)
    (items : List JsVal) (hlist : forecastData.prop "list" = .arr items)
    (hitems : ∀ item ∈ items, ∃ s, item.prop "dt_txt" = .str s) :
    nextHours P clock forecastData =
      .ok ((items.filter (entryIsAfter P clock.now)).take 6) := by
  have hn : forecastData.isNullish = false := by
    cases forecastData <;> simp_all [JsVal.prop, JsVal.isNullish]
  unfold nextHours
  rw [JsVal.get_of_not_nullish "list" hn, hlist]
  simp only [bind, Except.bind, pure, Except.pure, filterFuture_eq_filter P clock.now items hitems]
  rfl

theorem generateForecastHTML_wellFormed (P : Platform) (clock : Clock)
    (entries : List ForecastEntry) :
    generateForecastHTML P clock (forecastJson entries) = .ok (forecastView P clock entries) := by
  have hsel : nextHours P clock (forecastJson entries) =
      .ok (((entries.filter (ForecastEntry.isFuture P clock.now)).take 6).map ForecastEntry.toJson) := by
    rw [nextHours_eq_filter_take P clock (forecastJson entries)
      (entries.map ForecastEntry.toJson) rfl]
    · rw [List.filter_map, entryIsAfter_toJson, List.map_take]
    · intro item hitem
      obtain ⟨e, -, rfl⟩ := List.mem_map.1 hitem
      exact ⟨e.dtTxt, rfl⟩
  simp only [generateForecastHTML, hsel, forecastCards_wellFormed, bind, Except.bind, pure,
    Except.pure, forecastView, FORECAST_HOURS]

theorem Step.run_of_completes {f : Step} (h : f.Completes) (s : App) :
    f s = (.ok (), (f s).2) :=
  Prod.ext (h s) rfl

theorem weatherMain_windSpeed_wellFormed (w : WeatherBody) :
    (do
      let main ← (← (← w.toJson.get "weather").get0).get "main"
      let speed ← (← w.toJson.get "wind").get "speed"
      pure (main, speed) : Except JsError (JsVal × JsVal)) =
      .ok (.str w.main, .num w.windSpeed) := by
  rcases w with ⟨lat, lon, main, description, icon, temp, feelsLike, humidity, pressure,
    windSpeed, cloudiness, _ | visibility, country, sunrise, sunset, name⟩ <;> rfl

theorem loadedMessage_wellFormed (P : Platform) (w : WeatherBody) :
    (do
      let name ← (← w.toJson.get "name").toStr P
      pure ("Weather data loaded for " ++ name ++ "!") : Except JsError String) =
      .ok ("Weather data loaded for " ++ w.name ++ "!") := by
  rcases w with ⟨lat, lon, main, description, icon, temp, feelsLike, humidity, pressure,
    windSpeed, cloudiness, _ | visibility, country, sunrise, sunset, name⟩ <;> rfl

/-- The rendering part of a search on well-formed weather and forecast bodies
completes and leaves the three boxes rendered from the data it was given. -/
theorem renderWeather_wellFormed (P : Platform) (clock : Clock) (w : WeatherBody)
    (entries : List ForecastEntry) (newsData airData : JsVal) (s : App)
    {aqiInfo : AqiInfo} {newsHTML : Html} {color level text pm25 pm10 : String}
    (hair : processAirQualityData P airData = .ok aqiInfo)
    (hcolor : aqiInfo.aqiColor.toStr P = .ok color) (hlevel : aqiInfo.aqi.toStr P = .ok level)
    (htext : aqiInfo.aqiText.toStr P = .ok text) (hpm25 : aqiInfo.pm25.toStr P = .ok pm25)
    (hpm10 : aqiInfo.pm10.toStr P = .ok pm10)
    (hnews : generateNewsHTML P clock newsData = .ok newsHTML) :
    (renderWeather P clock w.toJson (forecastJson entries) newsData airData s).1 = .ok () ∧
    (renderWeather P clock w.toJson (forecastJson entries) newsData airData s).2.rendered =
      (some (.enhancedWeather (w.view P clock s.favoriteCities color level text pm25 pm10)),
       some (forecastView P clock entries), some newsHTML, w.toJson) := by
  have hmarkup := enhancedWeatherMarkup_wellFormed P clock s.favoriteCities w aqiInfo
    hcolor hlevel htext hpm25 hpm10
  have h1 : ∀ t, (controlWeatherAnimations P clock (.str w.main) (.num w.windSpeed)
      w.toJson t).2.rendered = t.rendered :=
    controlWeatherAnimations_keepsRendered P clock (.str w.main) (.num w.windSpeed) w.toJson
  have h2 : ∀ t, (updateAdvancedWeatherDetails P clock w.toJson t).2.rendered = t.rendered :=
    updateAdvancedWeatherDetails_keepsRendered P clock w.toJson
  unfold renderWeather
  simp only [hair, generateEnhancedWeatherHTML, hmarkup, generateForecastHTML_wellFormed, hnews,
    weatherMain_windSpeed_wellFormed, loadedMessage_wellFormed]
  rw [Step.run_of_completes (updateAdvancedWeatherDetails_completes P clock w)]
  simp only
  rw [Step.run_of_completes (controlWeatherAnimations_completes P clock w)]
  refine ⟨rfl, ?_⟩
  refine (rfl : _ = (controlWeatherAnimations P clock (.str w.main) (.num w.windSpeed)
    w.toJson _).2.rendered).trans ?_
  rw [h1, h2]
  rfl

/-! ## The orchestrator: optional sources -/

theorem fetchWeatherData_wellFormed (P : Platform) (net : Network) (city : String)
    (w : WeatherBody) (entries : List ForecastEntry) (wres fres nres ares : Response)
    (newsData airData : JsVal)
    (hw : net.weather city = some wres) (hwo : wres.ok = true) (hwb : wres.body = some w.toJson)
    (hf : net.forecast city = some fres) (hfo : fres.ok = true)
    (hfb : fres.body = some (forecastJson entries))
    (hn : net.news = some nres)
    (hnews : (nres.ok = false ∧ newsData = .obj [("articles", .arr [])]) ∨
      (nres.ok = true ∧ nres.body = some newsData))
    (ha : net.airPollution (P.numberToString w.lat) (P.numberToString w.lon) = some ares)
    (hair : (ares.ok = false ∧ airData = .null) ∨ (ares.ok = true ∧ ares.body = some airData)) :
    fetchWeatherData P net city = .ok (w.toJson, forecastJson entries, newsData, airData) := by
  have hcoord : w.toJson.get "coord" = .ok (.obj [("lon", .num w.lon), ("lat", .num w.lat)]) :=
    rfl
  have hlat : (JsVal.obj [("lon", .num w.lon), ("lat", .num w.lat)]).get "lat" = .ok (.num w.lat) :=
    rfl
  have hlon : (JsVal.obj [("lon", .num w.lon), ("lat", .num w.lat)]).get "lon" = .ok (.num w.lon) :=
    rfl
  unfold fetchWeatherData
  rcases hnews with ⟨hno, rfl⟩ | ⟨hno, hnb⟩ <;> rcases hair with ⟨hao, rfl⟩ | ⟨hao, hab⟩ <;>
  simp [hw, hf, hn, hwo, hfo, Response.json, hwb, hfb, hno, hao, hcoord, hlat, hlon, ha,
    JsVal.toStr, bind, Except.bind, pure, Except.pure, *]

theorem getWeatherRun_wellFormed (P : Platform) (net : Network) (clock : Clock) (s : App)
    (w : WeatherBody) (entries : List ForecastEntry) (newsData airData : JsVal)
    (hs1 : s.weatherResult.isSome = true) (hs2 : s.forecastResult.isSome = true)
    (hs3 : s.newsResult.isSome = true)
    (hfetch : fetchWeatherData P net (queriedCity s.cityInput) =
      .ok (w.toJson, forecastJson entries, newsData, airData))
    {aqiInfo : AqiInfo} {newsHTML : Html} {color level text pm25 pm10 : String}
    (hair : processAirQualityData P airData = .ok aqiInfo)
    (hcolor : aqiInfo.aqiColor.toStr P = .ok color) (hlevel : aqiInfo.aqi.toStr P = .ok level)
    (htext : aqiInfo.aqiText.toStr P = .ok text) (hpm25 : aqiInfo.pm25.toStr P = .ok pm25)
    (hpm10 : aqiInfo.pm10.toStr P = .ok pm10)
    (hnews : generateNewsHTML P clock newsData = .ok newsHTML) :
    (getWeatherRun P net clock s).1 = none ∧
    (getWeather P net clock s).rendered =
      (some (.enhancedWeather (w.view P clock s.favoriteCities color level text pm25 pm10)),
       some (forecastView P clock entries), some newsHTML, w.toJson) := by
  have h1 : s.weatherResult.isNone = false := by cases h : s.weatherResult <;> simp_all
  have h2 : s.forecastResult.isNone = false := by cases h : s.forecastResult <;> simp_all
  have h3 : s.newsResult.isNone = false := by cases h : s.newsResult <;> simp_all
  obtain ⟨hr1, hr2⟩ := renderWeather_wellFormed P clock w entries newsData airData
    (showLoadingStates s) hair hcolor hlevel htext hpm25 hpm10 hnews
  have hrun : getWeatherRun P net clock s =
      (none, (renderWeather P clock w.toJson (forecastJson entries) newsData airData
        (showLoadingStates s)).2) := by
    simp only [getWeatherRun, getWeatherTry, h1, h2, h3, hfetch, Bool.or_self,
      Bool.false_eq_true, if_false]
    cases hrw : renderWeather P clock w.toJson (forecastJson entries) newsData airData
      (showLoadingStates s) with
    | mk r s1 =>
      rw [hrw] at hr1
      simp only at hr1
      subst hr1
      rfl
  refine ⟨by rw [hrun], ?_⟩
  unfold getWeather
  rw [hrun]
  exact hr2

theorem processAirQualityData_renders (P : Platform) (a : AirBody) :
    ∃ aqiInfo color level text pm25 pm10,
      processAirQualityData P a.toJson = .ok aqiInfo ∧
      aqiInfo.aqiColor.toStr P = .ok color ∧ aqiInfo.aqi.toStr P = .ok level ∧
      aqiInfo.aqiText.toStr P = .ok text ∧ aqiInfo.pm25.toStr P = .ok pm25 ∧
      aqiInfo.pm10.toStr P = .ok pm10 := by
  obtain ⟨pm25, pm10, h⟩ := processAirQualityData_level P a.toJson a.aqi rfl rfl
    (Or.inr ⟨a.pm25, rfl⟩) (Or.inr ⟨a.pm10, rfl⟩)
  exact ⟨_, _, _, _, _, _, h, rfl, rfl, rfl, rfl, rfl⟩

theorem generateNewsHTML_empty (P : Platform) (clock : Clock) :
    generateNewsHTML P clock (.obj [("articles", .arr [])]) = .ok .newsFallback :=
  rfl

/-- C2: in a search whose weather and forecast responses succeed with
well-formed bodies, a non-success status of the news source makes the news box
the rendering of an empty article list, and a non-success status of the
air-quality source makes the AQI section the "Unknown" sentinel; the search
does not enter the error state and the weather and forecast boxes are rendered
from the weather and forecast data.  (The other optional source either answers
with a non-success status too or with a body that renders.) -/
theorem getWeather_optional_non_success (P : Platform) (net : Network) (clock : Clock)
    (s : App) (w : WeatherBody) (entries : List ForecastEntry) (wres fres nres ares : Response)
    (hs1 : s.weatherResult.isSome = true) (hs2 : s.forecastResult.isSome = true)
    (hs3 : s.newsResult.isSome = true)
    (hw : net.weather (queriedCity s.cityInput) = some wres) (hwo : wres.ok = true)
    (hwb : wres.body = some w.toJson)
    (hf : net.forecast (queriedCity s.cityInput) = some fres) (hfo : fres.ok = true)
    (hfb : fres.body = some (forecastJson entries))
    (hn : net.news = some nres)
    (ha : net.airPollution (P.numberToString w.lat) (P.numberToString w.lon) = some ares)
    (hnews : nres.ok = true → ∃ newsData newsHTML, nres.body = some newsData ∧
      generateNewsHTML P clock newsData = .ok newsHTML)
    (hair : ares.ok = true → ∃ a : AirBody, ares.body = some a.toJson) :
    (getWeatherRun P net clock s).1 = none ∧
    (∃ color level text pm25 pm10,
      (getWeather P net clock s).weatherResult =
        some (.enhancedWeather (w.view P clock s.favoriteCities color level text pm25 pm10)) ∧
      (ares.ok = false → color = "undefined" ∧ level = P.numberToString 0 ∧ text = "Unknown" ∧
        pm25 = P.numberToString 0 ∧ pm10 = P.numberToString 0)) ∧
    (getWeather P net clock s).forecastResult = some (forecastView P clock entries) ∧
    (nres.ok = false →
      (getWeather P net clock s).newsResult = some .newsFallback ∧
      generateNewsHTML P clock (.obj [("articles", .arr [])]) = .ok .newsFallback) := by
  -- the news data and its rendering
  obtain ⟨newsData, newsHTML, hnd, hnh, hfallback⟩ :
      ∃ newsData newsHTML,
        ((nres.ok = false ∧ newsData = .obj [("articles", .arr [])]) ∨
          (nres.ok = true ∧ nres.body = some newsData)) ∧
        generateNewsHTML P clock newsData = .ok newsHTML ∧
        (nres.ok = false → newsHTML = .newsFallback) := by
    cases hno : nres.ok with
    | false =>
      exact ⟨_, .newsFallback, Or.inl ⟨rfl, rfl⟩, generateNewsHTML_empty P clock, fun _ => rfl⟩
    | true =>
      obtain ⟨nd, nh, h1, h2⟩ := hnews hno
      exact ⟨nd, nh, Or.inr ⟨rfl, h1⟩, h2, fun h => by cases h⟩
  -- the air data and its rendering
  obtain ⟨airData, aqiInfo, color, level, text, pm25, pm10, had, hai, hc, hl, ht, h25, h10,
      hunknown⟩ :
      ∃ airData aqiInfo color level text pm25 pm10,
        ((ares.ok = false ∧ airData = .null) ∨ (ares.ok = true ∧ ares.body = some airData)) ∧
        processAirQualityData P airData = .ok aqiInfo ∧
        aqiInfo.aqiColor.toStr P = .ok color ∧ aqiInfo.aqi.toStr P = .ok level ∧
        aqiInfo.aqiText.toStr P = .ok text ∧ aqiInfo.pm25.toStr P = .ok pm25 ∧
        aqiInfo.pm10.toStr P = .ok pm10 ∧
        (ares.ok = false → color = "undefined" ∧ level = P.numberToString 0 ∧
          text = "Unknown" ∧ pm25 = P.numberToString 0 ∧ pm10 = P.numberToString 0) := by
    cases hao : ares.ok with
    | false =>
      exact ⟨.null, _, _, _, _, _, _, Or.inl ⟨rfl, rfl⟩, rfl, rfl, rfl, rfl, rfl, rfl,
        fun _ => ⟨rfl, rfl, rfl, rfl, rfl⟩⟩
    | true =>
      obtain ⟨a, hbody⟩ := hair hao
      obtain ⟨info, c, l, t, p25, p10, h0, h1, h2, h3, h4, h5⟩ :=
        processAirQualityData_renders P a
      exact ⟨a.toJson, info, c, l, t, p25, p10, Or.inr ⟨rfl, hbody⟩, h0, h1, h2, h3, h4, h5,
        fun h => by cases h⟩
  have hfetch := fetchWeatherData_wellFormed P net _ w entries wres fres nres ares newsData
    airData hw hwo hwb hf hfo hfb hn hnd ha had
  obtain ⟨hok, hrend⟩ := getWeatherRun_wellFormed P net clock s w entries newsData airData
    hs1 hs2 hs3 hfetch hai hc hl ht h25 h10 hnh
  refine ⟨hok, ⟨color, level, text, pm25, pm10, congrArg (·.1) hrend, hunknown⟩,
    congrArg (·.2.1) hrend, ?_⟩
  intro hno
  refine ⟨?_, generateNewsHTML_empty P clock⟩
  rw [← hfallback hno]
  exact congrArg (·.2.2.1) hrend

/-- The statement of C2 on the sample page when news answers 500 and air quality 401. -/
theorem getWeather_optional_non_success_witness :
    (getWeatherRun samplePlatform networkOptionalDown sampleClock sampleApp).1 = none ∧
    (getWeather samplePlatform networkOptionalDown sampleClock sampleApp).forecastResult =
      some (forecastView samplePlatform sampleClock sampleForecastEntries) ∧
    (getWeather samplePlatform networkOptionalDown sampleClock sampleApp).newsResult =
      some .newsFallback :=
  have h := getWeather_optional_non_success samplePlatform networkOptionalDown sampleClock
    sampleApp sampleWeather sampleForecastEntries
    { status := 200, body := some sampleWeather.toJson }
    { status := 200, body := some (forecastJson sampleForecastEntries) }
    { status := 500, body := none } { status := 401, body := none }
    rfl rfl rfl rfl rfl rfl rfl rfl rfl rfl rfl
    (fun h => absurd h (by decide)) (fun h => absurd h (by decide))
  ⟨h.1, h.2.2.1, (h.2.2.2 rfl).1⟩

/-- C3, as stated, fails: with well-formed weather and forecast responses, a
news request that itself rejects sends the search to the error state; the
weather and forecast are not rendered. -/
theorem getWeather_news_rejects_counterexample :
    (getWeatherRun samplePlatform networkNewsRejects sampleClock sampleApp).1 =
      some .networkError ∧
    (getWeather samplePlatform networkNewsRejects sampleClock sampleApp).weatherResult =
      some errorMessageEnhanced ∧
    (getWeather samplePlatform networkNewsRejects sampleClock sampleApp).forecastResult =
      some (.literal "") ∧
    (getWeather samplePlatform networkNewsRejects sampleClock sampleApp).newsResult =
      some (.literal "") :=
  ⟨rfl, rfl, rfl, rfl⟩

theorem fetchWeatherData_optional_failure (P : Platform) (net : Network) (city : String)
    (w : WeatherBody) (wres : Response)
    (hw : net.weather city = some wres) (hwb : wres.body = some w.toJson)
    (hfail : net.news = none ∨ (∃ nres, net.news = some nres ∧ nres.ok = true ∧ nres.body = none) ∨
      net.airPollution (P.numberToString w.lat) (P.numberToString w.lon) = none ∨
      (∃ ares, net.airPollution (P.numberToString w.lat) (P.numberToString w.lon) = some ares ∧
        ares.ok = true ∧ ares.body = none)) :
    ∃ e, fetchWeatherData P net city = .error e := by
  have hcoord : w.toJson.get "coord" = .ok (.obj [("lon", .num w.lon), ("lat", .num w.lat)]) :=
    rfl
  have hlat : (JsVal.obj [("lon", .num w.lon), ("lat", .num w.lat)]).get "lat" = .ok (.num w.lat) :=
    rfl
  have hlon : (JsVal.obj [("lon", .num w.lon), ("lat", .num w.lat)]).get "lon" = .ok (.num w.lon) :=
    rfl
  cases hres : fetchWeatherData P net city with
  | error e => exact ⟨e, rfl⟩
  | ok r =>
    exfalso
    unfold fetchWeatherData at hres
    rw [hw] at hres
    cases hf : net.forecast city with
    | none => simp [hf, bind, Except.bind, throw, throwThe, MonadExceptOf.throw] at hres
    | some fres =>
      cases hn : net.news with
      | none => simp [hf, hn, bind, Except.bind, throw, throwThe, MonadExceptOf.throw] at hres
      | some nres =>
        cases hwo : wres.ok with
        | false =>
          simp [hf, hn, hwo, bind, Except.bind, throw, throwThe, MonadExceptOf.throw, pure,
            Except.pure] at hres
        | true =>
          cases hfo : fres.ok with
          | false =>
            simp [hf, hn, hwo, hfo, bind, Except.bind, throw, throwThe, MonadExceptOf.throw,
              pure, Except.pure] at hres
          | true =>
            cases hfb : fres.body with
            | none =>
              simp [hf, hn, hwo, hfo, hfb, hwb, Response.json, bind, Except.bind, throw,
                throwThe, MonadExceptOf.throw, pure, Except.pure] at hres
            | some fd =>
              cases hno : nres.ok <;> cases hnb : nres.body <;>
                cases hair : net.airPollution (P.numberToString w.lat) (P.numberToString w.lon) with
                | none =>
                  simp_all [Response.json, bind, Except.bind, throw, throwThe,
                    MonadExceptOf.throw, pure, Except.pure, JsVal.toStr]
                | some ares =>
                  cases hao : ares.ok <;> cases hab : ares.body <;>
                  simp_all [Response.json, bind, Except.bind, throw, throwThe,
                    MonadExceptOf.throw, pure, Except.pure, JsVal.toStr]

/-- C3, amended: in a search whose weather and forecast responses succeed with
well-formed bodies, only a non-success status of an optional source is
tolerated: when news and air quality both answer with a non-success status the
article list is replaced by the empty list and the AQI by the "Unknown"
sentinel, the weather and forecast are rendered and the error state is not
entered; when the news or air-quality request itself rejects, or answers with
a success status and a body that cannot be parsed, the search ends in the
error state. -/
theorem getWeather_optional_failure (P : Platform) (net : Network) (clock : Clock)
    (s : App) (w : WeatherBody) (entries : List ForecastEntry) (wres fres : Response)
    (hs1 : s.weatherResult.isSome = true) (hs2 : s.forecastResult.isSome = true)
    (hs3 : s.newsResult.isSome = true)
    (hw : net.weather (queriedCity s.cityInput) = some wres) (hwo : wres.ok = true)
    (hwb : wres.body = some w.toJson)
    (hf : net.forecast (queriedCity s.cityInput) = some fres) (hfo : fres.ok = true)
    (hfb : fres.body = some (forecastJson entries)) :
    (∀ nres ares, net.news = some nres →
      net.airPollution (P.numberToString w.lat) (P.numberToString w.lon) = some ares →
      nres.ok = false → ares.ok = false →
      (getWeatherRun P net clock s).1 = none ∧
      (getWeather P net clock s).weatherResult =
        some (.enhancedWeather (w.view P clock s.favoriteCities "undefined"
          (P.numberToString 0) "Unknown" (P.numberToString 0) (P.numberToString 0))) ∧
      (getWeather P net clock s).forecastResult = some (forecastView P clock entries) ∧
      (getWeather P net clock s).newsResult = some .newsFallback) ∧
    ((net.news = none ∨ (∃ nres, net.news = some nres ∧ nres.ok = true ∧ nres.body = none) ∨
        net.airPollution (P.numberToString w.lat) (P.numberToString w.lon) = none ∨
        (∃ ares, net.airPollution (P.numberToString w.lat) (P.numberToString w.lon) = some ares ∧
          ares.ok = true ∧ ares.body = none)) →
      (∃ e, (getWeatherRun P net clock s).1 = some e) ∧
      getWeather P net clock s = handleWeatherError (showLoadingStates s) ∧
      (getWeather P net clock s).weatherResult = some errorMessageEnhanced ∧
      (getWeather P net clock s).forecastResult = some (.literal "") ∧
      (getWeather P net clock s).newsResult = some (.literal "")) := by
  constructor
  · intro nres ares hn ha hno hao
    have hfetch := fetchWeatherData_wellFormed P net _ w entries wres fres nres ares
      (.obj [("articles", .arr [])]) .null hw hwo hwb hf hfo hfb hn (Or.inl ⟨hno, rfl⟩) ha
      (Or.inl ⟨hao, rfl⟩)
    have hair := processAirQualityData_missing P .null rfl
    obtain ⟨hok, hrend⟩ := getWeatherRun_wellFormed P net clock s w entries _ _
      hs1 hs2 hs3 hfetch hair rfl rfl rfl rfl rfl (generateNewsHTML_empty P clock)
    exact ⟨hok, congrArg (·.1) hrend, congrArg (·.2.1) hrend, congrArg (·.2.2.1) hrend⟩
  · intro hfail
    obtain ⟨e, he⟩ := fetchWeatherData_optional_failure P net _ w wres hw hwb hfail
    have hrun := getWeatherRun_of_fetch_error P net clock s hs1 hs2 hs3 he
    have hstate : getWeather P net clock s = handleWeatherError (showLoadingStates s) := by
      simp [getWeather, hrun]
    refine ⟨⟨e, by rw [hrun]⟩, hstate, ?_, ?_, ?_⟩ <;> rw [hstate] <;> rfl

/-- The statement of C3 (amended) on the sample page: news 500 and air quality
401 are tolerated, a rejected news request is not. -/
theorem getWeather_optional_failure_witness :
    (getWeatherRun samplePlatform networkOptionalDown sampleClock sampleApp).1 = none ∧
    (getWeather samplePlatform networkOptionalDown sampleClock sampleApp).newsResult =
      some .newsFallback ∧
    (getWeather samplePlatform networkNewsRejects sampleClock sampleApp).weatherResult =
      some errorMessageEnhanced :=
  have h1 := (getWeather_optional_failure samplePlatform networkOptionalDown sampleClock
    sampleApp sampleWeather sampleForecastEntries
    { status := 200, body := some sampleWeather.toJson }
    { status := 200, body := some (forecastJson sampleForecastEntries) }
    rfl rfl rfl rfl rfl rfl rfl rfl rfl).1
    { status := 500, body := none } { status := 401, body := none } rfl rfl rfl rfl
  have h2 := (getWeather_optional_failure samplePlatform networkNewsRejects sampleClock
    sampleApp sampleWeather sampleForecastEntries
    { status := 200, body := some sampleWeather.toJson }
    { status := 200, body := some (forecastJson sampleForecastEntries) }
    rfl rfl rfl rfl rfl rfl rfl rfl rfl).2 (Or.inl rfl)
  ⟨h1.1, h1.2.2.2, h2.2.2.1⟩

/-! ## Forecast order -/

theorem entryIsAfter_iff (P : Platform) (now : Int) (item : JsVal) :
    entryIsAfter P now item = true ↔ ∃ t, entryTime P item = some t ∧ now < t := by
  unfold entryIsAfter entryTime
  cases h : newDate P (item.prop "dt_txt") with
  | error e => simp
  | ok d =>
    cases d with
    | none => simp
    | some t => simp

theorem forecastJson_items_dated (entries : List ForecastEntry) :
    ∀ item ∈ entries.map ForecastEntry.toJson, ∃ s, item.prop "dt_txt" = .str s := by
  intro item hitem
  obtain ⟨e, -, rfl⟩ := List.mem_map.1 hitem
  exact ⟨e.dtTxt, rfl⟩

/-- C11, as stated, fails: on a list whose two future entries come latest first
the selection keeps the list order, so the selected entries are not in
ascending order of timestamp. -/
theorem nextHours_unsorted_counterexample :
    ∃ first second t1 t2,
      nextHours samplePlatform sampleClock descendingForecast = .ok [first, second] ∧
      entryTime samplePlatform first = some t1 ∧ entryTime samplePlatform second = some t2 ∧
      t2 < t1 :=
  ⟨_, _, _, _, rfl, rfl, rfl, by decide⟩

/-- C11, amended: the selection of `generateForecastHTML` is the first
min(6, k) of the k future entries of the list, in list order (no sorting is
done); when the list is in ascending order of timestamp, the selected entries
are in ascending order and no unselected future entry is earlier than a
selected one. -/
theorem nextHours_first_future_in_list_order (P : Platform) (clock : Clock)
    (forecastData : JsVal) (items : List JsVal)
    (hlist : forecastData.prop "list" = .arr items)
    (hitems : ∀ item ∈ items, ∃ s, item.prop "dt_txt" = .str s) :
    ∃ sel rest, nextHours P clock forecastData = .ok sel ∧
      items.filter (entryIsAfter P clock.now) = sel ++ rest ∧
      (∀ e, e ∈ sel ++ rest ↔ e ∈ items ∧ ∃ t, entryTime P e = some t ∧ clock.now < t) ∧
      sel.length = min 6 (sel ++ rest).length ∧
      (items.Pairwise (notLaterThan P) →
        sel.Pairwise (notLaterThan P) ∧ ∀ a ∈ sel, ∀ b ∈ rest, notLaterThan P a b) := by
  have hn : forecastData.isNullish = false := by
    cases forecastData <;> simp_all [JsVal.prop, JsVal.isNullish]
  have hsel : nextHours P clock forecastData =
      .ok ((items.filter (entryIsAfter P clock.now)).take 6) := by
    unfold nextHours
    rw [JsVal.get_of_not_nullish "list" hn, hlist]
    simp only [bind, Except.bind, pure, Except.pure,
      filterFuture_eq_filter P clock.now items hitems]
    rfl
  have hsplit := List.take_append_drop 6 (items.filter (entryIsAfter P clock.now))
  refine ⟨_, (items.filter (entryIsAfter P clock.now)).drop 6, hsel, hsplit.symm, ?_, ?_, ?_⟩
  · intro e
    rw [hsplit, List.mem_filter, entryIsAfter_iff]
  · rw [hsplit]
    exact List.length_take _ _
  · intro hsorted
    have hf : (items.filter (entryIsAfter P clock.now)).Pairwise (notLaterThan P) :=
      hsorted.sublist (List.filter_sublist _)
    rw [← hsplit, List.pairwise_append] at hf
    exact ⟨hf.1, hf.2.2⟩

/-- The statement of C11 (amended) on the sample forecast at noon: two entries
are selected out of two future ones. -/
theorem nextHours_first_future_in_list_order_witness :
    ∃ sel rest, nextHours samplePlatform sampleClock sampleForecast = .ok sel ∧
      sel.length = min 6 (sel ++ rest).length :=
  have ⟨sel, rest, h1, _, _, h4, _⟩ :=
    nextHours_first_future_in_list_order samplePlatform sampleClock sampleForecast
      (sampleForecastEntries.map ForecastEntry.toJson) rfl
      (forecastJson_items_dated sampleForecastEntries)
  ⟨sel, rest, h1, h4⟩

/-! ## Alerts and visibility -/

theorem weatherAlertList_eq (P : Platform) (w : WeatherBody) :
    weatherAlertList P w.toJson = .ok
      ((if w.temp > 40 then [heatAlert] else []) ++
       (if w.humidity > 85 then [humidityAlert] else []) ++
       (if w.windSpeed > 10 then [windAlert] else []) ++
       (if w.main = "Rain" then [rainAlert] else [])) := by
  rcases w with ⟨lat, lon, main, description, icon, temp, feelsLike, humidity, pressure,
    windSpeed, cloudiness, _ | visibility, country, sunrise, sunset, name⟩ <;>
  simp [weatherAlertList, WeatherBody.toJson, JsVal.get, JsVal.get0, JsVal.isNullish,
    JsVal.prop, JsVal.first, List.lookup, JsVal.gtNum, JsVal.toNumber, JsVal.isStr,
    Except.map, bind, Except.bind, pure, Except.pure, heatAlert, humidityAlert, windAlert,
    rainAlert]

theorem alertList_props (heat humidity wind rain : Prop) [Decidable heat] [Decidable humidity]
    [Decidable wind] [Decidable rain] :
    let alerts := (if heat then [heatAlert] else []) ++
       (if humidity then [humidityAlert] else []) ++
       (if wind then [windAlert] else []) ++ (if rain then [rainAlert] else [])
    (heatAlert ∈ alerts ↔ heat) ∧ (humidityAlert ∈ alerts ↔ humidity) ∧
    (windAlert ∈ alerts ↔ wind) ∧ (rainAlert ∈ alerts ↔ rain) ∧
    alerts.Sublist [heatAlert, humidityAlert, windAlert, rainAlert] ∧
    (alerts = [] ↔ ¬ heat ∧ ¬ humidity ∧ ¬ wind ∧ ¬ rain) := by
  intro alerts
  have h12 : heatAlert ≠ humidityAlert := by decide
  have h13 : heatAlert ≠ windAlert := by decide
  have h14 : heatAlert ≠ rainAlert := by decide
  have h23 : humidityAlert ≠ windAlert := by decide
  have h24 : humidityAlert ≠ rainAlert := by decide
  have h34 : windAlert ≠ rainAlert := by decide
  by_cases h1 : heat <;> by_cases h2 : humidity <;> by_cases h3 : wind <;> by_cases h4 : rain <;>
  simp [alerts, h1, h2, h3, h4, h12, h13, h14, h23, h24, h34, h12.symm, h13.symm, h14.symm,
    h23.symm, h24.symm, h34.symm]

theorem updateWeatherAlerts_shows (P : Platform) (weatherData : JsVal) (alerts : List Alert)
    (s : App) (h : weatherAlertList P weatherData = .ok alerts)
    (hs : s.weatherAlerts.isSome = true) :
    (updateWeatherAlerts P weatherData s).1 = .ok () ∧
    (alerts = [] → (updateWeatherAlerts P weatherData s).2.weatherAlerts = some .noAlerts) ∧
    (alerts ≠ [] →
      (updateWeatherAlerts P weatherData s).2.weatherAlerts = some (.alerts alerts)) := by
  obtain ⟨el, hel⟩ := Option.isSome_iff_exists.1 hs
  have hrun : updateWeatherAlerts P weatherData s =
      (.ok (),
       { s with weatherAlerts := some (if alerts.length = 0 then .noAlerts else .alerts alerts) }) := by
    simp only [updateWeatherAlerts, hel, h]
  rw [hrun]
  refine ⟨rfl, ?_, ?_⟩
  · intro hnil
    subst hnil
    rfl
  · intro hne
    have hlen : alerts.length ≠ 0 := fun h0 => hne (List.length_eq_zero.1 h0)
    show some (if alerts.length = 0 then Html.noAlerts else Html.alerts alerts) = _
    rw [if_neg hlen]

/-- C12: for every weather record the alert list of `updateWeatherAlerts`
contains the heat alert iff temperature > 40, the humidity alert iff humidity
> 85, the wind alert iff wind speed > 10 and the rain alert iff the main
condition is exactly "Rain"; the alerts come in the order heat, humidity, wind,
rain, each at most once; the list is empty, and "No weather alerts" is shown,
iff none of the four conditions holds. -/
theorem updateWeatherAlerts_alert_list (P : Platform) (w : WeatherBody) :
    ∃ alerts, weatherAlertList P w.toJson = .ok alerts ∧
      (heatAlert ∈ alerts ↔ w.temp > 40) ∧ (humidityAlert ∈ alerts ↔ w.humidity > 85) ∧
      (windAlert ∈ alerts ↔ w.windSpeed > 10) ∧ (rainAlert ∈ alerts ↔ w.main = "Rain") ∧
      alerts.Sublist [heatAlert, humidityAlert, windAlert, rainAlert] ∧
      (alerts = [] ↔ ¬ w.temp > 40 ∧ ¬ w.humidity > 85 ∧ ¬ w.windSpeed > 10 ∧
        ¬ w.main = "Rain") ∧
      (∀ s : App, s.weatherAlerts.isSome = true →
        (updateWeatherAlerts P w.toJson s).1 = .ok () ∧
        (alerts = [] → (updateWeatherAlerts P w.toJson s).2.weatherAlerts = some .noAlerts) ∧
        (alerts ≠ [] →
          (updateWeatherAlerts P w.toJson s).2.weatherAlerts = some (.alerts alerts))) := by
  obtain ⟨h1, h2, h3, h4, h5, h6⟩ :=
    alertList_props (w.temp > 40) (w.humidity > 85) (w.windSpeed > 10) (w.main = "Rain")
  exact ⟨_, weatherAlertList_eq P w, h1, h2, h3, h4, h5, h6,
    fun s hs => updateWeatherAlerts_shows P _ _ s (weatherAlertList_eq P w) hs⟩

/-- The statement of C12 on a record exactly at the thresholds (40 °C, 85 %,
10 m/s, condition "Clear"): no alert is raised. -/
theorem updateWeatherAlerts_alert_list_witness :
    (updateWeatherAlerts samplePlatform weatherAtThresholds.toJson sampleApp).2.weatherAlerts =
      some .noAlerts := by
  obtain ⟨alerts, -, -, -, -, -, -, h6, h7⟩ :=
    updateWeatherAlerts_alert_list samplePlatform weatherAtThresholds
  exact (h7 sampleApp rfl).2.1 (h6.2 ⟨by decide, by decide, by decide, by decide⟩)

theorem visibilityStatus_present (P : Platform) (w : WeatherBody) (v : ℚ)
    (hv : w.visibility = some v) :
    visibilityStatus P w.toJson = .ok
      (if v ≥ 10000 then "Excellent" else if v ≥ 5000 then "Good"
        else if v ≥ 2000 then "Moderate" else "Poor") := by
  rcases w with ⟨lat, lon, main, description, icon, temp, feelsLike, humidity, pressure,
    windSpeed, cloudiness, visibility, country, sunrise, sunset, name⟩
  simp only at hv
  subst hv
  simp [visibilityStatus, WeatherBody.toJson, JsVal.get, JsVal.isNullish,
      JsVal.prop, List.lookup, JsVal.geNum, JsVal.toNumber, Except.map, bind, Except.bind,
      pure, Except.pure]
  split_ifs <;> rfl

/-- C13: for a weather record with visibility `v` metres the bucket of
`updateVisibilityData` is "Excellent" for v >= 10000, "Good" for
5000 <= v < 10000, "Moderate" for 2000 <= v < 5000 and "Poor" for v < 2000,
and it is the status the visibility panel shows. -/
theorem updateVisibilityData_bucket (P : Platform) (w : WeatherBody) (v : ℚ)
    (hv : w.visibility = some v) :
    ∃ status, visibilityStatus P w.toJson = .ok status ∧
      (v ≥ 10000 → status = "Excellent") ∧ (5000 ≤ v ∧ v < 10000 → status = "Good") ∧
      (2000 ≤ v ∧ v < 5000 → status = "Moderate") ∧ (v < 2000 → status = "Poor") ∧
      (∀ s : App, s.visibilityData.isSome = true →
        ∃ km, updateVisibilityData P w.toJson s =
          (.ok (), { s with visibilityData := some (.visibility km status) })) := by
  refine ⟨_, visibilityStatus_present P w v hv, ?_, ?_, ?_, ?_, ?_⟩
  · intro h
    simp [h]
  · rintro ⟨h1, h2⟩
    simp [not_le.2 h2, h1]
  · rintro ⟨h1, h2⟩
    have h3 : v < 10000 := by linarith
    simp [not_le.2 h2, not_le.2 h3, h1]
  · intro h
    have h2 : v < 5000 := by linarith
    have h3 : v < 10000 := by linarith
    simp [not_le.2 h, not_le.2 h2, not_le.2 h3]
  · intro s hs
    obtain ⟨el, hel⟩ := Option.isSome_iff_exists.1 hs
    obtain ⟨km, hkm⟩ := visibilityText_wellFormed P w
    exact ⟨km, by simp only [updateVisibilityData, hel, hkm, visibilityStatus_present P w v hv]⟩

/-- The statement of C13 at 10000 m, 5000 m, 2000 m and 500 m. -/
theorem updateVisibilityData_bucket_witness :
    visibilityStatus samplePlatform (WeatherBody.toJson
      { sampleWeather with visibility := some 10000 }) = .ok "Excellent" ∧
    visibilityStatus samplePlatform (WeatherBody.toJson
      { sampleWeather with visibility := some 5000 }) = .ok "Good" ∧
    visibilityStatus samplePlatform (WeatherBody.toJson
      { sampleWeather with visibility := some 2000 }) = .ok "Moderate" ∧
    visibilityStatus samplePlatform (WeatherBody.toJson
      { sampleWeather with visibility := some 500 }) = .ok "Poor" := by
  obtain ⟨s1, h1, e1, -, -, -, -⟩ := updateVisibilityData_bucket samplePlatform
    { sampleWeather with visibility := some 10000 } 10000 rfl
  obtain ⟨s2, h2, -, e2, -, -, -⟩ := updateVisibilityData_bucket samplePlatform
    { sampleWeather with visibility := some 5000 } 5000 rfl
  obtain ⟨s3, h3, -, -, e3, -, -⟩ := updateVisibilityData_bucket samplePlatform
    { sampleWeather with visibility := some 2000 } 2000 rfl
  obtain ⟨s4, h4, -, -, -, e4, -⟩ := updateVisibilityData_bucket samplePlatform
    { sampleWeather with visibility := some 500 } 500 rfl
  rw [e1 (by decide)] at h1
  rw [e2 ⟨by decide, by decide⟩] at h2
  rw [e3 ⟨by decide, by decide⟩] at h3
  rw [e4 (by decide)] at h4
  exact ⟨h1, h2, h3, h4⟩

/-- C14 at its failing input: for a weather record without a visibility value
the panel shows the value "N/A" but the bucket "Poor". -/
theorem updateVisibilityData_absent :
    visibilityText samplePlatform weatherWithoutVisibility.toJson = .ok "N/A" ∧
    visibilityStatus samplePlatform weatherWithoutVisibility.toJson = .ok "Poor" ∧
    (updateVisibilityData samplePlatform weatherWithoutVisibility.toJson sampleApp).2.visibilityData
      = some (.visibility "N/A" "Poor") :=
  ⟨rfl, rfl, rfl⟩

/-! ## Greeting -/

/-- C19: the greeting of `getTimeBasedGreeting` depends on the local hour only:
morning for 5 <= h < 12, afternoon for 12 <= h < 17, evening for 17 <= h < 20
and night for every other hour. -/
theorem getTimeBasedGreeting_by_hour (clock : Clock) :
    (5 ≤ clock.hours ∧ clock.hours < 12 → getTimeBasedGreeting clock = "Good Morning ☀️") ∧
    (12 ≤ clock.hours ∧ clock.hours < 17 → getTimeBasedGreeting clock = "Good Afternoon 🌞") ∧
    (17 ≤ clock.hours ∧ clock.hours < 20 → getTimeBasedGreeting clock = "Good Evening 🌇") ∧
    (clock.hours < 5 ∨ 20 ≤ clock.hours → getTimeBasedGreeting clock = "Good Night 🌙") ∧
    (∀ other : Clock, other.hours = clock.hours →
      getTimeBasedGreeting other = getTimeBasedGreeting clock) := by
  refine ⟨?_, ?_, ?_, ?_, ?_⟩
  · rintro ⟨h1, h2⟩
    simp [getTimeBasedGreeting, h1, h2]
  · rintro ⟨h1, h2⟩
    have h3 : ¬ clock.hours < 12 := by omega
    simp [getTimeBasedGreeting, h1, h2, h3]
  · rintro ⟨h1, h2⟩
    have h3 : ¬ clock.hours < 12 := by omega
    have h4 : ¬ clock.hours < 17 := by omega
    simp [getTimeBasedGreeting, h1, h2, h3, h4]
  · intro h
    have h3 : ¬ (5 ≤ clock.hours ∧ clock.hours < 12) := by omega
    have h4 : ¬ (12 ≤ clock.hours ∧ clock.hours < 17) := by omega
    have h5 : ¬ (17 ≤ clock.hours ∧ clock.hours < 20) := by omega
    simp only [getTimeBasedGreeting, ge_iff_le, h3, h4, h5, if_false]
  · intro other h
    simp only [getTimeBasedGreeting, h]

/-- The statement of C19 at 12 h, the first hour of the afternoon. -/
theorem getTimeBasedGreeting_by_hour_witness :
    getTimeBasedGreeting sampleClock = "Good Afternoon 🌞" :=
  (getTimeBasedGreeting_by_hour sampleClock).2.1 ⟨by decide, by decide⟩

/-! ## Background category and wind overlay -/

theorem applyWeatherCategory_weatherClasses (weather : String) (isNight : Bool) (s : App) :
    (applyWeatherCategory weather isNight s).weatherClasses =
      s.weatherClasses ++ [weatherCategoryClass weather isNight] := by
  unfold applyWeatherCategory weatherCategoryClass
  split_ifs <;> rfl

theorem applyWeatherCategory_wind (weather : String) (isNight : Bool) (s : App) :
    (applyWeatherCategory weather isNight s).wind = s.wind := by
  unfold applyWeatherCategory
  split_ifs <;> rfl

theorem weatherCategoryClass_ne_windy (weather : String) (isNight : Bool) :
    weatherCategoryClass weather isNight ≠ "weather-windy" := by
  unfold weatherCategoryClass
  split_ifs <;> decide

theorem controlWeatherAnimations_run (P : Platform) (clock : Clock) (w : String)
    (windSpeed weatherData : JsVal) (s : App) (night strong : Bool)
    (hnight : isNightTime P clock weatherData = .ok night)
    (hwind : windSpeed.gtNum P 4.5 = .ok strong) :
    (controlWeatherAnimations P clock (.str w) windSpeed weatherData s).1 = .ok () ∧
    (controlWeatherAnimations P clock (.str w) windSpeed weatherData s).2.weatherClasses =
      weatherCategoryClass (toLowerCase w) night ::
        (if strong = true ∧ s.wind.isSome = true then ["weather-windy"] else []) ∧
    (controlWeatherAnimations P clock (.str w) windSpeed weatherData s).2.wind =
      s.wind.map fun _ => if strong = true then "block" else "none" := by
  have hc := applyWeatherCategory_weatherClasses (toLowerCase w) night
    { hideAnimations s with weatherClasses := [] }
  have hw := applyWeatherCategory_wind (toLowerCase w) night
    { hideAnimations s with weatherClasses := [] }
  simp only [controlWeatherAnimations, hnight, hwind, JsVal.toLowerCase]
  cases strong <;> cases hs : s.wind <;>
  simp_all [hideAnimations, setDisplay]

theorem weatherCategoryClass_spec (w : String) (night : Bool) :
    (mentionsStorm w → weatherCategoryClass (toLowerCase w) night = "weather-thunderstorm") ∧
    (¬ mentionsStorm w → mentionsRain w →
      weatherCategoryClass (toLowerCase w) night = "weather-rain") ∧
    (¬ mentionsStorm w → ¬ mentionsRain w → containsIgnoringCase w "snow" →
      weatherCategoryClass (toLowerCase w) night = "weather-snow") ∧
    (¬ mentionsStorm w → ¬ mentionsRain w → ¬ containsIgnoringCase w "snow" →
      mentionsMist w → weatherCategoryClass (toLowerCase w) night = "weather-mist") ∧
    (¬ mentionsStorm w → ¬ mentionsRain w → ¬ containsIgnoringCase w "snow" →
      ¬ mentionsMist w → containsIgnoringCase w "clear" →
      weatherCategoryClass (toLowerCase w) night =
        if night then "weather-clear-night" else "weather-clear-day") ∧
    (¬ mentionsStorm w → ¬ mentionsRain w → ¬ containsIgnoringCase w "snow" →
      ¬ mentionsMist w → ¬ containsIgnoringCase w "clear" → containsIgnoringCase w "cloud" →
      weatherCategoryClass (toLowerCase w) night =
        if night then "weather-clouds-night" else "weather-clouds-day") ∧
    (¬ mentionsStorm w → ¬ mentionsRain w → ¬ containsIgnoringCase w "snow" →
      ¬ mentionsMist w → ¬ containsIgnoringCase w "clear" → ¬ containsIgnoringCase w "cloud" →
      weatherCategoryClass (toLowerCase w) night =
        if night then "weather-clear-night" else "weather-clear-day") := by
  simp only [mentionsStorm, mentionsRain, mentionsMist, ← includes_toLowerCase_iff]
  unfold weatherCategoryClass
  simp only [Bool.or_eq_true, or_assoc]
  refine ⟨?_, ?_, ?_, ?_, ?_, ?_, ?_⟩
  · intro h1
    rw [if_pos h1]
  · intro h1 h2
    rw [if_neg h1, if_pos h2]
  · intro h1 h2 h3
    rw [if_neg h1, if_neg h2, if_pos h3]
  · intro h1 h2 h3 h4
    rw [if_neg h1, if_neg h2, if_neg h3, if_pos h4]
  · intro h1 h2 h3 h4 h5
    rw [if_neg h1, if_neg h2, if_neg h3, if_neg h4, if_pos h5]
  · intro h1 h2 h3 h4 h5 h6
    rw [if_neg h1, if_neg h2, if_neg h3, if_neg h4, if_neg h5, if_pos h6]
  · intro h1 h2 h3 h4 h5 h6
    rw [if_neg h1, if_neg h2, if_neg h3, if_neg h4, if_neg h5, if_neg h6]

/-- C15: `controlWeatherAnimations` gives the page exactly one background
category (followed at most by the windy overlay), chosen from the condition
string compared in lower case: thunderstorm for "thunderstorm" or "storm";
else rain for "rain" or "drizzle"; else snow; else mist for "mist", "fog" or
"haze"; else clear-night or clear-day for "clear"; else clouds-night or
clouds-day for "cloud"; else the default, clear-night or clear-day. -/
theorem controlWeatherAnimations_category (P : Platform) (clock : Clock) (w : String)
    (windSpeed weatherData : JsVal) (s : App) (night strong : Bool)
    (hnight : isNightTime P clock weatherData = .ok night)
    (hwind : windSpeed.gtNum P 4.5 = .ok strong) :
    (controlWeatherAnimations P clock (.str w) windSpeed weatherData s).1 = .ok () ∧
    (∃ category overlay,
      (controlWeatherAnimations P clock (.str w) windSpeed weatherData s).2.weatherClasses =
        category :: overlay ∧ (overlay = [] ∨ overlay = ["weather-windy"]) ∧
      (mentionsStorm w → category = "weather-thunderstorm") ∧
      (¬ mentionsStorm w → mentionsRain w → category = "weather-rain") ∧
      (¬ mentionsStorm w → ¬ mentionsRain w → containsIgnoringCase w "snow" →
        category = "weather-snow") ∧
      (¬ mentionsStorm w → ¬ mentionsRain w → ¬ containsIgnoringCase w "snow" →
        mentionsMist w → category = "weather-mist") ∧
      (¬ mentionsStorm w → ¬ mentionsRain w → ¬ containsIgnoringCase w "snow" →
        ¬ mentionsMist w → containsIgnoringCase w "clear" →
        category = if night then "weather-clear-night" else "weather-clear-day") ∧
      (¬ mentionsStorm w → ¬ mentionsRain w → ¬ containsIgnoringCase w "snow" →
        ¬ mentionsMist w → ¬ containsIgnoringCase w "clear" → containsIgnoringCase w "cloud" →
        category = if night then "weather-clouds-night" else "weather-clouds-day") ∧
      (¬ mentionsStorm w → ¬ mentionsRain w → ¬ containsIgnoringCase w "snow" →
        ¬ mentionsMist w → ¬ containsIgnoringCase w "clear" →
        ¬ containsIgnoringCase w "cloud" →
        category = if night then "weather-clear-night" else "weather-clear-day")) := by
  obtain ⟨h1, h2, -⟩ := controlWeatherAnimations_run P clock w windSpeed weatherData s night
    strong hnight hwind
  obtain ⟨c1, c2, c3, c4, c5, c6, c7⟩ := weatherCategoryClass_spec w night
  refine ⟨h1, _, _, h2, ?_, c1, c2, c3, c4, c5, c6, c7⟩
  split_ifs
  · exact Or.inr rfl
  · exact Or.inl rfl

theorem not_containsIgnoringCase_of_includes {w kw : String}
    (h : includes (toLowerCase w) kw = false) : ¬ containsIgnoringCase w kw := by
  rw [← includes_toLowerCase_iff, h]
  decide

/-- The statement of C15 for the condition "Clear" by day and a light wind: the
only class is the clear-day category. -/
theorem controlWeatherAnimations_category_witness :
    ∃ overlay,
      (controlWeatherAnimations samplePlatform sampleClock (.str "Clear") (.num 3) .null
        sampleApp).2.weatherClasses = "weather-clear-day" :: overlay := by
  obtain ⟨-, category, overlay, h, -, -, -, -, -, h5, -, -⟩ :=
    controlWeatherAnimations_category samplePlatform sampleClock "Clear" (.num 3) .null
      sampleApp false false rfl (by norm_num [JsVal.gtNum, JsVal.toNumber, Except.map])
  have hc := h5
    (fun hs => hs.elim (not_containsIgnoringCase_of_includes (by decide))
      (not_containsIgnoringCase_of_includes (by decide)))
    (fun hr => hr.elim (not_containsIgnoringCase_of_includes (by decide))
      (not_containsIgnoringCase_of_includes (by decide)))
    (not_containsIgnoringCase_of_includes (by decide))
    (fun hm => hm.elim (not_containsIgnoringCase_of_includes (by decide))
      (fun hm2 => hm2.elim (not_containsIgnoringCase_of_includes (by decide))
        (not_containsIgnoringCase_of_includes (by decide))))
    ⟨[], "Clear".toList, [], by decide, by decide⟩
  exact ⟨overlay, by rw [h, hc]; rfl⟩

/-- C16, as stated, fails: on a page without the `.wind` layer a wind speed of
6 (above 4.5) adds no windy overlay; the class list holds the category only. -/
theorem controlWeatherAnimations_no_wind_layer_counterexample :
    (6 : ℚ) > 4.5 ∧
    (controlWeatherAnimations samplePlatform sampleClock (.str "Clear") (.num 6)
      (WeatherBody.toJson { sampleWeather with windSpeed := 6 })
      pageWithoutWindLayer).2.weatherClasses = ["weather-clear-night"] :=
  ⟨by norm_num, by with_unfolding_all rfl⟩

/-- C16, amended: in `controlWeatherAnimations` the windy overlay is added
exactly when the wind speed is above 4.5 and the page has the `.wind` layer (it
is not added at 4.5 or below, nor on a page without the layer), and the
category chosen is the same for every wind speed. -/
theorem controlWeatherAnimations_wind_overlay (P : Platform) (clock : Clock) (w : String)
    (v : ℚ) (weatherData : JsVal) (s : App) (night : Bool)
    (hnight : isNightTime P clock weatherData = .ok night) :
    (controlWeatherAnimations P clock (.str w) (.num v) weatherData s).1 = .ok () ∧
    ("weather-windy" ∈
        (controlWeatherAnimations P clock (.str w) (.num v) weatherData s).2.weatherClasses ↔
      v > 4.5 ∧ s.wind.isSome = true) ∧
    (controlWeatherAnimations P clock (.str w) (.num v) weatherData s).2.wind =
      (s.wind.map fun _ => if v > 4.5 then "block" else "none") ∧
    (∀ v2 : ℚ,
      (controlWeatherAnimations P clock (.str w) (.num v2) weatherData s).2.weatherClasses.head? =
        some (weatherCategoryClass (toLowerCase w) night)) := by
  obtain ⟨h1, h2, h3⟩ := controlWeatherAnimations_run P clock w (.num v) weatherData s night
    (decide (v > 4.5)) hnight rfl
  refine ⟨h1, ?_, ?_, ?_⟩
  · rw [h2]
    have hne := weatherCategoryClass_ne_windy (toLowerCase w) night
    by_cases hv : v > 4.5 <;> by_cases hs : s.wind.isSome = true <;>
    simp [hv, hs, hne.symm]
  · rw [h3]
    simp
  · intro v2
    obtain ⟨-, h4, -⟩ := controlWeatherAnimations_run P clock w (.num v2) weatherData s night
      (decide (v2 > 4.5)) hnight rfl
    rw [h4]
    rfl

/-- The statement of C16 (amended) on the sample page with a wind speed of 6:
the windy overlay is added. -/
theorem controlWeatherAnimations_wind_overlay_witness :
    "weather-windy" ∈
      (controlWeatherAnimations samplePlatform sampleClock (.str "Clear") (.num 6) .null
        sampleApp).2.weatherClasses :=
  (controlWeatherAnimations_wind_overlay samplePlatform sampleClock "Clear" 6 .null sampleApp
    false rfl).2.1.2 ⟨by norm_num, rfl⟩

/-! ## Day and night -/

theorem isNightTime_of_epochs (P : Platform) (clock : Clock) (weatherData : JsVal) (r t : ℚ)
    (hsunrise : (weatherData.prop "sys").prop "sunrise" = .num r)
    (hsunset : (weatherData.prop "sys").prop "sunset" = .num t) :
    isNightTime P clock weatherData =
      .ok (decide ((clock.now : ℚ) / 1000 < r) || decide ((clock.now : ℚ) / 1000 > t)) := by
  have hsys : (weatherData.prop "sys").truthy = true := by
    cases h : weatherData.prop "sys" <;> simp_all [JsVal.prop, JsVal.truthy]
  have hwd : weatherData.truthy = true := by
    cases weatherData <;> simp_all [JsVal.prop, JsVal.truthy]
  by_cases h : (clock.now : ℚ) / 1000 < r <;>
  simp [isNightTime, hsys, hwd, hsunrise, hsunset, JsVal.toNumber, Except.map, h]

/-- C17, as stated, fails: for a record whose sunrise epoch is later than its
sunset epoch, the result at exactly sunrise is night. -/
theorem isNightTime_at_sunrise_counterexample :
    (clockAtLateSunrise.now : ℚ) / 1000 = 1700030000 ∧
    (weatherSunriseAfterSunset.prop "sys").prop "sunrise" = .num 1700030000 ∧
    isNightTime samplePlatform clockAtLateSunrise weatherSunriseAfterSunset = .ok true := by
  refine ⟨by norm_num [clockAtLateSunrise], rfl, ?_⟩
  rw [isNightTime_of_epochs samplePlatform clockAtLateSunrise weatherSunriseAfterSunset
    1700030000 1700000000 rfl rfl]
  norm_num [clockAtLateSunrise]

/-- C17, amended: for a weather record that carries sunrise and sunset epochs
and the current time `now` in epoch seconds, `isNightTime` answers night iff
now < sunrise or now > sunset; when sunrise <= sunset it is day iff
sunrise <= now <= sunset, in particular at exactly sunrise and at exactly
sunset; when sunrise > sunset every time is night. -/
theorem isNightTime_by_epochs (P : Platform) (clock : Clock) (weatherData : JsVal) (r t : ℚ)
    (hsunrise : (weatherData.prop "sys").prop "sunrise" = .num r)
    (hsunset : (weatherData.prop "sys").prop "sunset" = .num t) :
    ∃ night, isNightTime P clock weatherData = .ok night ∧
      (night = true ↔ (clock.now : ℚ) / 1000 < r ∨ (clock.now : ℚ) / 1000 > t) ∧
      (r ≤ t → (night = false ↔ r ≤ (clock.now : ℚ) / 1000 ∧ (clock.now : ℚ) / 1000 ≤ t)) ∧
      (r ≤ t → (clock.now : ℚ) / 1000 = r → night = false) ∧
      (r ≤ t → (clock.now : ℚ) / 1000 = t → night = false) ∧
      (t < r → night = true) := by
  refine ⟨_, isNightTime_of_epochs P clock weatherData r t hsunrise hsunset, ?_, ?_, ?_, ?_, ?_⟩
  · simp
  · intro _
    simp
  · intro hrt hnow
    simp [hnow, hrt]
  · intro hrt hnow
    simp [hnow, hrt]
  · intro htr
    simp only [Bool.or_eq_true, decide_eq_true_eq]
    rcases lt_or_le ((clock.now : ℚ) / 1000) r with h | h
    · exact Or.inl h
    · exact Or.inr (lt_of_lt_of_le htr h)

/-- The statement of C17 (amended) on the sample weather at the sample noon,
which lies after the sunset epoch: night. -/
theorem isNightTime_by_epochs_witness :
    isNightTime samplePlatform sampleClock sampleWeather.toJson = .ok true := by
  obtain ⟨night, h, hiff, -, -, -, -⟩ := isNightTime_by_epochs samplePlatform sampleClock
    sampleWeather.toJson 1700000000 1700030000 rfl rfl
  rw [h, hiff.2 (Or.inr (by norm_num [sampleClock]))]

theorem isNightTime_fallback (P : Platform) (clock : Clock) (weatherData : JsVal)
    (h : weatherData.truthy = false ∨ (weatherData.prop "sys").truthy = false) :
    isNightTime P clock weatherData =
      .ok (decide (clock.hours < 6) || decide (clock.hours > 18)) := by
  rcases h with h | h <;> simp [isNightTime, h]

theorem isNightTime_missing_epochs (P : Platform) (clock : Clock) (weatherData : JsVal)
    (hsys : (weatherData.prop "sys").truthy = true) :
    ((weatherData.prop "sys").prop "sunrise" = .undefined →
      (weatherData.prop "sys").prop "sunset" = .undefined →
      isNightTime P clock weatherData = .ok false) ∧
    (∀ t : ℚ, (weatherData.prop "sys").prop "sunrise" = .undefined →
      (weatherData.prop "sys").prop "sunset" = .num t →
      isNightTime P clock weatherData = .ok (decide ((clock.now : ℚ) / 1000 > t))) ∧
    (∀ r : ℚ, (weatherData.prop "sys").prop "sunrise" = .num r →
      (weatherData.prop "sys").prop "sunset" = .undefined →
      isNightTime P clock weatherData = .ok (decide ((clock.now : ℚ) / 1000 < r))) := by
  have hwd : weatherData.truthy = true := by
    cases weatherData <;> simp_all [JsVal.prop, JsVal.truthy]
  refine ⟨?_, ?_, ?_⟩
  · intro h1 h2
    simp [isNightTime, hsys, hwd, h1, h2, JsVal.toNumber, Except.map]
  · intro t h1 h2
    simp [isNightTime, hsys, hwd, h1, h2, JsVal.toNumber, Except.map]
  · intro r h1 h2
    by_cases h : (clock.now : ℚ) / 1000 < r <;>
    simp [isNightTime, hsys, hwd, h1, h2, JsVal.toNumber, Except.map, h]

/-- C18, as stated, fails: for a record whose `sys` block has neither `sunrise`
nor `sunset`, the result at 23 h is day, while the hour window says night. -/
theorem isNightTime_missing_epochs_counterexample :
    lateEvening.hours = 23 ∧
    isNightTime samplePlatform lateEvening weatherWithoutSunTimes = .ok false :=
  ⟨rfl, rfl⟩

/-- C18, amended: `isNightTime` falls back to the local-hour window when there
is no weather record or no `sys` block: the result is day iff 6 <= h <= 18.  A
`sys` block that lacks `sunrise` or `sunset` does not trigger the fallback: a
missing epoch compares false, so with both missing the result is day at every
hour, with only sunrise missing it is night iff now > sunset, and with only
sunset missing it is night iff now < sunrise. -/
theorem isNightTime_fallback_window (P : Platform) (clock : Clock) (weatherData : JsVal) :
    (weatherData.truthy = false ∨ (weatherData.prop "sys").truthy = false →
      ∃ night, isNightTime P clock weatherData = .ok night ∧
        (night = false ↔ 6 ≤ clock.hours ∧ clock.hours ≤ 18)) ∧
    ((weatherData.prop "sys").truthy = true →
      ((weatherData.prop "sys").prop "sunrise" = .undefined →
        (weatherData.prop "sys").prop "sunset" = .undefined →
        isNightTime P clock weatherData = .ok false) ∧
      (∀ t : ℚ, (weatherData.prop "sys").prop "sunrise" = .undefined →
        (weatherData.prop "sys").prop "sunset" = .num t →
        isNightTime P clock weatherData = .ok (decide ((clock.now : ℚ) / 1000 > t))) ∧
      (∀ r : ℚ, (weatherData.prop "sys").prop "sunrise" = .num r →
        (weatherData.prop "sys").prop "sunset" = .undefined →
        isNightTime P clock weatherData = .ok (decide ((clock.now : ℚ) / 1000 < r)))) := by
  refine ⟨?_, isNightTime_missing_epochs P clock weatherData⟩
  intro h
  refine ⟨_, isNightTime_fallback P clock weatherData h, ?_⟩
  simp only [Bool.or_eq_false_iff, decide_eq_false_iff_not]
  omega

/-- The statement of C18 (amended) at 23 h: without a weather record the
result is night, with a `sys` block without epochs it is day. -/
theorem isNightTime_fallback_window_witness :
    isNightTime samplePlatform lateEvening .null = .ok true ∧
    isNightTime samplePlatform lateEvening weatherWithoutSunTimes = .ok false := by
  obtain ⟨h1, h2⟩ := isNightTime_fallback_window samplePlatform lateEvening .null
  obtain ⟨night, hn, hiff⟩ := h1 (Or.inl rfl)
  have hnight : night = true := by
    cases night
    · exact absurd (hiff.1 rfl).2 (by decide)
    · rfl
  refine ⟨by rw [hn, hnight], ?_⟩
  exact ((isNightTime_fallback_window samplePlatform lateEvening weatherWithoutSunTimes).2
    rfl).1 rfl rfl

/-! ## News shapes -/

theorem JsVal.undefined_orElse (b : JsVal) : JsVal.undefined.orElse b = b := rfl

theorem JsVal.orElse_undefined_orElse (a c : JsVal) :
    (a.orElse .undefined).orElse c = a.orElse c := by
  unfold JsVal.orElse
  cases h : a.truthy
  · have hu : JsVal.undefined.truthy = false := rfl
    simp only [Bool.false_eq_true, if_false, hu]
  · simp only [if_true, h]

theorem newsCard_shapes (P : Platform) (clock : Clock) (a : Article) :
    newsCard P clock a.toResultsShape = newsCard P clock a.toArticlesShape := by
  rcases a with ⟨title, description, content, link, date⟩
  simp only [newsCard, Article.toResultsShape, Article.toArticlesShape, JsVal.get,
    JsVal.isNullish, JsVal.prop]
  simp [List.lookup, JsVal.undefined_orElse, JsVal.orElse_undefined_orElse, bind, Except.bind,
    pure, Except.pure]

theorem newsCards_shapes (P : Platform) (clock : Clock) (articles : List Article) :
    newsCards P clock (articles.map Article.toResultsShape) =
      newsCards P clock (articles.map Article.toArticlesShape) := by
  induction articles with
  | nil => rfl
  | cons a rest ih =>
    simp only [List.map_cons, newsCards, newsCard_shapes, ih]

theorem generateNewsHTML_of_items (P : Platform) (clock : Clock) (newsData : JsVal)
    (items : List JsVal) (hn : newsData.isNullish = false)
    (h : ((newsData.prop "articles").orElse (newsData.prop "results")).orElse (.arr []) =
      .arr items) :
    generateNewsHTML P clock newsData =
      if items.isEmpty then .ok .newsFallback
      else (newsCards P clock (items.take 8)).map Html.news := by
  unfold generateNewsHTML
  rw [JsVal.get_of_not_nullish "articles" hn, JsVal.get_of_not_nullish "results" hn]
  simp only [bind, Except.bind, pure, Except.pure, h]
  cases items with
  | nil => rfl
  | cons x rest =>
    have hlen : ((rest.length : ℚ) + 1 = 0) = False := by
      have : (0 : ℚ) ≤ rest.length := Nat.cast_nonneg _
      simp only [eq_iff_iff, iff_false]
      intro h0
      linarith
    simp [JsVal.truthy, JsVal.prop, JsVal.isNum, hlen, Except.map]

theorem generateNewsHTML_shapes (P : Platform) (clock : Clock) (articles : List Article) :
    generateNewsHTML P clock (resultsResponse articles) =
      generateNewsHTML P clock (articlesResponse articles) := by
  rw [generateNewsHTML_of_items P clock (resultsResponse articles)
      (articles.map Article.toResultsShape) rfl rfl,
    generateNewsHTML_of_items P clock (articlesResponse articles)
      (articles.map Article.toArticlesShape) rfl rfl]
  simp only [← List.map_take, newsCards_shapes]
  cases articles <;> rfl

theorem generateNewsHTML_fallback (P : Platform) (clock : Clock) (newsData : JsVal)
    (hn : newsData.isNullish = false)
    (h : ((newsData.prop "articles").truthy = false ∧ (newsData.prop "results").truthy = false) ∨
      newsData.prop "articles" = .arr [] ∨
      ((newsData.prop "articles").truthy = false ∧ newsData.prop "results" = .arr [])) :
    generateNewsHTML P clock newsData = .ok .newsFallback := by
  rw [generateNewsHTML_of_items P clock newsData [] hn]
  · rfl
  · rcases h with ⟨h1, h2⟩ | h1 | ⟨h1, h2⟩
    · simp [JsVal.orElse, h1, h2]
    · rw [h1]
      rfl
    · rw [h2]
      simp only [JsVal.orElse, h1, Bool.false_eq_true, if_false]
      rfl

/-- C20: `generateNewsHTML` renders a list of articles given under `results`
with `link` and `pubDate` exactly as the same list given under `articles` with
`url` and `publishedAt` (the same cards, or the same error); a response with
neither field, or with an empty list under either field, renders the fallback
tips without error. -/
theorem generateNewsHTML_two_shapes (P : Platform) (clock : Clock) :
    (∀ articles : List Article,
      generateNewsHTML P clock (resultsResponse articles) =
        generateNewsHTML P clock (articlesResponse articles)) ∧
    (∀ newsData : JsVal, newsData.isNullish = false →
      ((newsData.prop "articles").truthy = false ∧ (newsData.prop "results").truthy = false) ∨
        newsData.prop "articles" = .arr [] ∨
        ((newsData.prop "articles").truthy = false ∧ newsData.prop "results" = .arr []) →
      generateNewsHTML P clock newsData = .ok .newsFallback) :=
  ⟨generateNewsHTML_shapes P clock, generateNewsHTML_fallback P clock⟩

/-- The statement of C20 on two sample articles, which render as two cards in
either shape, and on a response with neither field. -/
theorem generateNewsHTML_two_shapes_witness :
    generateNewsHTML samplePlatform sampleClock (resultsResponse sampleArticles) =
      generateNewsHTML samplePlatform sampleClock (articlesResponse sampleArticles) ∧
    (∃ first second, generateNewsHTML samplePlatform sampleClock
      (articlesResponse sampleArticles) = .ok (.news [first, second])) ∧
    generateNewsHTML samplePlatform sampleClock (.obj [("status", .str "error")]) =
      .ok .newsFallback :=
  ⟨(generateNewsHTML_two_shapes samplePlatform sampleClock).1 sampleArticles,
   ⟨_, _, rfl⟩,
   (generateNewsHTML_two_shapes samplePlatform sampleClock).2 (.obj [("status", .str "error")])
     rfl (Or.inl ⟨rfl, rfl⟩)⟩

/-! ## UV estimate -/

theorem uvIndexOf_by_hour (clock : Clock) (w : WeatherBody) :
    uvIndexOf clock w.toJson = .ok
      (if 10 ≤ clock.hours ∧ clock.hours ≤ 16 then
        (if w.main = "Clear" then 8 else if w.main = "Clouds" then 5 else 3)
      else if 8 ≤ clock.hours ∧ clock.hours ≤ 18 then 4 else 0) := by
  rcases w with ⟨lat, lon, main, description, icon, temp, feelsLike, humidity, pressure,
    windSpeed, cloudiness, _ | visibility, country, sunrise, sunset, name⟩ <;>
  · simp [uvIndexOf, WeatherBody.toJson, JsVal.get, JsVal.get0, JsVal.isNullish,
      JsVal.prop, JsVal.first, JsVal.isStr, List.lookup, bind, Except.bind, pure, Except.pure]
    split_ifs <;> simp_all

theorem uvLevelOf_tiers (n : Nat) :
    (n ≤ 2 → uvLevelOf n = "Low") ∧ (3 ≤ n → n ≤ 5 → uvLevelOf n = "Moderate") ∧
    (6 ≤ n → n ≤ 7 → uvLevelOf n = "High") ∧ (7 < n → uvLevelOf n = "Very High") := by
  unfold uvLevelOf
  refine ⟨?_, ?_, ?_, ?_⟩
  · intro h
    rw [if_pos h]
  · intro h1 h2
    rw [if_neg (by omega), if_pos h2]
  · intro h1 h2
    rw [if_neg (by omega), if_neg (by omega), if_pos h2]
  · intro h
    rw [if_neg (by omega), if_neg (by omega), if_neg (by omega)]

theorem updateUVIndexData_shows (clock : Clock) (weatherData : JsVal) (s : App) (old : Html)
    (uv : Nat) (hpanel : s.uvIndexData = some old) (huv : uvIndexOf clock weatherData = .ok uv) :
    updateUVIndexData clock weatherData s =
      (.ok (), { s with uvIndexData := some (.uvIndex uv (uvLevelOf uv) (uvColorOf uv)) }) := by
  simp only [updateUVIndexData, hpanel, huv]

/-- C21: the UV estimate of `updateUVIndexData` for a weather record: 8, 5 or 3
between 10 h and 16 h for the condition "Clear", "Clouds" or another one; 4 at
8 h, 9 h, 17 h and 18 h; 0 at every other hour.  It depends on the hour and the
main condition only, and the panel shows it with the label "Low" up to 2,
"Moderate" from 3 to 5, "High" for 6 and 7 and "Very High" above 7. -/
theorem updateUVIndexData_estimate (clock : Clock) (w : WeatherBody) :
    ∃ uv, uvIndexOf clock w.toJson = .ok uv ∧
      (∀ (s : App) (old : Html), s.uvIndexData = some old →
        updateUVIndexData clock w.toJson s =
          (.ok (), { s with uvIndexData := some (.uvIndex uv (uvLevelOf uv) (uvColorOf uv)) })) ∧
      (10 ≤ clock.hours → clock.hours ≤ 16 → w.main = "Clear" → uv = 8) ∧
      (10 ≤ clock.hours → clock.hours ≤ 16 → w.main = "Clouds" → uv = 5) ∧
      (10 ≤ clock.hours → clock.hours ≤ 16 → w.main ≠ "Clear" → w.main ≠ "Clouds" → uv = 3) ∧
      (8 ≤ clock.hours → clock.hours ≤ 18 → ¬ (10 ≤ clock.hours ∧ clock.hours ≤ 16) → uv = 4) ∧
      (¬ (8 ≤ clock.hours ∧ clock.hours ≤ 18) → uv = 0) ∧
      (∀ (clock2 : Clock) (w2 : WeatherBody), clock2.hours = clock.hours → w2.main = w.main →
        uvIndexOf clock2 w2.toJson = .ok uv) ∧
      (∀ n : Nat, (n ≤ 2 → uvLevelOf n = "Low") ∧ (3 ≤ n → n ≤ 5 → uvLevelOf n = "Moderate") ∧
        (6 ≤ n → n ≤ 7 → uvLevelOf n = "High") ∧ (7 < n → uvLevelOf n = "Very High")) := by
  refine ⟨_, uvIndexOf_by_hour clock w, ?_, ?_, ?_, ?_, ?_, ?_, ?_, uvLevelOf_tiers⟩
  · intro s old hpanel
    exact updateUVIndexData_shows clock w.toJson s old _ hpanel (uvIndexOf_by_hour clock w)
  · intro h1 h2 hm
    rw [if_pos ⟨h1, h2⟩, if_pos hm]
  · intro h1 h2 hm
    rw [if_pos ⟨h1, h2⟩, if_neg (by rw [hm]; decide), if_pos hm]
  · intro h1 h2 hm1 hm2
    rw [if_pos ⟨h1, h2⟩, if_neg hm1, if_neg hm2]
  · intro h1 h2 h3
    rw [if_neg h3, if_pos ⟨h1, h2⟩]
  · intro h
    rw [if_neg (by omega), if_neg h]
  · intro clock2 w2 hh hm
    rw [uvIndexOf_by_hour, hh, hm]

/-- The statement of C21 at the sample noon with a clear sky: the panel shows 8,
"Very High". -/
theorem updateUVIndexData_estimate_witness :
    (updateUVIndexData sampleClock sampleWeather.toJson sampleApp).2.uvIndexData =
      some (.uvIndex 8 "Very High" "#7c2d12") := by
  obtain ⟨uv, -, hshow, hclear, -, -, -, -, -, -⟩ :=
    updateUVIndexData_estimate sampleClock sampleWeather
  rw [hshow sampleApp _ rfl, hclear (by decide) (by decide) rfl]
  rfl

theorem uvIndexOf_values (clock : Clock) (weatherData : JsVal) (uv : Nat)
    (h : uvIndexOf clock weatherData = .ok uv) : uv ∈ [0, 3, 4, 5, 8] := by
  unfold uvIndexOf at h
  simp only [bind, Except.bind, pure, Except.pure] at h
  split_ifs at h
  · cases hws : weatherData.get "weather" with
    | error e => simp [hws] at h
    | ok ws =>
      cases hw0 : ws.get0 with
      | error e => simp [hws, hw0] at h
      | ok w0 =>
        cases hm : w0.get "main" with
        | error e => simp [hws, hw0, hm] at h
        | ok main =>
          simp only [hws, hw0, hm] at h
          split_ifs at h <;> cases h <;> decide
  · cases h
    decide
  · cases h
    decide

theorem uvLevelOf_of_value (uv : Nat) (h : uv ∈ [0, 3, 4, 5, 8]) :
    uvLevelOf uv ≠ "High" ∧ uvLevelOf uv ∈ ["Low", "Moderate", "Very High"] := by
  simp only [List.mem_cons, List.mem_singleton, List.not_mem_nil, or_false] at h
  rcases h with rfl | rfl | rfl | rfl | rfl <;> exact ⟨by decide, by decide⟩

/-- C26: whatever the hour and the weather record, a UV estimate that
`updateUVIndexData` computes is one of 0, 3, 4, 5, 8 and its label is "Low",
"Moderate" or "Very High", never "High"; for a weather record with a condition
the estimate is computed and the panel shows it with such a label. -/
theorem updateUVIndexData_never_high (clock : Clock) :
    (∀ (weatherData : JsVal) (uv : Nat), uvIndexOf clock weatherData = .ok uv →
      uv ∈ [0, 3, 4, 5, 8] ∧ uvLevelOf uv ≠ "High" ∧
      uvLevelOf uv ∈ ["Low", "Moderate", "Very High"]) ∧
    (∀ (w : WeatherBody) (s : App) (old : Html), s.uvIndexData = some old →
      ∃ uv, (updateUVIndexData clock w.toJson s).1 = .ok () ∧
        (updateUVIndexData clock w.toJson s).2.uvIndexData =
          some (.uvIndex uv (uvLevelOf uv) (uvColorOf uv)) ∧
        uv ∈ [0, 3, 4, 5, 8] ∧ uvLevelOf uv ≠ "High" ∧
        uvLevelOf uv ∈ ["Low", "Moderate", "Very High"]) := by
  refine ⟨?_, ?_⟩
  · intro weatherData uv h
    have hv := uvIndexOf_values clock weatherData uv h
    exact ⟨hv, uvLevelOf_of_value uv hv⟩
  · intro w s old hpanel
    have h := uvIndexOf_by_hour clock w
    have hv := uvIndexOf_values clock w.toJson _ h
    refine ⟨_, ?_, ?_, hv, uvLevelOf_of_value _ hv⟩
    · rw [updateUVIndexData_shows clock w.toJson s old _ hpanel h]
    · rw [updateUVIndexData_shows clock w.toJson s old _ hpanel h]

/-- The statement of C26 on the sample page in the late evening: the estimate
shown is 0 with the label "Low". -/
theorem updateUVIndexData_never_high_witness :
    ∃ uv, (updateUVIndexData lateEvening sampleWeather.toJson sampleApp).2.uvIndexData =
        some (.uvIndex uv (uvLevelOf uv) (uvColorOf uv)) ∧
      uvLevelOf uv ≠ "High" := by
  obtain ⟨uv, -, h, -, hne, -⟩ :=
    (updateUVIndexData_never_high lateEvening).2 sampleWeather sampleApp _ rfl
  exact ⟨uv, h, hne⟩

/-! ## Temperature colour -/

theorem getTemperatureColor_num (P : Platform) (t : ℚ) :
    getTemperatureColor P (.num t) = .ok
      (if t ≤ 10 then "#3b82f6" else if t ≤ 20 then "#10b981"
       else if t ≤ 30 then "#f59e0b" else "#ef4444") := by
  simp only [getTemperatureColor, JsVal.leNum, JsVal.toNumber, Except.map, bind, Except.bind,
    pure, Except.pure]
  split_ifs <;> simp_all

/-- C23: for a temperature `t`, `getTemperatureColor` answers blue up to 10,
green above 10 up to 20, orange above 20 up to 30 and red above 30; a higher
temperature never gets a colder colour. -/
theorem getTemperatureColor_buckets (P : Platform) (t : ℚ) :
    ∃ colour, getTemperatureColor P (.num t) = .ok colour ∧
      (t ≤ 10 → colour = "#3b82f6") ∧
      (10 < t → t ≤ 20 → colour = "#10b981") ∧
      (20 < t → t ≤ 30 → colour = "#f59e0b") ∧
      (30 < t → colour = "#ef4444") ∧
      (∀ t2 : ℚ, t ≤ t2 → ∃ colour2, getTemperatureColor P (.num t2) = .ok colour2 ∧
        colourWarmth colour ≤ colourWarmth colour2) := by
  refine ⟨_, getTemperatureColor_num P t, ?_, ?_, ?_, ?_, ?_⟩
  · intro h
    rw [if_pos h]
  · intro h1 h2
    rw [if_neg (not_le.2 h1), if_pos h2]
  · intro h1 h2
    rw [if_neg (by linarith), if_neg (not_le.2 h1), if_pos h2]
  · intro h
    rw [if_neg (by linarith), if_neg (by linarith), if_neg (not_le.2 h)]
  · intro t2 h
    refine ⟨_, getTemperatureColor_num P t2, ?_⟩
    by_cases a1 : t ≤ 10 <;> by_cases a2 : t ≤ 20 <;> by_cases a3 : t ≤ 30 <;>
    by_cases b1 : t2 ≤ 10 <;> by_cases b2 : t2 ≤ 20 <;> by_cases b3 : t2 ≤ 30 <;>
    simp only [a1, a2, a3, b1, b2, b3, if_true, if_false] <;>
    first
      | decide
      | (exfalso; linarith)

/-- The statement of C23 at 25 degrees: orange, and red at 31 degrees is not colder. -/
theorem getTemperatureColor_buckets_witness :
    getTemperatureColor samplePlatform (.num 25) = .ok "#f59e0b" ∧
    ∃ colour2, getTemperatureColor samplePlatform (.num 31) = .ok colour2 ∧
      colourWarmth "#f59e0b" ≤ colourWarmth colour2 := by
  obtain ⟨colour, h, -, -, horange, -, hmono⟩ := getTemperatureColor_buckets samplePlatform 25
  have hc := horange (by norm_num) (by norm_num)
  subst hc
  exact ⟨h, hmono 31 (by norm_num)⟩

/-! ## Geocoding -/

theorem prop_eq_arr_not_nullish {v : JsVal} {key : String} {items : List JsVal}
    (h : v.prop key = .arr items) : v.isNullish = false := by
  cases v <;> simp_all [JsVal.prop, JsVal.isNullish]

theorem prop_eq_str_not_nullish {v : JsVal} {key : String} {text : String}
    (h : v.prop key = .str text) : v.isNullish = false := by
  cases v <;> simp_all [JsVal.prop, JsVal.isNullish]

theorem geocodeCity_not_ok (P : Platform) (fetch : String → Option Response) (name : String)
    (res : Response) (hres : fetch name = some res) (hok : res.ok = false) :
    geocodeCity P fetch name = .error (.error "Geocoding request failed") := by
  simp [geocodeCity, hres, hok, bind, Except.bind, pure, Except.pure, throw, throwThe,
    MonadExceptOf.throw]

theorem geocodeCity_not_found (P : Platform) (fetch : String → Option Response) (name : String)
    (res : Response) (data : JsVal) (hres : fetch name = some res) (hok : res.ok = true)
    (hbody : res.body = some data) (hdata : data.isNullish = false)
    (h : (data.prop "results").truthy = false ∨ data.prop "results" = .arr []) :
    geocodeCity P fetch name = .error (.error "Location not found") := by
  have hcond : (!(data.prop "results").truthy ||
      ((data.prop "results").prop "length").isNum 0) = true := by
    rcases h with h | h
    · rw [h]
      rfl
    · rw [h]
      rfl
  simp [geocodeCity, hres, hok, Response.json, hbody, JsVal.get_of_not_nullish "results" hdata,
    hcond, bind, Except.bind, pure, Except.pure, throw, throwThe, MonadExceptOf.throw]

theorem geocodeCity_of_first (P : Platform) (fetch : String → Option Response) (name : String)
    (res : Response) (data r : JsVal) (rest : List JsVal) (hres : fetch name = some res)
    (hok : res.ok = true) (hbody : res.body = some data)
    (hresults : data.prop "results" = .arr (r :: rest)) :
    geocodeCity P fetch name = (do
      let lat ← r.get "latitude"
      let lon ← r.get "longitude"
      let place ← (← r.get "name").toStr P
      let country ← r.get "country"
      let suffix ← if country.truthy then (country.toStr P).map (", " ++ ·) else pure ""
      return { lat := lat, lon := lon, display := place ++ suffix }) := by
  have hdata := prop_eq_arr_not_nullish hresults
  have hlen : ((rest.length : ℚ) + 1 = 0) = False := by
    have : (0 : ℚ) ≤ rest.length := Nat.cast_nonneg _
    simp only [eq_iff_iff, iff_false]
    intro h0
    linarith
  have htruthy : (JsVal.arr (r :: rest)).truthy = true := rfl
  have hnum : ((JsVal.arr (r :: rest)).prop "length").isNum 0 = false := by
    simp [JsVal.prop, JsVal.isNum, hlen]
  simp [geocodeCity, hres, hok, Response.json, hbody, JsVal.get_of_not_nullish "results" hdata,
    hresults, htruthy, hnum, JsVal.first, bind, Except.bind, pure, Except.pure]

/-- C22: `geocodeCity` fails with "Geocoding request failed" on a non-success
status, fails with "Location not found" on a success whose body has no
`results` or an empty list, and otherwise returns the latitude and longitude of
the first result with the display name `name, country`, or just `name` when
the country is absent or empty; the results after the first have no influence. -/
theorem geocodeCity_first_result (P : Platform) (fetch : String → Option Response)
    (name : String) (res : Response) (hres : fetch name = some res) :
    (res.ok = false → geocodeCity P fetch name = .error (.error "Geocoding request failed")) ∧
    (∀ data : JsVal, res.ok = true → res.body = some data → data.isNullish = false →
      (data.prop "results").truthy = false ∨ data.prop "results" = .arr [] →
      geocodeCity P fetch name = .error (.error "Location not found")) ∧
    (∀ (data r : JsVal) (rest : List JsVal) (place : String), res.ok = true →
      res.body = some data → data.prop "results" = .arr (r :: rest) →
      r.prop "name" = .str place →
      ((r.prop "country").truthy = false →
        geocodeCity P fetch name =
          .ok { lat := r.prop "latitude", lon := r.prop "longitude", display := place }) ∧
      (∀ country : String, r.prop "country" = .str country → country ≠ "" →
        geocodeCity P fetch name =
          .ok { lat := r.prop "latitude", lon := r.prop "longitude",
                display := place ++ ", " ++ country })) ∧
    (∀ (data data2 r : JsVal) (rest rest2 : List JsVal) (fetch2 : String → Option Response)
      (res2 : Response), res.ok = true → res.body = some data →
      data.prop "results" = .arr (r :: rest) → fetch2 name = some res2 → res2.ok = true →
      res2.body = some data2 → data2.prop "results" = .arr (r :: rest2) →
      geocodeCity P fetch2 name = geocodeCity P fetch name) := by
  refine ⟨geocodeCity_not_ok P fetch name res hres, ?_, ?_, ?_⟩
  · intro data hok hbody hdata h
    exact geocodeCity_not_found P fetch name res data hres hok hbody hdata h
  · intro data r rest place hok hbody hresults hname
    have hr := prop_eq_str_not_nullish hname
    have h := geocodeCity_of_first P fetch name res data r rest hres hok hbody hresults
    refine ⟨?_, ?_⟩
    · intro hcountry
      rw [h]
      simp [JsVal.get_of_not_nullish _ hr, hname, hcountry, JsVal.toStr, bind, Except.bind,
        pure, Except.pure]
    · intro country hcountry hne
      rw [h]
      simp [JsVal.get_of_not_nullish _ hr, hname, hcountry, hne, JsVal.toStr, JsVal.truthy,
        Except.map, bind, Except.bind, pure, Except.pure, String.append_assoc]
  · intro data data2 r rest rest2 fetch2 res2 hok hbody hresults hres2 hok2 hbody2 hresults2
    rw [geocodeCity_of_first P fetch name res data r rest hres hok hbody hresults,
      geocodeCity_of_first P fetch2 name res2 data2 r rest2 hres2 hok2 hbody2 hresults2]

/-- The statement of C22 on a body with two results: the first one is returned. -/
theorem geocodeCity_first_result_witness :
    geocodeCity samplePlatform (fun _ => some { status := 200, body := some sampleGeocoding })
        "Delhi" =
      .ok { lat := .num (2865 / 100), lon := .num (7723 / 100), display := "Delhi, India" } ∧
    geocodeCity samplePlatform (fun _ => some { status := 404, body := none }) "Delhi" =
      .error (.error "Geocoding request failed") ∧
    geocodeCity samplePlatform (fun _ => some { status := 200, body := some (.obj []) })
        "Delhi" = .error (.error "Location not found") :=
  ⟨((geocodeCity_first_result samplePlatform
      (fun _ => some { status := 200, body := some sampleGeocoding }) "Delhi"
      { status := 200, body := some sampleGeocoding } rfl).2.2.1 sampleGeocoding _ _ "Delhi"
      rfl rfl rfl rfl).2 "India" rfl (by decide),
   (geocodeCity_first_result samplePlatform (fun _ => some { status := 404, body := none })
      "Delhi" { status := 404, body := none } rfl).1 rfl,
   (geocodeCity_first_result samplePlatform
      (fun _ => some { status := 200, body := some (.obj []) }) "Delhi"
      { status := 200, body := some (.obj []) } rfl).2.1 (.obj []) rfl rfl rfl (Or.inl rfl)⟩

/-! ## Favourites -/

theorem displayFavoriteCities_favoriteCities (P : Platform) (s : App) :
    (displayFavoriteCities P s).2.favoriteCities = s.favoriteCities := by
  unfold displayFavoriteCities
  cases s.favoritesContainer with
  | none => rfl
  | some panel =>
    simp only
    split_ifs
    · rfl
    · cases favoriteItems P s.favoriteCities <;> rfl

theorem favorites_after_display (P : Platform) (message : String) (s1 : App) :
    (match displayFavoriteCities P (saveFavoriteCities s1) with
      | (.error e, s2) => ((.error e : Except JsError Unit), s2)
      | (.ok _, s2) => (.ok (), showNotification message "success" s2)).2.favoriteCities =
      s1.favoriteCities := by
  have h := displayFavoriteCities_favoriteCities P (saveFavoriteCities s1)
  generalize displayFavoriteCities P (saveFavoriteCities s1) = x at h
  rcases x with ⟨r, s2⟩
  cases r <;> exact h

theorem addToFavorites_favoriteCities (P : Platform) (timestamp cityName : String)
    (weatherData : JsVal) (s : App) :
    (addToFavorites P timestamp cityName weatherData s).2.favoriteCities =
      match s.favoriteCities.find? (sameCity cityName) with
      | some _ =>
        modifyFirst (sameCity cityName)
          (fun city => (refreshFavorite timestamp weatherData city).2) s.favoriteCities
      | none =>
        match newFavorite timestamp cityName weatherData with
        | .error _ => s.favoriteCities
        | .ok city => s.favoriteCities ++ [city] := by
  unfold addToFavorites
  cases hfind : s.favoriteCities.find? (sameCity cityName) with
  | some existing =>
    cases hr : (refreshFavorite timestamp weatherData existing).1 with
    | error e => simp only [hr]
    | ok u =>
      simp only [hr]
      exact favorites_after_display P _ _
  | none =>
    cases hn : newFavorite timestamp cityName weatherData with
    | error e => rfl
    | ok city => exact favorites_after_display P _ _

theorem removeFromFavorites_favoriteCities (P : Platform) (cityName : String) (s : App) :
    (removeFromFavorites P cityName s).2.favoriteCities =
      s.favoriteCities.filter fun city => !sameCity cityName city :=
  favorites_after_display P _ _

theorem refreshFavorite_name (timestamp : String) (weatherData : JsVal) (city : Favorite) :
    (refreshFavorite timestamp weatherData city).2.name = city.name := by
  unfold refreshFavorite
  simp only
  split
  · rfl
  · split <;> rfl

theorem newFavorite_name {timestamp cityName : String} {weatherData : JsVal} {city : Favorite}
    (h : newFavorite timestamp cityName weatherData = .ok city) : city.name = cityName := by
  unfold newFavorite at h
  simp only [bind, Except.bind, pure, Except.pure] at h
  repeat' split at h
  all_goals first
    | (cases h; done)
    | (cases h; rfl)

theorem modifyFirst_length (p : Favorite → Bool) (f : Favorite → Favorite)
    (cities : List Favorite) : (modifyFirst p f cities).length = cities.length := by
  induction cities with
  | nil => rfl
  | cons city rest ih =>
    unfold modifyFirst
    split_ifs
    · rfl
    · simp [ih]

theorem modifyFirst_names (p : Favorite → Bool) (f : Favorite → Favorite)
    (hf : ∀ city, (f city).name = city.name) (cities : List Favorite) :
    (modifyFirst p f cities).map (fun city => city.name) = cities.map fun city => city.name := by
  induction cities with
  | nil => rfl
  | cons city rest ih =>
    unfold modifyFirst
    split_ifs
    · simp [hf]
    · simp [ih]

theorem distinctNames_iff_names (cities : List Favorite) :
    DistinctNames cities ↔
      (cities.map fun city => city.name).Pairwise fun a b => toLowerCase a ≠ toLowerCase b := by
  unfold DistinctNames
  rw [List.pairwise_map]

theorem distinctNames_append_new {cities : List Favorite} {city : Favorite}
    (h : DistinctNames cities)
    (hnew : ∀ other ∈ cities, toLowerCase other.name ≠ toLowerCase city.name) :
    DistinctNames (cities ++ [city]) := by
  unfold DistinctNames at *
  rw [List.pairwise_append]
  refine ⟨h, List.pairwise_singleton _ _, ?_⟩
  intro a ha b hb
  rw [List.mem_singleton] at hb
  subst hb
  exact hnew a ha

theorem addToFavorites_distinct (P : Platform) (timestamp cityName : String)
    (weatherData : JsVal) (s : App) (h : DistinctNames s.favoriteCities) :
    DistinctNames (addToFavorites P timestamp cityName weatherData s).2.favoriteCities := by
  rw [addToFavorites_favoriteCities]
  cases hfind : s.favoriteCities.find? (sameCity cityName) with
  | some existing =>
    simp only
    rw [distinctNames_iff_names, modifyFirst_names _ _ (refreshFavorite_name timestamp weatherData),
      ← distinctNames_iff_names]
    exact h
  | none =>
    simp only
    cases hn : newFavorite timestamp cityName weatherData with
    | error e => exact h
    | ok city =>
      simp only
      refine distinctNames_append_new h ?_
      intro other hother
      have hnot := List.find?_eq_none.1 hfind other hother
      rw [newFavorite_name hn]
      simpa [sameCity] using hnot

theorem removeFromFavorites_distinct (P : Platform) (cityName : String) (s : App)
    (h : DistinctNames s.favoriteCities) :
    DistinctNames (removeFromFavorites P cityName s).2.favoriteCities := by
  rw [removeFromFavorites_favoriteCities]
  exact List.Pairwise.sublist (List.filter_sublist _) h

theorem runCalls_distinct (P : Platform) (calls : List FavoritesCall) :
    ∀ s : App, DistinctNames s.favoriteCities →
      DistinctNames (runCalls P calls s).favoriteCities := by
  induction calls with
  | nil => intro s h; exact h
  | cons call rest ih =>
    intro s h
    refine ih (call.run P s) ?_
    cases call with
    | add timestamp cityName weatherData =>
      exact addToFavorites_distinct P timestamp cityName weatherData s h
    | remove cityName => exact removeFromFavorites_distinct P cityName s h

/-- C24: from a favourites list whose names are pairwise distinct ignoring case,
every sequence of `addToFavorites` and `removeFromFavorites` calls leaves the
names pairwise distinct ignoring case; adding a name that is present in some
case leaves the length as it is; after `removeFromFavorites(c)` no entry is
named `c` ignoring case, and the entries with another name are the ones there
were, unchanged and in the same order. -/
theorem favorites_keyed_by_name (P : Platform) (s : App)
    (hdistinct : DistinctNames s.favoriteCities) :
    (∀ calls : List FavoritesCall, DistinctNames (runCalls P calls s).favoriteCities) ∧
    (∀ (timestamp cityName : String) (weatherData : JsVal),
      (∃ city ∈ s.favoriteCities, toLowerCase city.name = toLowerCase cityName) →
      (addToFavorites P timestamp cityName weatherData s).2.favoriteCities.length =
        s.favoriteCities.length) ∧
    (∀ cityName : String,
      (∀ city ∈ (removeFromFavorites P cityName s).2.favoriteCities,
        toLowerCase city.name ≠ toLowerCase cityName) ∧
      (removeFromFavorites P cityName s).2.favoriteCities.Sublist s.favoriteCities ∧
      (∀ city ∈ s.favoriteCities, toLowerCase city.name ≠ toLowerCase cityName →
        city ∈ (removeFromFavorites P cityName s).2.favoriteCities)) := by
  refine ⟨fun calls => runCalls_distinct P calls s hdistinct, ?_, ?_⟩
  · intro timestamp cityName weatherData hpresent
    rw [addToFavorites_favoriteCities]
    cases hfind : s.favoriteCities.find? (sameCity cityName) with
    | some existing => exact modifyFirst_length _ _ _
    | none =>
      obtain ⟨city, hmem, hname⟩ := hpresent
      have hnot := List.find?_eq_none.1 hfind city hmem
      simp [sameCity, hname] at hnot
  · intro cityName
    rw [removeFromFavorites_favoriteCities]
    refine ⟨?_, List.filter_sublist _, ?_⟩
    · intro city hcity
      have h := (List.mem_filter.1 hcity).2
      simpa [sameCity] using h
    · intro city hcity hname
      refine List.mem_filter.2 ⟨hcity, ?_⟩
      simpa [sameCity] using hname

/-- The statement of C24 on the sample favourites Delhi and Mumbai: after
adding "DELHI", removing "mumbai" and adding "Pune" the names are distinct
(they are Delhi and Pune), and adding "DELHI" keeps the length 2. -/
theorem favorites_keyed_by_name_witness :
    DistinctNames (runCalls samplePlatform
      [.add "2024-05-01T07:00:00.000Z" "DELHI" sampleWeather.toJson, .remove "mumbai",
       .add "2024-05-01T07:05:00.000Z" "Pune" sampleWeather.toJson]
      pageWithFavorites).favoriteCities ∧
    (runCalls samplePlatform
      [.add "2024-05-01T07:00:00.000Z" "DELHI" sampleWeather.toJson, .remove "mumbai",
       .add "2024-05-01T07:05:00.000Z" "Pune" sampleWeather.toJson]
      pageWithFavorites).favoriteCities.map (fun city => city.name) = ["Delhi", "Pune"] ∧
    (addToFavorites samplePlatform "2024-05-01T07:00:00.000Z" "DELHI" sampleWeather.toJson
      pageWithFavorites).2.favoriteCities.length = 2 :=
  ⟨(favorites_keyed_by_name samplePlatform pageWithFavorites (by decide)).1 _,
   rfl,
   (favorites_keyed_by_name samplePlatform pageWithFavorites (by decide)).2.1 _ "DELHI" _
     ⟨_, List.mem_cons_self _ _, by decide⟩⟩

/-! ## The cached weather of a failed search -/

theorem renderWeather_currentWeatherData (P : Platform) (clock : Clock)
    (weatherData forecastData newsData airData : JsVal) (s : App) :
    (renderWeather P clock weatherData forecastData newsData airData s).2.currentWeatherData =
      match processAirQualityData P airData with
      | .error _ => s.currentWeatherData
      | .ok _ => weatherData := by
  have h2 : ∀ t, (updateAdvancedWeatherDetails P clock weatherData t).2.currentWeatherData =
      t.currentWeatherData := fun t =>
    congrArg (fun r => r.2.2.2) (updateAdvancedWeatherDetails_keepsRendered P clock weatherData t)
  have h1 : ∀ m w t, (controlWeatherAnimations P clock m w weatherData t).2.currentWeatherData =
      t.currentWeatherData := fun m w t =>
    congrArg (fun r => r.2.2.2) (controlWeatherAnimations_keepsRendered P clock m w weatherData t)
  unfold renderWeather
  cases processAirQualityData P airData with
  | error e => rfl
  | ok aqiInfo =>
    simp only [generateEnhancedWeatherHTML]
    cases enhancedWeatherMarkup P clock s.favoriteCities weatherData aqiInfo with
    | error e => rfl
    | ok weatherHTML =>
      simp only
      cases generateForecastHTML P clock forecastData with
      | error e => rfl
      | ok forecastHTML =>
        simp only
        cases generateNewsHTML P clock newsData with
        | error e => rfl
        | ok newsHTML =>
          simp only
          generalize hx0 : updateAdvancedWeatherDetails P clock weatherData _ = x
          have hx : x.2.currentWeatherData = weatherData := by
            rw [← hx0, h2]
          rcases x with ⟨r, s5⟩
          cases r with
          | error e => exact hx
          | ok u =>
            simp only
            split
            · exact hx
            · rename_i main speed hread
              have hy := h1 main speed s5
              generalize controlWeatherAnimations P clock main speed weatherData s5 = y at hy
              rcases y with ⟨r6, s6⟩
              cases r6 with
              | error e => exact hy.trans hx
              | ok u6 =>
                simp only
                split
                · exact hy.trans hx
                · exact hy.trans hx

/-- C25, as stated, fails: with a well-formed weather response and a forecast
body that lacks its `list`, the search ends in the error state, and the cached
weather, `null` before the run, is the new weather record after it. -/
theorem getWeather_cache_counterexample :
    (getWeatherRun samplePlatform networkForecastWithoutList sampleClock sampleApp).1 =
      some .typeError ∧
    (getWeather samplePlatform networkForecastWithoutList sampleClock sampleApp).weatherResult =
      some errorMessageEnhanced ∧
    sampleApp.currentWeatherData = .null ∧
    (getWeather samplePlatform networkForecastWithoutList sampleClock
      sampleApp).currentWeatherData = sampleWeather.toJson :=
  ⟨rfl, rfl, rfl, rfl⟩

/-- C25, amended: a search that fails before the weather box is drawn (the
fetching and parsing of the sources throws, or the air-quality data cannot be
processed) ends in the error state with the cached weather as it was; once
`generateEnhancedWeatherHTML` is reached the cache holds the new weather
record, also when the search then ends in the error state, as it does when the
forecast cannot be drawn. -/
theorem getWeather_cache (P : Platform) (net : Network) (clock : Clock) (s : App)
    (hw : s.weatherResult.isSome = true) (hf : s.forecastResult.isSome = true)
    (hn : s.newsResult.isSome = true) :
    (∀ e, fetchWeatherData P net (queriedCity s.cityInput) = .error e →
      (getWeatherRun P net clock s).1 = some e ∧
      (getWeather P net clock s).currentWeatherData = s.currentWeatherData) ∧
    (∀ weatherData forecastData newsData airData e,
      fetchWeatherData P net (queriedCity s.cityInput) =
        .ok (weatherData, forecastData, newsData, airData) →
      processAirQualityData P airData = .error e →
      (getWeatherRun P net clock s).1 = some e ∧
      (getWeather P net clock s).currentWeatherData = s.currentWeatherData) ∧
    (∀ weatherData forecastData newsData airData aqiInfo,
      fetchWeatherData P net (queriedCity s.cityInput) =
        .ok (weatherData, forecastData, newsData, airData) →
      processAirQualityData P airData = .ok aqiInfo →
      (getWeather P net clock s).currentWeatherData = weatherData ∧
      (∀ weatherHTML e,
        enhancedWeatherMarkup P clock s.favoriteCities weatherData aqiInfo = .ok weatherHTML →
        generateForecastHTML P clock forecastData = .error e →
        (getWeatherRun P net clock s).1 = some e ∧
        (getWeather P net clock s).weatherResult = some errorMessageEnhanced)) := by
  have h1 : s.weatherResult.isNone = false := by cases h : s.weatherResult <;> simp_all
  have h2 : s.forecastResult.isNone = false := by cases h : s.forecastResult <;> simp_all
  have h3 : s.newsResult.isNone = false := by cases h : s.newsResult <;> simp_all
  have hrun : getWeatherRun P net clock s =
      match getWeatherTry P net clock (queriedCity s.cityInput) (showLoadingStates s) with
      | (.ok _, s1) => (none, s1)
      | (.error e, s1) => (some e, handleWeatherError s1) := by
    simp [getWeatherRun, h1, h2, h3]
  have hcache : ∀ x : Except JsError Unit × App,
      (match x with
        | (.ok _, s1) => ((none : Option JsError), s1)
        | (.error e, s1) => (some e, handleWeatherError s1)).2.currentWeatherData =
        x.2.currentWeatherData := by
    rintro ⟨r, s1⟩
    cases r <;> rfl
  refine ⟨?_, ?_, ?_⟩
  · intro e he
    rw [getWeather, getWeatherRun_of_fetch_error P net clock s hw hf hn he]
    exact ⟨rfl, rfl⟩
  · intro weatherData forecastData newsData airData e hfetch hair
    have htry : getWeatherTry P net clock (queriedCity s.cityInput) (showLoadingStates s) =
        (.error e, showLoadingStates s) := by
      simp [getWeatherTry, hfetch, renderWeather, hair]
    rw [getWeather, hrun, htry]
    exact ⟨rfl, rfl⟩
  · intro weatherData forecastData newsData airData aqiInfo hfetch hair
    have htry : getWeatherTry P net clock (queriedCity s.cityInput) (showLoadingStates s) =
        renderWeather P clock weatherData forecastData newsData airData (showLoadingStates s) := by
      simp [getWeatherTry, hfetch]
    refine ⟨?_, ?_⟩
    · rw [getWeather, hrun, htry, hcache, renderWeather_currentWeatherData, hair]
    · intro weatherHTML e hmarkup hforecast
      have hfav : (showLoadingStates s).favoriteCities = s.favoriteCities := rfl
      have hrender : renderWeather P clock weatherData forecastData newsData airData
          (showLoadingStates s) =
          (.error e,
            { showLoadingStates s with currentWeatherData := weatherData, weatherResult := some weatherHTML }) := by
        simp [renderWeather, hair, generateEnhancedWeatherHTML, hfav, hmarkup, hforecast]
      rw [getWeather, hrun, htry, hrender]
      exact ⟨rfl, rfl⟩

/-- The statement of C25 (amended) on the sample page: with the weather source
answering 404 the cache stays `null`; with a forecast body that lacks its list
the cache holds the new weather record. -/
theorem getWeather_cache_witness :
    (getWeather samplePlatform networkWeather404 sampleClock sampleApp).currentWeatherData =
      .null ∧
    (getWeather samplePlatform networkForecastWithoutList sampleClock
      sampleApp).currentWeatherData = sampleWeather.toJson :=
  ⟨((getWeather_cache samplePlatform networkWeather404 sampleClock sampleApp rfl rfl rfl).1
      (.apiError "Weather" 404) rfl).2,
   ((getWeather_cache samplePlatform networkForecastWithoutList sampleClock sampleApp rfl rfl
      rfl).2.2 sampleWeather.toJson (.obj [("cod", .str "200")]) (.obj [("results", .arr [])])
      (AirBody.toJson { aqi := 2, pm25 := 12, pm10 := 30 }) _ rfl rfl).1⟩

/-! ## News cards -/

theorem toStr_primitive (P : Platform) (v : JsVal) (h : v.isPrimitive = true) :
    ∃ text, v.toStr P = .ok text := by
  cases v <;> first
    | exact ⟨_, rfl⟩
    | cases h

theorem newDate_primitive (P : Platform) (v : JsVal) (h : v.isPrimitive = true) :
    ∃ t, newDate P v = .ok t := by
  cases v <;> first
    | exact ⟨_, rfl⟩
    | cases h

theorem orElse_primitive {a b : JsVal} (ha : a.isPrimitive = true) (hb : b.isPrimitive = true) :
    (a.orElse b).isPrimitive = true := by
  unfold JsVal.orElse
  split_ifs
  · exact ha
  · exact hb

theorem str_orElse (d : String) (hd : d ≠ "") (b : JsVal) :
    (JsVal.str d).orElse b = .str d := by
  simp [JsVal.orElse, JsVal.truthy, hd]

theorem utf16Of_inBmp (cs : List Char) (h : ∀ c ∈ cs, c.toNat < 0x10000) :
    utf16Of cs = cs.map Char.toNat := by
  induction cs with
  | nil => rfl
  | cons c rest ih =>
    have hc := h c (List.mem_cons_self _ _)
    simp only [utf16Of, utf16Units, if_pos hc, List.map_cons, List.singleton_append,
      ih fun x hx => h x (List.mem_cons_of_mem _ hx)]

theorem utf16_take_inBmp (d : String) (h : InBmp d) (n : Nat) :
    (utf16 d).take n = utf16 (String.mk (d.toList.take n)) ∧ (utf16 d).length = d.length := by
  unfold utf16
  rw [utf16Of_inBmp d.toList h,
    utf16Of_inBmp (String.mk (d.toList.take n)).toList fun c hc => h c (List.mem_of_mem_take hc)]
  exact ⟨(List.map_take _ _ _).symm, List.length_map _ _⟩

theorem newsCard_described (P : Platform) (clock : Clock) (a : Article) (d : String)
    (htitle : a.title.isPrimitive = true) (hdesc : a.description = .str d) (hd : d ≠ "")
    (hlink : a.link.isPrimitive = true) (hdate : a.date.isPrimitive = true) :
    ∃ card, newsCard P clock a.toArticlesShape = .ok card ∧
      (∀ title, a.title = .str title → title ≠ "" → card.title = title) ∧
      card.description = (utf16 d).take 150 ∧
      card.ellipsis = decide ((utf16 d).length > 150) := by
  rcases a with ⟨t0, d0, c0, l0, p0⟩
  simp only at htitle hdesc hlink hdate
  subst hdesc
  obtain ⟨titleText, h1⟩ := toStr_primitive P (t0.orElse (.str "Weather Update"))
    (orElse_primitive htitle rfl)
  have h2 := str_orElse d hd (c0.orElse (.str "Latest weather information available."))
  have h2b : ((JsVal.str d).orElse c0).orElse (.str "Latest weather information available.") =
      .str d := by
    rw [str_orElse d hd c0, str_orElse d hd]
  obtain ⟨urlText, h3⟩ := toStr_primitive P ((l0.orElse .undefined).orElse (.str "#"))
    (orElse_primitive (orElse_primitive hlink rfl) rfl)
  obtain ⟨date, h4⟩ := newDate_primitive P ((p0.orElse .undefined).orElse (.num clock.now))
    (orElse_primitive (orElse_primitive hdate rfl) rfl)
  have hcard : newsCard P clock (Article.toArticlesShape
      { title := t0, description := .str d, content := c0, link := l0, date := p0 }) =
      .ok { title := titleText, description := (utf16 d).take 150,
            ellipsis := decide ((utf16 d).length > 150),
            publishedAt := P.toLocaleDateString date,
            url := if ((l0.orElse .undefined).orElse (.str "#")).isStr "#" then none
              else some urlText } := by
    simp only [newsCard, Article.toArticlesShape, JsVal.get, JsVal.isNullish, JsVal.prop]
    simp [List.lookup, h1, h2b, h3, h4, bind, Except.bind, pure, Except.pure]
  refine ⟨_, hcard, ?_, rfl, rfl⟩
  intro title ht hne
  simp only at ht
  subst ht
  rw [str_orElse title hne] at h1
  exact (Except.ok.inj h1).symm

theorem newsCards_described (P : Platform) (clock : Clock) (articles : List Article)
    (hwell : ∀ a ∈ articles, a.title.isPrimitive = true ∧
      (∃ d, a.description = .str d ∧ d ≠ "") ∧ a.link.isPrimitive = true ∧
      a.date.isPrimitive = true) :
    ∃ cards, newsCards P clock (articles.map Article.toArticlesShape) = .ok cards ∧
      List.Forall₂ (fun (a : Article) (card : NewsCard) => ∃ d, a.description = .str d ∧
        (∀ title, a.title = .str title → title ≠ "" → card.title = title) ∧
        card.description = (utf16 d).take 150 ∧
        card.ellipsis = decide ((utf16 d).length > 150)) articles cards := by
  induction articles with
  | nil => exact ⟨[], rfl, List.Forall₂.nil⟩
  | cons a rest ih =>
    obtain ⟨htitle, ⟨d, hdesc, hd⟩, hlink, hdate⟩ := hwell a (List.mem_cons_self _ _)
    obtain ⟨card, hcard, h1, h2, h3⟩ :=
      newsCard_described P clock a d htitle hdesc hd hlink hdate
    obtain ⟨cards, hcards, hall⟩ := ih fun b hb => hwell b (List.mem_cons_of_mem _ hb)
    refine ⟨card :: cards, ?_, List.Forall₂.cons ⟨d, hdesc, h1, h2, h3⟩ hall⟩
    simp [newsCards, hcard, hcards, bind, Except.bind, pure, Except.pure]

set_option maxRecDepth 8192 in
/-- C27, as stated, fails: a description of 150 characters whose last character
is a smiley (two UTF-16 code units) is not shown whole; the card holds its 149
letters and the first half of the smiley, followed by "...". -/
theorem generateNewsHTML_astral_counterexample :
    astralDescription.length = 150 ∧
    ∃ card, generateNewsHTML samplePlatform sampleClock (articlesResponse [astralArticle]) =
        .ok (.news [card]) ∧
      card.ellipsis = true ∧
      card.description = List.replicate 149 120 ++ [0xD83D] ∧
      utf16 astralDescription = List.replicate 149 120 ++ [0xD83D, 0xDE00] :=
  ⟨rfl, _, rfl, rfl, rfl, rfl⟩

/-- C27, amended: for a non-empty list of `n` articles whose first min(8, n)
have a description, `generateNewsHTML` renders exactly min(8, n) cards, one for
each of the first min(8, n) articles in input order, whatever the later
articles are.  A card shows the first 150 UTF-16 code units of the description,
followed by "..." iff the description has more than 150 code units (a character
outside the Basic Multilingual Plane counts as two).  For a description inside
the Basic Multilingual Plane these are its first 150 characters, followed by
"..." iff it has more than 150 characters, and a description of at most 150
characters is shown whole with no "...". -/
theorem generateNewsHTML_cards (P : Platform) (clock : Clock) (articles : List Article)
    (hne : articles ≠ [])
    (hwell : ∀ a ∈ articles.take 8, a.title.isPrimitive = true ∧
      (∃ d, a.description = .str d ∧ d ≠ "") ∧ a.link.isPrimitive = true ∧
      a.date.isPrimitive = true) :
    ∃ cards, generateNewsHTML P clock (articlesResponse articles) = .ok (.news cards) ∧
      cards.length = min 8 articles.length ∧
      List.Forall₂ (fun (a : Article) (card : NewsCard) => ∃ d, a.description = .str d ∧
        (∀ title, a.title = .str title → title ≠ "" → card.title = title) ∧
        card.description = (utf16 d).take 150 ∧
        (card.ellipsis = true ↔ (utf16 d).length > 150) ∧
        ((utf16 d).length ≤ 150 → card.description = utf16 d ∧ card.ellipsis = false) ∧
        (InBmp d →
          card.description = utf16 (String.mk (d.toList.take 150)) ∧
          (card.ellipsis = true ↔ d.length > 150) ∧
          (d.length ≤ 150 → card.description = utf16 d ∧ card.ellipsis = false)))
        (articles.take 8) cards := by
  obtain ⟨cards, hcards, hall⟩ := newsCards_described P clock (articles.take 8) hwell
  refine ⟨cards, ?_, ?_, ?_⟩
  · rw [generateNewsHTML_of_items P clock (articlesResponse articles)
      (articles.map Article.toArticlesShape) rfl rfl]
    have hempty : (articles.map Article.toArticlesShape).isEmpty = false := by
      cases articles with
      | nil => exact absurd rfl hne
      | cons a rest => rfl
    rw [hempty, ← List.map_take, hcards]
    rfl
  · rw [← hall.length_eq, List.length_take]
  · refine hall.imp ?_
    rintro a card ⟨d, hdesc, h1, h2, h3⟩
    have hwhole : (utf16 d).length ≤ 150 → card.description = utf16 d ∧ card.ellipsis = false := by
      intro hle
      refine ⟨?_, ?_⟩
      · rw [h2, List.take_of_length_le hle]
      · rw [h3, decide_eq_false_iff_not]
        exact not_lt.2 hle
    refine ⟨d, hdesc, h1, h2, ?_, hwhole, ?_⟩
    · rw [h3, decide_eq_true_eq]
    · intro hbmp
      obtain ⟨htake, hlen⟩ := utf16_take_inBmp d hbmp 150
      refine ⟨?_, ?_, ?_⟩
      · rw [h2, htake]
      · rw [h3, decide_eq_true_eq, hlen]
      · intro hle
        exact hwhole (by rw [hlen]; exact hle)

set_option maxRecDepth 8192 in
/-- The statement of C27 (amended) on ten articles of which the last two have
no texts at all: eight cards are rendered; the first is whole and without
"...", the second, of 200 letters, is cut to 150 and followed by "...". -/
theorem generateNewsHTML_cards_witness :
    (∃ cards, generateNewsHTML samplePlatform sampleClock (articlesResponse tenArticles) =
        .ok (.news cards) ∧ cards.length = 8) ∧
    ∃ first second, generateNewsHTML samplePlatform sampleClock
        (articlesResponse describedArticles) = .ok (.news [first, second]) ∧
      first.description = utf16 "Rain over Kerala" ∧ first.ellipsis = false ∧
      second.description = List.replicate 150 120 ∧ second.ellipsis = true := by
  obtain ⟨cards, h, hlen, -⟩ := generateNewsHTML_cards samplePlatform sampleClock
    tenArticles (List.cons_ne_nil _ _) (by
      intro a ha
      have htake : tenArticles.take 8 =
          describedArticles ++ describedArticles ++ describedArticles ++ describedArticles :=
        rfl
      rw [htake] at ha
      simp only [describedArticles, List.cons_append, List.nil_append, List.mem_cons,
        List.mem_singleton, List.not_mem_nil, or_false] at ha
      rcases ha with rfl | rfl | rfl | rfl | rfl | rfl | rfl | rfl <;>
      exact ⟨rfl, ⟨_, rfl, by decide⟩, rfl, rfl⟩)
  exact ⟨⟨cards, h, hlen⟩, _, _, rfl, rfl, rfl, rfl, rfl⟩

end Weather
